import Mathlib

/-! Liquid transformation (`LiquidSystem::run`) of `src/liquid_system.cpp`

A shallow embedding of the liquid mechanic: the work queue of `map_mechanic.h`,
the neighbour scan, the decision on the new node, the node update with its hooks,
the re-enqueueing of neighbours and the purge of the queue, followed by theorems
about them.

Machine integers are `Nat`/`Int` with the narrowing conversions written out
(`wrap_s8`, `wrap_s16`, `to_u8`, `to_u32`).  The voxel map is a total function from
coordinates to nodes.  The callbacks of `MapMechanicDeps` are functions handed in
through `Env`; the calls made to them are recorded in trace fields.  The relighting
pass called at the end of `run` is a parameter of `Env` too: it may rewrite the light
value of any node.
-/

namespace Minetest

/-! ## Constants and plain data -/

/-- Modelled from the spec: the highest fill level of a flowing liquid, `LEVEL_MAX`
(`mapnode.h` is not among the sources; levels are 0..7). -/
def LIQUID_LEVEL_MAX : Nat := 7

/-- Modelled from the spec: the level of a source, one above `LIQUID_LEVEL_MAX`
(`mapnode.h` is not among the sources). -/
def LIQUID_LEVEL_SOURCE : Nat := LIQUID_LEVEL_MAX + 1

/-- Modelled from the spec: the three low bits of the auxiliary byte hold the fill level
(`mapnode.h` is not among the sources). -/
def LIQUID_LEVEL_MASK : Nat := 0x07

/-- Modelled from the spec: the fourth bit of the auxiliary byte is the flowing-down flag
(`mapnode.h` is not among the sources). -/
def LIQUID_FLOW_DOWN_MASK : Nat := 0x08

/-- Modelled from the spec: the content id of air, the default floodable substitute
(`mapnode.h` is not among the sources; 126 is the engine's id). -/
def CONTENT_AIR : Nat := 126

/-- Modelled from the spec: the content id of the unresolved, not yet loaded sentinel
(`mapnode.h` is not among the sources; 127 is the engine's id). -/
def CONTENT_IGNORE : Nat := 127

/-- The constant `WATER_DROP_BOOST` of `liquid_system.cpp`. -/
def WATER_DROP_BOOST : Nat := 4

/-- Narrowing to a signed 8 bit integer (`s8`). -/
def wrap_s8 (x : Int) : Int := (x + 128) % 256 - 128

/-- Narrowing to a signed 16 bit integer (`s16`). -/
def wrap_s16 (x : Int) : Int := (x + 32768) % 65536 - 32768

/-- The cast `(u8)x`. -/
def to_u8 (x : Int) : Nat := (x % 256).toNat

/-- The conversion of a signed 32 bit setting to `u32`. -/
def to_u32 (x : Int) : Nat := (x % 4294967296).toNat

/-- A coordinate: three `s16` components. -/
structure v3s16 where
  X : Int
  Y : Int
  Z : Int
deriving DecidableEq, Repr

/-- Componentwise sum of two coordinates, each component narrowed to `s16`. -/
def v3s16.add (a b : v3s16) : v3s16 :=
  ⟨wrap_s16 (a.X + b.X), wrap_s16 (a.Y + b.Y), wrap_s16 (a.Z + b.Z)⟩

/-- The table `liquid_6dirs`: upper before same level before lower. -/
def liquid_6dirs : Nat → v3s16
  | 0 => ⟨0, 1, 0⟩
  | 1 => ⟨0, 0, 1⟩
  | 2 => ⟨1, 0, 0⟩
  | 3 => ⟨0, 0, -1⟩
  | 4 => ⟨-1, 0, 0⟩
  | 5 => ⟨0, -1, 0⟩
  | _ => ⟨0, 0, 0⟩

/-- The enumeration `NeighborType`. -/
inductive NeighborType where
  | NEIGHBOR_UPPER
  | NEIGHBOR_SAME_LEVEL
  | NEIGHBOR_LOWER
deriving DecidableEq, Repr

/-- Modelled from the spec: the liquid role of a content type, None, Flowing or Source
(`nodedef.h` is not among the sources). -/
inductive LiquidType where
  | LIQUID_NONE
  | LIQUID_FLOWING
  | LIQUID_SOURCE
deriving DecidableEq, Repr

open NeighborType LiquidType

/-- Modelled from the spec: a node is a content id (`param0`), a light byte (`param1`) and
the auxiliary byte (`param2`) (`mapnode.h` is not among the sources). -/
structure MapNode where
  param0 : Nat
  param1 : Nat
  param2 : Nat
deriving DecidableEq, Repr

/-- The accessor `MapNode::getContent`. -/
def MapNode.getContent (n : MapNode) : Nat := n.param0

/-- The mutator `MapNode::setContent`. -/
def MapNode.setContent (n : MapNode) (c : Nat) : MapNode := { n with param0 := c }

/-- Modelled from the spec: the two light banks share `param1`; setting both banks to zero
clears it when the node's lighting flags say it holds light, and does nothing otherwise
(`mapnode.h` is not among the sources). -/
def MapNode.clearLight (n : MapNode) (has_light : Bool) : MapNode :=
  if has_light then { n with param1 := 0 } else n

/-- The record `NodeNeighbor`: node snapshot, vertical relation, coordinate. -/
structure NodeNeighbor where
  n : MapNode
  t : NeighborType
  p : v3s16
deriving DecidableEq, Repr

/-- Modelled from the spec: the fields of the content descriptor that the liquid mechanic
reads (`nodedef.h` is not among the sources). -/
structure ContentFeatures where
  liquid_type : LiquidType
  floodable : Bool
  floats : Bool
  liquid_alternative_flowing_id : Nat
  liquid_alternative_source_id : Nat
  liquid_renewable : Bool
  liquid_viscosity : Nat
  liquid_range : Nat
  has_light : Bool
deriving DecidableEq, Repr

/-- What `run` reads from its surroundings: the content registry (`m_nodedef->get`), the two
settings, the resident blocks (`getBlockNoCreateNoEx`, a block handle is a number), the flood
hook of `MapMechanicDeps`, the rollback manager (`none` when `m_gamedef->rollback()` is
null, otherwise its `getSuspect`), and what the external relighting pass finds: for the
store and the batch of change records handed to it, the light byte it leaves at each
coordinate (`relight`) and the blocks it notes as modified (`relit_blocks`). -/
structure Env where
  nodedef : Nat → ContentFeatures
  liquid_loop_max : Int
  liquid_queue_purge_time : Nat
  getBlockNoCreateNoEx : v3s16 → Option Nat
  node_on_flood : v3s16 → MapNode → MapNode → Bool
  rollback : Option (v3s16 → String)
  relight : (v3s16 → MapNode) → List (v3s16 × MapNode) → v3s16 → Nat
  relit_blocks : (v3s16 → MapNode) → List (v3s16 × MapNode) → List (v3s16 × Nat)

/-- Modelled from the spec: `getNodeBlockPos`, the chunk that owns a coordinate; chunks are
16 voxels wide (`map.h` is not among the sources). -/
def getNodeBlockPos (p : v3s16) : v3s16 := ⟨p.X / 16, p.Y / 16, p.Z / 16⟩

/-- Modelled from the spec: `Map::setNode`, the store after committing node `n` at `p`
(`map.h` is not among the sources).  The store never places the unresolved sentinel: a node
whose content is `CONTENT_IGNORE` is not written, which is what keeps the source of
`test_liquid.cpp` in place (its assertion of line 187) although its family has no source
form registered. -/
def setNode (m : v3s16 → MapNode) (p : v3s16) (n : MapNode) : v3s16 → MapNode :=
  if n.getContent = CONTENT_IGNORE then m
  else fun q => if q = p then n else m q

/-- Modelled from the spec: `UniqueQueue::push_back`, insertion is skipped when the value
is already queued (`util/container.h` is not among the sources). -/
def push_back (q : List v3s16) (v : v3s16) : List v3s16 :=
  if v ∈ q then q else q ++ [v]

/-- Insertion into the `std::map` of modified blocks: `modified_blocks[blockpos] = block`. -/
def mapInsert (m : List (v3s16 × Nat)) (k : v3s16) (b : Nat) : List (v3s16 × Nat) :=
  if m.any (fun e => decide (e.1 = k)) then
    m.map (fun e => if e.1 = k then (k, b) else e)
  else m ++ [(k, b)]

/-! ## Collecting information about the current node (lines 129-155) -/

/-- The locals set by the `switch (liquid_type)` on the current node; `proceed` is false
where the source says `continue` (a node that is neither liquid nor floodable). -/
structure NodeInfo where
  liquid_level : Int
  liquid_kind : Nat
  floodable_node : Nat
  liquid_type : LiquidType
  proceed : Bool
deriving DecidableEq, Repr

/-- The `switch (liquid_type)` of lines 138-155. -/
def collectNode (env : Env) (n0 : MapNode) : NodeInfo :=
  let cf := env.nodedef n0.getContent
  match cf.liquid_type with
  | LIQUID_SOURCE =>
    { liquid_level := LIQUID_LEVEL_SOURCE
      liquid_kind := cf.liquid_alternative_flowing_id
      floodable_node := CONTENT_AIR
      liquid_type := LIQUID_SOURCE
      proceed := true }
  | LIQUID_FLOWING =>
    { liquid_level := ((n0.param2 &&& LIQUID_LEVEL_MASK : Nat) : Int)
      liquid_kind := n0.getContent
      floodable_node := CONTENT_AIR
      liquid_type := LIQUID_FLOWING
      proceed := true }
  | LIQUID_NONE =>
    if !cf.floodable then
      { liquid_level := -1
        liquid_kind := CONTENT_IGNORE
        floodable_node := CONTENT_AIR
        liquid_type := LIQUID_NONE
        proceed := false }
    else
      { liquid_level := -1
        liquid_kind := CONTENT_AIR
        floodable_node := n0.getContent
        liquid_type := LIQUID_NONE
        proceed := true }

/-! ## Collecting information about the environment (lines 160-242) -/

/-- The locals of the neighbour scan: the working family, the four buckets, the three flags,
and the work queue (the scan pushes onto it). -/
structure Scan where
  liquid_kind : Nat
  sources : List NodeNeighbor
  flows : List NodeNeighbor
  airs : List NodeNeighbor
  neutrals : List NodeNeighbor
  flowing_down : Bool
  ignored_sources : Bool
  floating_node_above : Bool
  m_queue : List v3s16
deriving DecidableEq, Repr

/-- The `switch (i)` of lines 173-182. -/
def neighborType : Nat → NeighborType
  | 0 => NEIGHBOR_UPPER
  | 5 => NEIGHBOR_LOWER
  | _ => NEIGHBOR_SAME_LEVEL

/-- One turn of the `for` loop over the six directions (lines 172-241). -/
def scanNeighbor (env : Env) (m_map : v3s16 → MapNode) (p0 : v3s16)
    (liquid_type : LiquidType) (sc : Scan) (i : Nat) : Scan :=
  let nt := neighborType i
  let npos := p0.add (liquid_6dirs i)
  let nb : NodeNeighbor := ⟨m_map npos, nt, npos⟩
  let cfnb := env.nodedef nb.n.getContent
  let sc := if nt = NEIGHBOR_UPPER ∧ cfnb.floats = true then
      { sc with floating_node_above := true } else sc
  match cfnb.liquid_type with
  | LIQUID_NONE =>
    if cfnb.floodable then
      let sc := { sc with airs := sc.airs ++ [nb] }
      let sc := if nb.t ≠ NEIGHBOR_UPPER ∧ liquid_type ≠ LIQUID_NONE then
          { sc with m_queue := push_back sc.m_queue npos } else sc
      if nb.t = NEIGHBOR_LOWER then { sc with flowing_down := true } else sc
    else
      let sc := { sc with neutrals := sc.neutrals ++ [nb] }
      if nb.n.getContent = CONTENT_IGNORE then
        if nb.t = NEIGHBOR_LOWER then { sc with flowing_down := true }
        else { sc with ignored_sources := true }
      else sc
  | LIQUID_SOURCE =>
    let sc := if sc.liquid_kind = CONTENT_AIR then
        { sc with liquid_kind := cfnb.liquid_alternative_flowing_id } else sc
    if cfnb.liquid_alternative_flowing_id ≠ sc.liquid_kind then
      { sc with neutrals := sc.neutrals ++ [nb] }
    else
      if nt ≠ NEIGHBOR_LOWER then { sc with sources := sc.sources ++ [nb] } else sc
  | LIQUID_FLOWING =>
    let sc := if nb.t ≠ NEIGHBOR_SAME_LEVEL ∨
        (nb.n.param2 &&& LIQUID_FLOW_DOWN_MASK) ≠ LIQUID_FLOW_DOWN_MASK then
        (if sc.liquid_kind = CONTENT_AIR then
          { sc with liquid_kind := cfnb.liquid_alternative_flowing_id } else sc)
      else sc
    if cfnb.liquid_alternative_flowing_id ≠ sc.liquid_kind then
      { sc with neutrals := sc.neutrals ++ [nb] }
    else
      let sc := { sc with flows := sc.flows ++ [nb] }
      if nb.t = NEIGHBOR_LOWER then { sc with flowing_down := true } else sc

/-- The locals before the scan (lines 160-170). -/
def scanInit (liquid_kind : Nat) (m_queue : List v3s16) : Scan :=
  { liquid_kind := liquid_kind
    sources := []
    flows := []
    airs := []
    neutrals := []
    flowing_down := false
    ignored_sources := false
    floating_node_above := false
    m_queue := m_queue }

/-- The whole `for (u16 i = 0; i < 6; i++)` loop of lines 171-242. -/
def scanNeighbors (env : Env) (m_map : v3s16 → MapNode) (p0 : v3s16)
    (liquid_type : LiquidType) (liquid_kind : Nat) (m_queue : List v3s16) : Scan :=
  [0, 1, 2, 3, 4, 5].foldl (scanNeighbor env m_map p0 liquid_type)
    (scanInit liquid_kind m_queue)

/-! ## Deciding on the type and level of the current node (lines 247-318) -/

/-- What the decision leaves behind: the new content, the new level, the candidate level
`max_node_level`, and whether the voxel was pushed onto `must_reflow` (line 308). -/
structure Decision where
  new_node_content : Nat
  new_node_level : Int
  max_node_level : Int
  push_reflow : Bool
deriving DecidableEq, Repr

/-- One turn of the loop over the flow bucket (lines 275-293): the candidate level after
looking at flow neighbour `f`.  The values assigned lie in `-1..7`, so the narrowing to `s8`
changes nothing and is left out. -/
def inflowStep (max_node_level : Int) (f : NodeNeighbor) : Int :=
  let nb_liquid_level : Nat := f.n.param2 &&& LIQUID_LEVEL_MASK
  match f.t with
  | NEIGHBOR_UPPER =>
    if ((nb_liquid_level + WATER_DROP_BOOST : Nat) : Int) > max_node_level then
      if nb_liquid_level + WATER_DROP_BOOST < LIQUID_LEVEL_MAX then
        ((nb_liquid_level + WATER_DROP_BOOST : Nat) : Int)
      else (LIQUID_LEVEL_MAX : Int)
    else if (nb_liquid_level : Int) > max_node_level then (nb_liquid_level : Int)
    else max_node_level
  | NEIGHBOR_LOWER => max_node_level
  | NEIGHBOR_SAME_LEVEL =>
    if (f.n.param2 &&& LIQUID_FLOW_DOWN_MASK) ≠ LIQUID_FLOW_DOWN_MASK ∧
        nb_liquid_level > 0 ∧ (nb_liquid_level : Int) - 1 > max_node_level then
      (nb_liquid_level : Int) - 1
    else max_node_level

/-- The candidate level: the loop of lines 274-294 started at `-1`. -/
def maxInflow (flows : List NodeNeighbor) : Int := flows.foldl inflowStep (-1)

/-- The level chosen under viscosity (lines 297-311), with the flag of line 307. -/
def viscosityLevel (viscosity : Nat) (liquid_level max_node_level : Int) : Int × Bool :=
  if viscosity > 1 ∧ max_node_level ≠ liquid_level then
    let level_inc : Int := wrap_s8 (max_node_level - liquid_level)
    let new_node_level : Int :=
      if level_inc < -(viscosity : Int) ∨ level_inc > (viscosity : Int) then
        wrap_s8 (liquid_level + Int.tdiv level_inc (viscosity : Int))
      else if level_inc < 0 then wrap_s8 (liquid_level - 1)
      else if level_inc > 0 then wrap_s8 (liquid_level + 1)
      else -1
    (new_node_level, decide (new_node_level ≠ max_node_level))
  else (max_node_level, false)

/-- The range of the working family, capped (lines 251-253). -/
def liquidRange (env : Env) (liquid_kind : Nat) : Nat :=
  let range := (env.nodedef liquid_kind).liquid_range
  if range > LIQUID_LEVEL_MAX + 1 then LIQUID_LEVEL_MAX + 1 else range

/-- The four-way decision of lines 255-318. -/
def decideNode (env : Env) (info : NodeInfo) (sc : Scan) : Decision :=
  let liquid_kind := sc.liquid_kind
  let range := liquidRange env liquid_kind
  if (sc.sources.length ≥ 2 ∧ (env.nodedef liquid_kind).liquid_renewable = true) ∨
      info.liquid_type = LIQUID_SOURCE then
    { new_node_content := (env.nodedef liquid_kind).liquid_alternative_source_id
      new_node_level := -1
      max_node_level := -1
      push_reflow := false }
  else if sc.sources.length ≥ 1 ∧ (sc.sources.head?.map (fun s => s.t)) ≠ some NEIGHBOR_LOWER then
    { new_node_content :=
        if (LIQUID_LEVEL_MAX : Int) ≥ (LIQUID_LEVEL_MAX : Int) + 1 - (range : Int) then liquid_kind
        else info.floodable_node
      new_node_level := LIQUID_LEVEL_MAX
      max_node_level := LIQUID_LEVEL_MAX
      push_reflow := false }
  else if sc.ignored_sources = true ∧ info.liquid_level ≥ 0 then
    { new_node_content := liquid_kind
      new_node_level := info.liquid_level
      max_node_level := -1
      push_reflow := false }
  else
    let max_node_level := maxInflow sc.flows
    let viscosity := (env.nodedef liquid_kind).liquid_viscosity
    let v := viscosityLevel viscosity info.liquid_level max_node_level
    { new_node_content :=
        if max_node_level ≥ (LIQUID_LEVEL_MAX : Int) + 1 - (range : Int) then liquid_kind
        else info.floodable_node
      new_node_level := v.1
      max_node_level := max_node_level
      push_reflow := v.2 }

/-! ## Updating the node and enqueueing neighbours (lines 320-411) -/

/-- The state threaded through the loop of `run`: the queue, the map, the three local
vectors, the caller's `modified_blocks`, and three traces that the source does not keep:
the calls of the flood hook, the actions reported to the rollback manager, and the
coordinates taken from the front of the queue. -/
structure LoopState where
  m_queue : List v3s16
  m_map : v3s16 → MapNode
  must_reflow : List v3s16
  changed_nodes : List (v3s16 × MapNode)
  check_for_falling : List v3s16
  modified_blocks : List (v3s16 × Nat)
  flood_calls : List (v3s16 × MapNode × MapNode)
  rollback_actions : List (String × v3s16 × MapNode × MapNode)
  dequeued : List v3s16

/-- The test of lines 323-327: nothing has changed. -/
def unchanged (env : Env) (n0 : MapNode) (sc : Scan) (d : Decision) : Bool :=
  decide (d.new_node_content = n0.getContent) &&
    (decide ((env.nodedef n0.getContent).liquid_type ≠ LIQUID_FLOWING) ||
      (decide ((n0.param2 &&& LIQUID_LEVEL_MASK) = to_u8 d.new_node_level) &&
        (decide ((n0.param2 &&& LIQUID_FLOW_DOWN_MASK) = LIQUID_FLOW_DOWN_MASK)
          == sc.flowing_down)))

/-- The node built in lines 339-350: the auxiliary byte, then the content. -/
def updatedNode (env : Env) (n0 : MapNode) (sc : Scan) (d : Decision) : MapNode :=
  let n1 : MapNode :=
    if (env.nodedef d.new_node_content).liquid_type = LIQUID_FLOWING then
      { n0 with param2 := (if sc.flowing_down then LIQUID_FLOW_DOWN_MASK else 0x00) |||
          (d.new_node_level % 8).toNat }
    else
      { n0 with param2 := n0.param2 &&& 0xF0 }
  n1.setContent d.new_node_content

/-- The pushes of lines 395-411, by the liquid type of the new content. -/
def enqueueNeighbors (env : Env) (n0 : MapNode) (sc : Scan) (m_queue : List v3s16) :
    List v3s16 :=
  match (env.nodedef n0.getContent).liquid_type with
  | LIQUID_NONE => (sc.flows.map (fun f => f.p)).foldl push_back m_queue
  | _ =>
    let q := ((sc.flows.filter (fun f => decide (f.t ≠ NEIGHBOR_UPPER))).map
      (fun f => f.p)).foldl push_back m_queue
    ((sc.airs.filter (fun f => decide (f.t ≠ NEIGHBOR_UPPER))).map
      (fun f => f.p)).foldl push_back q

/-- Lines 358-411, the part after the flood hook let the change pass: the light of the new
node `n1` is cleared, the change is reported to the rollback manager when there is a suspect,
the node is set, the block and the change record are noted when the block is resident, and
the neighbours are enqueued.  `n00` is the node as it was. -/
def commitNode (env : Env) (p0 : v3s16) (n00 n1 : MapNode) (sc : Scan) (s : LoopState) :
    LoopState :=
  let f0 := (env.nodedef n1.getContent).has_light
  let n0 := (n1.clearLight f0).clearLight f0
  let blockpos := getNodeBlockPos p0
  { m_queue := enqueueNeighbors env n0 sc s.m_queue
    m_map := setNode s.m_map p0 n0
    must_reflow := s.must_reflow
    changed_nodes :=
      match env.getBlockNoCreateNoEx blockpos with
      | some _ => s.changed_nodes ++ [(p0, n00)]
      | none => s.changed_nodes
    check_for_falling := s.check_for_falling
    modified_blocks :=
      match env.getBlockNoCreateNoEx blockpos with
      | some block => mapInsert s.modified_blocks blockpos block
      | none => s.modified_blocks
    flood_calls := s.flood_calls
    rollback_actions :=
      match env.rollback with
      | some getSuspect =>
        if getSuspect p0 ≠ "" then
          s.rollback_actions ++ [(getSuspect p0, p0, s.m_map p0, setNode s.m_map p0 n0 p0)]
        else s.rollback_actions
      | none => s.rollback_actions
    dequeued := s.dequeued }

/-- Lines 330-411, once something has changed: the falling check is noted, the new node is
built, the flood hook is asked when the node was a floodable substitute other than air, and
unless it vetoes the change is committed. -/
def applyChange (env : Env) (p0 : v3s16) (n0 : MapNode) (info : NodeInfo) (sc : Scan)
    (d : Decision) (s : LoopState) : LoopState :=
  let s1 : LoopState :=
    { s with check_for_falling :=
        if sc.floating_node_above = true ∧ d.new_node_content = CONTENT_AIR then
          s.check_for_falling ++ [p0]
        else s.check_for_falling }
  let n1 := updatedNode env n0 sc d
  if info.floodable_node ≠ CONTENT_AIR then
    let s2 : LoopState := { s1 with flood_calls := s1.flood_calls ++ [(p0, n0, n1)] }
    if env.node_on_flood p0 n0 n1 = true then s2
    else commitNode env p0 n0 n1 sc s2
  else commitNode env p0 n0 n1 sc s1

/-- The body of the `while` loop after the front of the queue was taken (lines 124-411),
for the coordinate `p0`. -/
def transformNode (env : Env) (p0 : v3s16) (s : LoopState) : LoopState :=
  let n0 := s.m_map p0
  let info := collectNode env n0
  if info.proceed = false then s
  else
    let sc := scanNeighbors env s.m_map p0 info.liquid_type info.liquid_kind s.m_queue
    let d := decideNode env info sc
    let s1 : LoopState :=
      { s with m_queue := sc.m_queue
               must_reflow :=
                 if d.push_reflow = true then s.must_reflow ++ [p0] else s.must_reflow }
    if unchanged env n0 sc d = true then s1
    else applyChange env p0 n0 info sc d s1

/-! ## The loop and the whole of `run` (lines 91-475) -/

/-- The `while` loop of lines 111-412.  `loopcount` counts as in the source; the first
argument bounds the number of turns and is given as `initial_size` by `run`, which the loop
can never use up before its own test `loopcount >= initial_size` stops it
(`runLoop_fuel`). -/
def runLoop (env : Env) (initial_size loop_max : Nat) : Nat → Nat → LoopState → LoopState
  | 0, _, s => s
  | fuel + 1, loopcount, s =>
    match s.m_queue with
    | [] => s
    | p0 :: rest =>
      if loopcount ≥ initial_size ∨ loopcount ≥ loop_max then s
      else
        runLoop env initial_size loop_max fuel (loopcount + 1)
          (transformNode env p0 { s with m_queue := rest, dequeued := s.dequeued ++ [p0] })

/-- Modelled from the spec: `voxalgo::update_lighting_nodes`, the external relighting pass
called at line 418 (`voxelalgorithms.cpp` is not among the sources).  It repairs the light
values of the store, which for both banks are held in `param1`, at any coordinate it finds
necessary, and notes the blocks it touched in `modified_blocks`; it never changes a content
or an auxiliary byte, and it goes through the change records, so that it does nothing for
an empty batch.  What it writes is left to the environment. -/
def update_lighting_nodes (env : Env) (m_map : v3s16 → MapNode)
    (changed_nodes : List (v3s16 × MapNode)) (modified_blocks : List (v3s16 × Nat)) :
    (v3s16 → MapNode) × List (v3s16 × Nat) :=
  match changed_nodes with
  | [] => (m_map, modified_blocks)
  | _ :: _ =>
    (fun p => { m_map p with param1 := env.relight m_map changed_nodes p },
      (env.relit_blocks m_map changed_nodes).foldl (fun acc e => mapInsert acc e.1 e.2)
        modified_blocks)

/-- Modelled from the spec: `UniqueQueue::pop_front` (`util/container.h` is not among the
sources); the second component tells whether the queue was empty. -/
def pop_front (q : List v3s16) : List v3s16 × Bool :=
  match q with
  | [] => ([], true)
  | _ :: rest => (rest, false)

/-- The loop `while (dump_qty--) m_queue.pop_front()` of lines 467-468; the second
component counts the pops attempted on an empty queue. -/
def dumpLoop : Nat → List v3s16 → Nat → List v3s16 × Nat
  | 0, q, e => (q, e)
  | dump_qty + 1, q, e =>
    dumpLoop dump_qty (pop_front q).1 (if (pop_front q).2 then e + 1 else e)

/-- The members of `LiquidSystem` together with the queue of `MapMechanic` and the map. -/
structure LiquidSystem where
  m_queue : List v3s16
  m_map : v3s16 → MapNode
  m_unprocessed_count : Nat
  m_inc_trending_up_start_time : Nat
  m_queue_size_timer_started : Bool

/-- The method `MapMechanic::push_node`. -/
def LiquidSystem.push_node (ls : LiquidSystem) (node : v3s16) : LiquidSystem :=
  { ls with m_queue := push_back ls.m_queue node }

/-- What one invocation of `run` leaves behind: the system, the caller's `modified_blocks`,
the batch `changed_nodes`, the calls made to the lighting pass, to `check_for_falling`, to
`on_liquid_transformed` and to the flood hook, the rollback actions, the coordinates taken
from the queue in the loop, how many entries the purge dropped and how many of its pops met
an empty queue. -/
structure RunResult where
  sys : LiquidSystem
  modified_blocks : List (v3s16 × Nat)
  changed_nodes : List (v3s16 × MapNode)
  lighting_calls : List (List (v3s16 × MapNode))
  falling_calls : List v3s16
  transformed_calls : List (List (v3s16 × MapNode))
  flood_calls : List (v3s16 × MapNode × MapNode)
  rollback_actions : List (String × v3s16 × MapNode × MapNode)
  dequeued : List v3s16
  dumped : Nat
  empty_pops : Nat

/-- The state in which the loop of `run` starts. -/
def loopInit (ls : LiquidSystem) (modified_blocks : List (v3s16 × Nat)) : LoopState :=
  { m_queue := ls.m_queue
    m_map := ls.m_map
    must_reflow := []
    changed_nodes := []
    check_for_falling := []
    modified_blocks := modified_blocks
    flood_calls := []
    rollback_actions := []
    dequeued := [] }

/-- The state after the loop and the re-pushing of `must_reflow` (lines 95-416). -/
def afterLoop (env : Env) (ls : LiquidSystem) (modified_blocks : List (v3s16 × Nat)) :
    LoopState :=
  let initial_size := ls.m_queue.length
  let loop_max := to_u32 env.liquid_loop_max
  let s := runLoop env initial_size loop_max initial_size 0 (loopInit ls modified_blocks)
  { s with m_queue := s.must_reflow.foldl push_back s.m_queue }

/-- The method `LiquidSystem::run`; `curr_time` is what `porting::getTimeMs()` returns.  The
store and the modified blocks it leaves are those of the loop after the relighting pass of
line 418. -/
def LiquidSystem.run (env : Env) (curr_time : Nat) (ls : LiquidSystem)
    (modified_blocks : List (v3s16 × Nat)) : RunResult :=
  let liquid_loop_max := to_u32 env.liquid_loop_max
  let s := afterLoop env ls modified_blocks
  let lit := update_lighting_nodes env s.m_map s.changed_nodes s.modified_blocks
  let out : RunResult :=
    { sys := { ls with m_queue := s.m_queue, m_map := lit.1 }
      modified_blocks := lit.2
      changed_nodes := s.changed_nodes
      lighting_calls := [s.changed_nodes]
      falling_calls := s.check_for_falling
      transformed_calls := [s.changed_nodes]
      flood_calls := s.flood_calls
      rollback_actions := s.rollback_actions
      dequeued := s.dequeued
      dumped := 0
      empty_pops := 0 }
  let time_until_purge := env.liquid_queue_purge_time % 65536
  if time_until_purge = 0 then out else
  let time_until_purge := (time_until_purge * 1000) % 65536
  let prev_unprocessed := ls.m_unprocessed_count
  let m_unprocessed_count := s.m_queue.length
  let started : Bool :=
    if m_unprocessed_count ≤ prev_unprocessed then false else true
  let start_time :=
    if m_unprocessed_count ≤ prev_unprocessed then ls.m_inc_trending_up_start_time
    else if !ls.m_queue_size_timer_started then curr_time
    else ls.m_inc_trending_up_start_time
  let started : Bool := if started = true ∧ start_time > curr_time then false else started
  if started = true ∧
      (curr_time + 18446744073709551616 - start_time) % 18446744073709551616 > time_until_purge ∧
      m_unprocessed_count > liquid_loop_max then
    let dump_qty := m_unprocessed_count - liquid_loop_max
    let r := dumpLoop dump_qty s.m_queue 0
    { out with
      sys := { m_queue := r.1
               m_map := lit.1
               m_unprocessed_count := r.1.length
               m_inc_trending_up_start_time := start_time
               m_queue_size_timer_started := false }
      dumped := dump_qty
      empty_pops := r.2 }
  else
    { out with
      sys := { m_queue := s.m_queue
               m_map := lit.1
               m_unprocessed_count := m_unprocessed_count
               m_inc_trending_up_start_time := start_time
               m_queue_size_timer_started := started } }

/-! ## Worlds on which the theorems are tried -/

/-- A content that is neither liquid nor floodable, with the registry's defaults. -/
def solidFeatures : ContentFeatures :=
  { liquid_type := LIQUID_NONE
    floodable := false
    floats := false
    liquid_alternative_flowing_id := CONTENT_IGNORE
    liquid_alternative_source_id := CONTENT_IGNORE
    liquid_renewable := false
    liquid_viscosity := 0
    liquid_range := 8
    has_light := true }

/-- A registry with one well-formed renewable liquid family of the given viscosity and
range (source 10, flowing 11), a floodable plant (20), a floating solid (21), air, and
solid content everywhere else (the unresolved sentinel included). -/
def waterDef (viscosity range : Nat) : Nat → ContentFeatures
  | 10 => { solidFeatures with
            liquid_type := LIQUID_SOURCE
            liquid_alternative_flowing_id := 11
            liquid_alternative_source_id := 10
            liquid_renewable := true
            liquid_viscosity := viscosity
            liquid_range := range }
  | 11 => { solidFeatures with
            liquid_type := LIQUID_FLOWING
            liquid_alternative_flowing_id := 11
            liquid_alternative_source_id := 10
            liquid_renewable := true
            liquid_viscosity := viscosity
            liquid_range := range }
  | 20 => { solidFeatures with floodable := true }
  | 21 => { solidFeatures with floats := true }
  | 126 => { solidFeatures with floodable := true }
  | _ => solidFeatures

/-- An environment over `waterDef`: a cap of 1000 voxels a cycle, purging off, every block
resident, a flood hook answering `veto` always, no rollback manager, and a relighting pass
that leaves every light value as it finds it (a world without light). -/
def waterEnv (viscosity range : Nat) (veto : Bool) : Env :=
  { nodedef := waterDef viscosity range
    liquid_loop_max := 1000
    liquid_queue_purge_time := 0
    getBlockNoCreateNoEx := fun _ => some 0
    node_on_flood := fun _ _ _ => veto
    rollback := none
    relight := fun m _ p => (m p).param1
    relit_blocks := fun _ _ => [] }

/-- A map that holds the listed nodes and air everywhere else. -/
def mapOf (l : List (v3s16 × MapNode)) : v3s16 → MapNode :=
  fun p => match l.find? (fun e => decide (e.1 = p)) with
    | some e => e.2
    | none => ⟨CONTENT_AIR, 0, 0⟩

/-- A system with the given queue and map and a fresh backpressure state. -/
def systemOf (q : List v3s16) (m : v3s16 → MapNode) : LiquidSystem :=
  { m_queue := q
    m_map := m
    m_unprocessed_count := 0
    m_inc_trending_up_start_time := 0
    m_queue_size_timer_started := false }

/-- A loop state with the given queue and map and nothing recorded yet. -/
def stateOf (q : List v3s16) (m : v3s16 → MapNode) : LoopState :=
  loopInit (systemOf q m) []

/-- The registry of `test_liquid.cpp` (lines 107-130): `water_source` (0) names
`water_flowing` as its flowing form, `water_flowing` (1) names `water_source` as its flowing
form, neither names a source form (it stays the unresolved sentinel), `dirt` (2) is solid;
air is the floodable built-in. -/
def testDef : Nat → ContentFeatures
  | 0 => { solidFeatures with
           liquid_type := LIQUID_SOURCE
           liquid_renewable := true
           liquid_viscosity := 7
           liquid_range := 7
           liquid_alternative_flowing_id := 1 }
  | 1 => { solidFeatures with
           liquid_type := LIQUID_FLOWING
           liquid_renewable := true
           liquid_viscosity := 7
           liquid_range := 7
           liquid_alternative_flowing_id := 0 }
  | 126 => { solidFeatures with floodable := true }
  | _ => solidFeatures

/-- The environment of `test_liquid.cpp`: the default settings (`liquid_loop_max` 100000,
`liquid_queue_purge_time` 0), every block resident, a flood hook that always vetoes
(line 165), no rollback manager, and a relighting pass that leaves every light value as it
finds it (the map of the test holds no light). -/
def testEnv : Env :=
  { nodedef := testDef
    liquid_loop_max := 100000
    liquid_queue_purge_time := 0
    getBlockNoCreateNoEx := fun _ => some 0
    node_on_flood := fun _ _ _ => true
    rollback := none
    relight := fun m _ p => (m p).param1
    relit_blocks := fun _ _ => [] }

/-- The map of `test_liquid.cpp` (lines 132-150): dirt below height 7, air above, and a
water source at (0, 10, 0). -/
def testMap : v3s16 → MapNode :=
  fun p =>
    if p = ⟨0, 10, 0⟩ then ⟨0, 0, 0⟩
    else if p.Y < 7 then ⟨2, 0, 0⟩
    else ⟨CONTENT_AIR, 0, 0⟩

/-- A registry in which a liquid names air as its flowing form: a source (30) whose paired
flowing id is `CONTENT_AIR`, a floodable plant (20), a floating solid (21), air, and solid
content everywhere else. -/
def airFamilyDef : Nat → ContentFeatures
  | 30 => { solidFeatures with
            liquid_type := LIQUID_SOURCE
            liquid_alternative_flowing_id := CONTENT_AIR
            liquid_alternative_source_id := 30
            liquid_viscosity := 1 }
  | 20 => { solidFeatures with floodable := true }
  | 21 => { solidFeatures with floats := true }
  | 126 => { solidFeatures with floodable := true }
  | _ => solidFeatures

/-- An environment over `airFamilyDef` whose flood hook always vetoes and whose relighting
pass leaves every light value as it finds it. -/
def airFamilyEnv : Env :=
  { nodedef := airFamilyDef
    liquid_loop_max := 1000
    liquid_queue_purge_time := 0
    getBlockNoCreateNoEx := fun _ => some 0
    node_on_flood := fun _ _ _ => true
    rollback := none
    relight := fun m _ p => (m p).param1
    relit_blocks := fun _ _ => [] }

/-- A registry with the water family of `waterDef` (viscosity 1, full range) beside the
source (30) of `airFamilyDef` that names air as its flowing form. -/
def twoFamilyDef : Nat → ContentFeatures
  | 10 => waterDef 1 8 10
  | 11 => waterDef 1 8 11
  | c => airFamilyDef c

/-- An environment over `twoFamilyDef` whose flood hook never vetoes. -/
def twoFamilyEnv : Env :=
  { airFamilyEnv with
    nodedef := twoFamilyDef
    node_on_flood := fun _ _ _ => false }

/-! ## Words of the claims about a neighbourhood -/

/-- The node the scan reads in direction `i` from `p0`. -/
def neighborNode (m : v3s16 → MapNode) (p0 : v3s16) (i : Nat) : MapNode :=
  m (p0.add (liquid_6dirs i))

/-- The neighbour in direction `i` is a Source whose paired flowing id is `kind`. -/
def isSourceOf (env : Env) (m : v3s16 → MapNode) (p0 : v3s16) (kind : Nat) (i : Nat) : Prop :=
  (env.nodedef (neighborNode m p0 i).getContent).liquid_type = LIQUID_SOURCE ∧
    (env.nodedef (neighborNode m p0 i).getContent).liquid_alternative_flowing_id = kind

/-- Step 1 of the decision applies: two counted sources of a renewable family, or the voxel
is itself a source (line 255). -/
def step1Applies (env : Env) (info : NodeInfo) (sc : Scan) : Prop :=
  (sc.sources.length ≥ 2 ∧ (env.nodedef sc.liquid_kind).liquid_renewable = true) ∨
    info.liquid_type = LIQUID_SOURCE

/-- Step 2 of the decision applies: a counted source that is not the lower one
(line 260). -/
def step2Applies (sc : Scan) : Prop :=
  sc.sources.length ≥ 1 ∧ (sc.sources.head?.map (fun s => s.t)) ≠ some NEIGHBOR_LOWER

/-- Step 3 of the decision applies: an unresolved neighbour beside or above, and the voxel
has a level (line 267). -/
def step3Applies (info : NodeInfo) (sc : Scan) : Prop :=
  sc.ignored_sources = true ∧ info.liquid_level ≥ 0

instance (env : Env) (m : v3s16 → MapNode) (p0 : v3s16) (kind i : Nat) :
    Decidable (isSourceOf env m p0 kind i) := by
  unfold isSourceOf
  exact inferInstance

instance (env : Env) (info : NodeInfo) (sc : Scan) : Decidable (step1Applies env info sc) := by
  unfold step1Applies
  exact inferInstance

instance (sc : Scan) : Decidable (step2Applies sc) := by
  unfold step2Applies
  exact inferInstance

instance (info : NodeInfo) (sc : Scan) : Decidable (step3Applies info sc) := by
  unfold step3Applies
  exact inferInstance

/-- Modelled from the spec: the two built-in entries of the registry (`nodedef.cpp` is not
among the sources): the unresolved sentinel is neither a liquid nor floodable, air is a
floodable content that is not a liquid. -/
def builtinEntries (env : Env) : Prop :=
  (env.nodedef CONTENT_IGNORE).liquid_type = LIQUID_NONE ∧
    (env.nodedef CONTENT_IGNORE).floodable = false ∧
    (env.nodedef CONTENT_AIR).liquid_type = LIQUID_NONE ∧
    (env.nodedef CONTENT_AIR).floodable = true

instance (env : Env) : Decidable (builtinEntries env) := by
  unfold builtinEntries
  exact inferInstance

/-! ## Words of the claims about invocations -/

/-- Consecutive invocations of `run`, one for each clock reading, each entered with the
system and the modified blocks the one before left behind; the results in order. -/
def runMany (env : Env) : List Nat → LiquidSystem → List (v3s16 × Nat) → List RunResult
  | [], _, _ => []
  | t :: ts, ls, mb => ls.run env t mb :: runMany env ts (ls.run env t mb).sys
      (ls.run env t mb).modified_blocks

/-- All the transformed notifications delivered by a series of invocations, in order. -/
def notifications (rs : List RunResult) : List (List (v3s16 × MapNode)) :=
  (rs.map (fun r => r.transformed_calls)).flatten

/-- The coordinates of the three traces, in order, are among the coordinates taken from the
queue, in order. -/
def tracesFollowQueue (s : LoopState) : Prop :=
  (s.changed_nodes.map (fun e => e.1)).Sublist s.dequeued ∧
    (s.flood_calls.map (fun e => e.1)).Sublist s.dequeued ∧
    s.check_for_falling.Sublist s.dequeued

/-! ## Words of the claims about the purge -/

/-- The per-cycle cap as `run` reads it (line 108). -/
def loopMax (env : Env) : Nat := to_u32 env.liquid_loop_max

/-- The purge window in milliseconds as `run` computes it, in 16 bits (lines 429-434). -/
def purgeThreshold (env : Env) : Nat :=
  ((env.liquid_queue_purge_time % 65536) * 1000) % 65536

/-- The start of the growth streak after lines 441-447, for the post-loop queue size
`count`. -/
def streakStart (ls : LiquidSystem) (curr_time count : Nat) : Nat :=
  if count ≤ ls.m_unprocessed_count then ls.m_inc_trending_up_start_time
  else if !ls.m_queue_size_timer_started then curr_time
  else ls.m_inc_trending_up_start_time

/-- The growth-streak timer is running after lines 441-451: the queue has grown since the
size recorded by the invocation before, and the start of the streak is not after the
clock. -/
def streakRunning (ls : LiquidSystem) (curr_time count : Nat) : Prop :=
  ls.m_unprocessed_count < count ∧ streakStart ls curr_time count ≤ curr_time

/-- The purge condition of lines 431 and 458-460, for the post-loop queue size `count`. -/
def purgeCondition (env : Env) (curr_time : Nat) (ls : LiquidSystem) (count : Nat) : Prop :=
  env.liquid_queue_purge_time % 65536 ≠ 0 ∧ streakRunning ls curr_time count ∧
    purgeThreshold env < curr_time - streakStart ls curr_time count ∧ loopMax env < count

instance (ls : LiquidSystem) (curr_time count : Nat) :
    Decidable (streakRunning ls curr_time count) := by
  unfold streakRunning
  exact inferInstance

instance (env : Env) (curr_time : Nat) (ls : LiquidSystem) (count : Nat) :
    Decidable (purgeCondition env curr_time ls count) := by
  unfold purgeCondition
  exact inferInstance

/-- An environment over the water registry with viscosity 7 and full range, a purge window
of `w` seconds, a cap of `cap` voxels a cycle, a flood hook that always vetoes and a
relighting pass that leaves every light value as it finds it. -/
def purgeEnv (w : Nat) (cap : Int) : Env :=
  { nodedef := waterDef 7 8
    liquid_loop_max := cap
    liquid_queue_purge_time := w
    getBlockNoCreateNoEx := fun _ => some 0
    node_on_flood := fun _ _ _ => true
    rollback := none
    relight := fun m _ p => (m p).param1
    relit_blocks := fun _ _ => [] }

/-- Three floodable plants, each under flowing water of level 7. -/
def plantsMap : v3s16 → MapNode :=
  mapOf [(⟨0, 10, 0⟩, ⟨20, 0, 0⟩), (⟨0, 11, 0⟩, ⟨11, 0, 7⟩),
    (⟨5, 10, 0⟩, ⟨20, 0, 0⟩), (⟨5, 11, 0⟩, ⟨11, 0, 7⟩),
    (⟨10, 10, 0⟩, ⟨20, 0, 0⟩), (⟨10, 11, 0⟩, ⟨11, 0, 7⟩)]

/-- A map of solid content everywhere. -/
def solidMap : v3s16 → MapNode := fun _ => ⟨2, 0, 0⟩

/-- A system whose queue is growing: after a first invocation at time 0 over three solid
voxels with a cap of 1 (the growth streak starts there), two more voxels are scheduled. -/
def growingSystem : LiquidSystem :=
  ((((systemOf [⟨0, 0, 0⟩, ⟨1, 0, 0⟩, ⟨2, 0, 0⟩] solidMap).run (purgeEnv 66 1) 0
    []).sys.push_node ⟨3, 0, 0⟩).push_node ⟨4, 0, 0⟩)

/-! ## Words of the claims about the buckets -/

/-- The record the scan makes of the neighbour in direction `i` (line 184). -/
def neighborRecord (m : v3s16 → MapNode) (p0 : v3s16) (i : Nat) : NodeNeighbor :=
  ⟨neighborNode m p0 i, neighborType i, p0.add (liquid_6dirs i)⟩

/-- The liquid type of the neighbour in direction `i`. -/
def neighborLiquid (env : Env) (m : v3s16 → MapNode) (p0 : v3s16) (i : Nat) : LiquidType :=
  (env.nodedef (neighborNode m p0 i).getContent).liquid_type

/-- The paired flowing id of the neighbour in direction `i`. -/
def neighborFamily (env : Env) (m : v3s16 → MapNode) (p0 : v3s16) (i : Nat) : Nat :=
  (env.nodedef (neighborNode m p0 i).getContent).liquid_alternative_flowing_id

/-- The neighbour in direction `i` is a Flowing node on the same level with its
flowing-down flag set. -/
def fallsBeside (env : Env) (m : v3s16 → MapNode) (p0 : v3s16) (i : Nat) : Prop :=
  neighborLiquid env m p0 i = LIQUID_FLOWING ∧ neighborType i = NEIGHBOR_SAME_LEVEL ∧
    (neighborNode m p0 i).param2 &&& LIQUID_FLOW_DOWN_MASK = LIQUID_FLOW_DOWN_MASK

/-- The neighbour in direction `i` can give a voxel that is not a liquid its family: it is a
Source, or a Flowing node that is not one on the same level with its flowing-down flag
set. -/
def resolvesFamily (env : Env) (m : v3s16 → MapNode) (p0 : v3s16) (i : Nat) : Prop :=
  neighborLiquid env m p0 i = LIQUID_SOURCE ∨
    (neighborLiquid env m p0 i = LIQUID_FLOWING ∧ ¬ fallsBeside env m p0 i)

instance (env : Env) (m : v3s16 → MapNode) (p0 : v3s16) (i : Nat) :
    Decidable (fallsBeside env m p0 i) := by
  unfold fallsBeside
  exact inferInstance

instance (env : Env) (m : v3s16 → MapNode) (p0 : v3s16) (i : Nat) :
    Decidable (resolvesFamily env m p0 i) := by
  unfold resolvesFamily
  exact inferInstance

/-- The scan after its first `n` turns. -/
def scanUpTo (env : Env) (m : v3s16 → MapNode) (p0 : v3s16) (liquid_type : LiquidType)
    (liquid_kind : Nat) (q : List v3s16) (n : Nat) : Scan :=
  (List.range n).foldl (scanNeighbor env m p0 liquid_type) (scanInit liquid_kind q)

/-- The four buckets of the scan. -/
inductive Bucket where
  | Air
  | Neutral
  | Source
  | Flow
deriving DecidableEq, Repr

/-- Between the scan states `before` and `after`, the record `r` was appended to bucket `b`
and the other three buckets were left alone. -/
def placedIn (before after : Scan) (r : NodeNeighbor) : Bucket → Prop
  | Bucket.Air => after.airs = before.airs ++ [r] ∧ after.neutrals = before.neutrals ∧
      after.sources = before.sources ∧ after.flows = before.flows
  | Bucket.Neutral => after.airs = before.airs ∧ after.neutrals = before.neutrals ++ [r] ∧
      after.sources = before.sources ∧ after.flows = before.flows
  | Bucket.Source => after.airs = before.airs ∧ after.neutrals = before.neutrals ∧
      after.sources = before.sources ++ [r] ∧ after.flows = before.flows
  | Bucket.Flow => after.airs = before.airs ∧ after.neutrals = before.neutrals ∧
      after.sources = before.sources ∧ after.flows = before.flows ++ [r]

/-- Between the scan states `before` and `after`, no bucket was touched. -/
def placedNowhere (before after : Scan) : Prop :=
  after.airs = before.airs ∧ after.neutrals = before.neutrals ∧
    after.sources = before.sources ∧ after.flows = before.flows

/-- The number of entries in the four buckets together. -/
def bucketTotal (sc : Scan) : Nat :=
  sc.airs.length + sc.neutrals.length + sc.sources.length + sc.flows.length

/-! ## Words of the claims about one turn of the loop -/

/-- The locals collected about the voxel `p0` in its turn (lines 129-155). -/
def turnInfo (env : Env) (p0 : v3s16) (s : LoopState) : NodeInfo :=
  collectNode env (s.m_map p0)

/-- The scan of the neighbours of `p0` in its turn (lines 160-242). -/
def turnScan (env : Env) (p0 : v3s16) (s : LoopState) : Scan :=
  scanNeighbors env s.m_map p0 (turnInfo env p0 s).liquid_type
    (turnInfo env p0 s).liquid_kind s.m_queue

/-- The decision taken for `p0` in its turn (lines 247-318). -/
def turnDecision (env : Env) (p0 : v3s16) (s : LoopState) : Decision :=
  decideNode env (turnInfo env p0 s) (turnScan env p0 s)

/-- The node built for `p0` in its turn (lines 339-350). -/
def turnNode (env : Env) (p0 : v3s16) (s : LoopState) : MapNode :=
  updatedNode env (s.m_map p0) (turnScan env p0 s) (turnDecision env p0 s)

/-- The voxel `p0` reaches the decision and passes the change test of lines 323-328. -/
def passesChangeTest (env : Env) (p0 : v3s16) (s : LoopState) : Prop :=
  (turnInfo env p0 s).proceed = true ∧
    unchanged env (s.m_map p0) (turnScan env p0 s) (turnDecision env p0 s) = false

/-- The voxel `p0` reaches the decision and is dropped by the change test of lines
323-328. -/
def droppedByChangeTest (env : Env) (p0 : v3s16) (s : LoopState) : Prop :=
  (turnInfo env p0 s).proceed = true ∧
    unchanged env (s.m_map p0) (turnScan env p0 s) (turnDecision env p0 s) = true

/-- The content of the voxel `p0` is a floodable non-liquid other than air. -/
def isSubstitute (env : Env) (p0 : v3s16) (s : LoopState) : Prop :=
  (env.nodedef (s.m_map p0).getContent).liquid_type = LIQUID_NONE ∧
    (env.nodedef (s.m_map p0).getContent).floodable = true ∧
    (s.m_map p0).getContent ≠ CONTENT_AIR

/-- The change decided for `p0` is committed: it passes the change test and the flood hook,
where it is asked, does not veto. -/
def committed (env : Env) (p0 : v3s16) (s : LoopState) : Prop :=
  passesChangeTest env p0 s ∧
    ((turnInfo env p0 s).floodable_node = CONTENT_AIR ∨
      env.node_on_flood p0 (s.m_map p0) (turnNode env p0 s) = false)

instance (env : Env) (p0 : v3s16) (s : LoopState) : Decidable (passesChangeTest env p0 s) := by
  unfold passesChangeTest
  exact inferInstance

instance (env : Env) (p0 : v3s16) (s : LoopState) :
    Decidable (droppedByChangeTest env p0 s) := by
  unfold droppedByChangeTest
  exact inferInstance

instance (env : Env) (p0 : v3s16) (s : LoopState) : Decidable (isSubstitute env p0 s) := by
  unfold isSubstitute
  exact inferInstance

instance (env : Env) (p0 : v3s16) (s : LoopState) : Decidable (committed env p0 s) := by
  unfold committed
  exact inferInstance

/-! ## Words of the claims about the scheduling of neighbours -/

/-- The entries of a bucket. -/
def bucketOf (sc : Scan) : Bucket → List NodeNeighbor
  | Bucket.Air => sc.airs
  | Bucket.Neutral => sc.neutrals
  | Bucket.Source => sc.sources
  | Bucket.Flow => sc.flows

/-- The coordinates of the entries of a bucket that are not the upper neighbour, in
order. -/
def nonUpperCoords (l : List NodeNeighbor) : List v3s16 :=
  (l.filter (fun f => decide (f.t ≠ NEIGHBOR_UPPER))).map (fun f => f.p)

/-- The coordinates the scan of `p0` pushes (lines 190-196): for a voxel that is a liquid,
the air-bucket neighbours other than the upper one. -/
def scanPushes (env : Env) (p0 : v3s16) (s : LoopState) : List v3s16 :=
  if (turnInfo env p0 s).liquid_type ≠ LIQUID_NONE then
    nonUpperCoords (turnScan env p0 s).airs
  else []

/-- The coordinates pushed after the change to `p0` was committed (lines 395-411), by the
liquid type of the new content. -/
def commitPushes (env : Env) (p0 : v3s16) (s : LoopState) : List v3s16 :=
  match (env.nodedef (turnDecision env p0 s).new_node_content).liquid_type with
  | LIQUID_NONE => (turnScan env p0 s).flows.map (fun f => f.p)
  | _ => nonUpperCoords (turnScan env p0 s).flows ++ nonUpperCoords (turnScan env p0 s).airs

/-- The coordinates pushed onto the work queue in the turn of `p0`, in the order of the
pushes. -/
def scheduled (env : Env) (p0 : v3s16) (s : LoopState) : List v3s16 :=
  scanPushes env p0 s ++ (if committed env p0 s then commitPushes env p0 s else [])

/-! ## Words of the claims about the store -/

/-- The content `k` is a registered family: the paired flowing id of some liquid. -/
def isFamily (env : Env) (k : Nat) : Prop :=
  ∃ c, (env.nodedef c).liquid_type ≠ LIQUID_NONE ∧
    (env.nodedef c).liquid_alternative_flowing_id = k

/-- The registry is complete for its liquids: the paired flowing id of every liquid is not
the unresolved sentinel, and the Source form registered for it is a Source. -/
def registryComplete (env : Env) : Prop :=
  ∀ c, (env.nodedef c).liquid_type ≠ LIQUID_NONE →
    (env.nodedef c).liquid_alternative_flowing_id ≠ CONTENT_IGNORE ∧
      (env.nodedef (env.nodedef
        (env.nodedef c).liquid_alternative_flowing_id).liquid_alternative_source_id).liquid_type =
        LIQUID_SOURCE

/-- The write frame of a loop state with respect to the store `m0` at entry: the store
differs from `m0` only at coordinates taken from the queue, and every change record is for
such a coordinate and holds the node `m0` had there. -/
def writeFrame (m0 : v3s16 → MapNode) (s : LoopState) : Prop :=
  (∀ p, p ∉ s.dequeued → s.m_map p = m0 p) ∧
    ∀ e ∈ s.changed_nodes, e.1 ∈ s.dequeued ∧ e.2 = m0 e.1

/-- The nodes `a` and `b` have the same content and the same auxiliary byte: they differ
in their light values at most. -/
def sameButLight (a b : MapNode) : Prop :=
  a.getContent = b.getContent ∧ a.param2 = b.param2

instance (a b : MapNode) : Decidable (sameButLight a b) := by
  unfold sameButLight
  exact inferInstance

/-- Every change record of the loop state holds a node that differs from the one the store
has at its coordinate in content or auxiliary byte. -/
def recordsDiffer (s : LoopState) : Prop :=
  ∀ e ∈ s.changed_nodes, ¬ sameButLight (s.m_map e.1) e.2

/-! ## The work queue: what one turn and the whole loop do to it -/

theorem push_back_ext (q : List v3s16) (v : v3s16) : ∃ added, push_back q v = q ++ added := by
  unfold push_back
  split
  · exact ⟨[], by simp⟩
  · exact ⟨[v], rfl⟩

theorem foldl_push_back_ext (l : List v3s16) (q : List v3s16) :
    ∃ added, l.foldl push_back q = q ++ added := by
  induction l generalizing q with
  | nil => exact ⟨[], by simp⟩
  | cons a l ih =>
    obtain ⟨a1, h1⟩ := push_back_ext q a
    obtain ⟨a2, h2⟩ := ih (push_back q a)
    refine ⟨a1 ++ a2, ?_⟩
    rw [List.foldl_cons, h2, h1, List.append_assoc]

theorem scanNeighbor_queue_ext (env : Env) (m : v3s16 → MapNode) (p0 : v3s16)
    (lt : LiquidType) (sc : Scan) (i : Nat) :
    ∃ added, (scanNeighbor env m p0 lt sc i).m_queue = sc.m_queue ++ added := by
  unfold scanNeighbor
  simp only []
  split <;> split_ifs <;>
    first | exact push_back_ext _ _ | exact ⟨[], (List.append_nil _).symm⟩

theorem scan_foldl_queue_ext (env : Env) (m : v3s16 → MapNode) (p0 : v3s16)
    (lt : LiquidType) (l : List Nat) (sc : Scan) :
    ∃ added, (l.foldl (scanNeighbor env m p0 lt) sc).m_queue = sc.m_queue ++ added := by
  induction l generalizing sc with
  | nil => exact ⟨[], by simp⟩
  | cons a l ih =>
    obtain ⟨a1, h1⟩ := scanNeighbor_queue_ext env m p0 lt sc a
    obtain ⟨a2, h2⟩ := ih (scanNeighbor env m p0 lt sc a)
    refine ⟨a1 ++ a2, ?_⟩
    rw [List.foldl_cons, h2, h1, List.append_assoc]

theorem scanNeighbors_queue_ext (env : Env) (m : v3s16 → MapNode) (p0 : v3s16)
    (lt : LiquidType) (k : Nat) (q : List v3s16) :
    ∃ added, (scanNeighbors env m p0 lt k q).m_queue = q ++ added :=
  scan_foldl_queue_ext env m p0 lt _ (scanInit k q)

theorem enqueueNeighbors_ext (env : Env) (n0 : MapNode) (sc : Scan) (q : List v3s16) :
    ∃ added, enqueueNeighbors env n0 sc q = q ++ added := by
  unfold enqueueNeighbors
  split
  · exact foldl_push_back_ext _ _
  · obtain ⟨a1, h1⟩ := foldl_push_back_ext
      ((sc.flows.filter (fun f => decide (f.t ≠ NEIGHBOR_UPPER))).map (fun f => f.p)) q
    obtain ⟨a2, h2⟩ := foldl_push_back_ext
      ((sc.airs.filter (fun f => decide (f.t ≠ NEIGHBOR_UPPER))).map (fun f => f.p))
      (((sc.flows.filter (fun f => decide (f.t ≠ NEIGHBOR_UPPER))).map
        (fun f => f.p)).foldl push_back q)
    refine ⟨a1 ++ a2, ?_⟩
    simp only []
    rw [h2, h1, List.append_assoc]

theorem commitNode_queue_ext (env : Env) (p0 : v3s16) (n00 n1 : MapNode) (sc : Scan)
    (s : LoopState) : ∃ added, (commitNode env p0 n00 n1 sc s).m_queue = s.m_queue ++ added :=
  enqueueNeighbors_ext env _ sc s.m_queue

theorem applyChange_queue_ext (env : Env) (p0 : v3s16) (n0 : MapNode) (info : NodeInfo)
    (sc : Scan) (d : Decision) (s : LoopState) :
    ∃ added, (applyChange env p0 n0 info sc d s).m_queue = s.m_queue ++ added := by
  unfold applyChange
  simp only []
  by_cases h1 : info.floodable_node ≠ CONTENT_AIR
  · rw [if_pos h1]
    by_cases h2 : env.node_on_flood p0 n0 (updatedNode env n0 sc d) = true
    · rw [if_pos h2]
      exact ⟨[], (List.append_nil _).symm⟩
    · rw [if_neg h2]
      exact commitNode_queue_ext env p0 n0 _ sc _
  · rw [if_neg h1]
    exact commitNode_queue_ext env p0 n0 _ sc _

theorem applyChange_dequeued (env : Env) (p0 : v3s16) (n0 : MapNode) (info : NodeInfo)
    (sc : Scan) (d : Decision) (s : LoopState) :
    (applyChange env p0 n0 info sc d s).dequeued = s.dequeued := by
  unfold applyChange
  simp only []
  by_cases h1 : info.floodable_node ≠ CONTENT_AIR
  · rw [if_pos h1]
    by_cases h2 : env.node_on_flood p0 n0 (updatedNode env n0 sc d) = true
    · rw [if_pos h2]
    · rw [if_neg h2]
      rfl
  · rw [if_neg h1]
    rfl

theorem transformNode_dequeued (env : Env) (p0 : v3s16) (s : LoopState) :
    (transformNode env p0 s).dequeued = s.dequeued := by
  unfold transformNode
  simp only []
  by_cases h1 : (collectNode env (s.m_map p0)).proceed = false
  · rw [if_pos h1]
  · rw [if_neg h1]
    split
    · rfl
    · rw [applyChange_dequeued]

theorem transformNode_queue_ext (env : Env) (p0 : v3s16) (s : LoopState) :
    ∃ added, (transformNode env p0 s).m_queue = s.m_queue ++ added := by
  obtain ⟨a1, h1⟩ := scanNeighbors_queue_ext env s.m_map p0
    (collectNode env (s.m_map p0)).liquid_type (collectNode env (s.m_map p0)).liquid_kind
    s.m_queue
  unfold transformNode
  simp only []
  by_cases hp : (collectNode env (s.m_map p0)).proceed = false
  · rw [if_pos hp]
    exact ⟨[], (List.append_nil _).symm⟩
  rw [if_neg hp]
  split
  · exact ⟨a1, h1⟩
  · obtain ⟨a2, h2⟩ := applyChange_queue_ext env p0 (s.m_map p0)
      (collectNode env (s.m_map p0))
      (scanNeighbors env s.m_map p0 (collectNode env (s.m_map p0)).liquid_type
        (collectNode env (s.m_map p0)).liquid_kind s.m_queue)
      (decideNode env (collectNode env (s.m_map p0))
        (scanNeighbors env s.m_map p0 (collectNode env (s.m_map p0)).liquid_type
          (collectNode env (s.m_map p0)).liquid_kind s.m_queue))
      { s with
        m_queue := (scanNeighbors env s.m_map p0 (collectNode env (s.m_map p0)).liquid_type
          (collectNode env (s.m_map p0)).liquid_kind s.m_queue).m_queue
        must_reflow :=
          if (decideNode env (collectNode env (s.m_map p0))
            (scanNeighbors env s.m_map p0 (collectNode env (s.m_map p0)).liquid_type
              (collectNode env (s.m_map p0)).liquid_kind s.m_queue)).push_reflow = true
          then s.must_reflow ++ [p0] else s.must_reflow }
    refine ⟨a1 ++ a2, ?_⟩
    rw [h2]
    simp only []
    rw [h1, List.append_assoc]

/-- The loop never uses up the turns `run` grants it: with `initial_size - loopcount` turns
or more, one more turn changes nothing. -/
theorem runLoop_fuel (env : Env) (initial_size loop_max : Nat) (fuel loopcount : Nat)
    (s : LoopState) (h : initial_size ≤ fuel + loopcount) :
    runLoop env initial_size loop_max (fuel + 1) loopcount s =
      runLoop env initial_size loop_max fuel loopcount s := by
  induction fuel generalizing loopcount s with
  | zero =>
    simp only [runLoop]
    split
    · rfl
    · rw [if_pos (Or.inl (by omega))]
  | succ k ih =>
    rw [runLoop]
    conv => rhs; rw [runLoop]
    split
    · rfl
    · split_ifs
      · rfl
      · exact ih _ _ (by omega)

/-- The coordinates the loop takes from the queue: started with `q ++ extra` in the queue,
where `q` is what is left of the entry queue, the loop takes the first `loop_max - loopcount`
coordinates of `q` and leaves the rest of `q` at the front of the queue. -/
theorem runLoop_dequeued (env : Env) (initial_size loop_max : Nat) (fuel : Nat) :
    ∀ (loopcount : Nat) (s : LoopState) (q extra : List v3s16),
      s.m_queue = q ++ extra → q.length + loopcount = initial_size → q.length ≤ fuel →
      (runLoop env initial_size loop_max fuel loopcount s).dequeued =
          s.dequeued ++ q.take (loop_max - loopcount) ∧
        ∃ added, (runLoop env initial_size loop_max fuel loopcount s).m_queue =
          q.drop (loop_max - loopcount) ++ added := by
  induction fuel with
  | zero =>
    intro loopcount s q extra hq hlen hfuel
    have hq0 : q = [] := List.length_eq_zero.mp (by omega)
    subst hq0
    simp only [runLoop, List.take_nil, List.append_nil, List.drop_nil, List.nil_append]
    exact ⟨trivial, s.m_queue, rfl⟩
  | succ k ih =>
    intro loopcount s q extra hq hlen hfuel
    cases q with
    | nil =>
      simp only [List.length_nil, Nat.zero_add] at hlen
      rw [runLoop]
      simp only [List.take_nil, List.append_nil, List.drop_nil, List.nil_append]
      split
      · exact ⟨rfl, s.m_queue, rfl⟩
      · rw [if_pos (Or.inl (by omega))]
        exact ⟨rfl, s.m_queue, rfl⟩
    | cons a q1 =>
      simp only [List.length_cons] at hlen hfuel
      rw [runLoop]
      rw [hq]
      simp only [List.cons_append]
      by_cases hmax : loopcount ≥ loop_max
      · rw [if_pos (Or.inr hmax)]
        have h0 : loop_max - loopcount = 0 := by omega
        rw [h0]
        simp only [List.take_zero, List.append_nil, List.drop_zero]
        exact ⟨trivial, extra, by rw [hq]⟩
      · rw [if_neg (by omega)]
        obtain ⟨a1, h1⟩ := transformNode_queue_ext env a
          { s with m_queue := q1 ++ extra, dequeued := s.dequeued ++ [a] }
        have hd := transformNode_dequeued env a
          { s with m_queue := q1 ++ extra, dequeued := s.dequeued ++ [a] }
        simp only [] at h1 hd
        have := ih (loopcount + 1)
          (transformNode env a { s with m_queue := q1 ++ extra, dequeued := s.dequeued ++ [a] })
          q1 (extra ++ a1) (by rw [h1, List.append_assoc]) (by omega) (by omega)
        obtain ⟨hA, added, hB⟩ := this
        have hsub : loop_max - loopcount = (loop_max - (loopcount + 1)) + 1 := by omega
        refine ⟨?_, added, ?_⟩
        · rw [hA, hd, hsub, List.take_succ_cons, List.append_assoc]
          rfl
        · rw [hB, hsub, List.drop_succ_cons]

/-! ## The neighbour scan -/

theorem scanNeighbor_kind_stable (env : Env) (m : v3s16 → MapNode) (p0 : v3s16)
    (lt : LiquidType) (sc : Scan) (i : Nat) (h : sc.liquid_kind ≠ CONTENT_AIR) :
    (scanNeighbor env m p0 lt sc i).liquid_kind = sc.liquid_kind := by
  unfold scanNeighbor
  simp only []
  split <;> split_ifs <;> simp_all

theorem scan_foldl_kind_stable (env : Env) (m : v3s16 → MapNode) (p0 : v3s16)
    (lt : LiquidType) (l : List Nat) (sc : Scan) (h : sc.liquid_kind ≠ CONTENT_AIR) :
    (l.foldl (scanNeighbor env m p0 lt) sc).liquid_kind = sc.liquid_kind := by
  induction l generalizing sc with
  | nil => rfl
  | cons a l ih =>
    rw [List.foldl_cons, ih _ (by rw [scanNeighbor_kind_stable env m p0 lt sc a h]; exact h),
      scanNeighbor_kind_stable env m p0 lt sc a h]

theorem scanNeighbors_kind_stable (env : Env) (m : v3s16 → MapNode) (p0 : v3s16)
    (lt : LiquidType) (k : Nat) (q : List v3s16) (h : k ≠ CONTENT_AIR) :
    (scanNeighbors env m p0 lt k q).liquid_kind = k :=
  scan_foldl_kind_stable env m p0 lt _ (scanInit k q) h

theorem scan_foldl_kind_cases (env : Env) (m : v3s16 → MapNode) (p0 : v3s16)
    (lt : LiquidType) (l : List Nat) (sc : Scan) :
    (l.foldl (scanNeighbor env m p0 lt) sc).liquid_kind = sc.liquid_kind ∨
      sc.liquid_kind = CONTENT_AIR := by
  by_cases h : sc.liquid_kind = CONTENT_AIR
  · exact Or.inr h
  · exact Or.inl (scan_foldl_kind_stable env m p0 lt l sc h)

theorem scanNeighbor_sources_mono (env : Env) (m : v3s16 → MapNode) (p0 : v3s16)
    (lt : LiquidType) (sc : Scan) (i : Nat) :
    sc.sources.length ≤ (scanNeighbor env m p0 lt sc i).sources.length := by
  unfold scanNeighbor
  simp only []
  split <;> split_ifs <;> simp_all

theorem scan_foldl_sources_mono (env : Env) (m : v3s16 → MapNode) (p0 : v3s16)
    (lt : LiquidType) (l : List Nat) (sc : Scan) :
    sc.sources.length ≤ (l.foldl (scanNeighbor env m p0 lt) sc).sources.length := by
  induction l generalizing sc with
  | nil => exact le_refl _
  | cons a l ih =>
    rw [List.foldl_cons]
    exact le_trans (scanNeighbor_sources_mono env m p0 lt sc a) (ih _)

theorem scanNeighbor_source_kind (env : Env) (m : v3s16 → MapNode) (p0 : v3s16)
    (lt : LiquidType) (sc : Scan) (i : Nat)
    (h1 : (env.nodedef (neighborNode m p0 i).getContent).liquid_type = LIQUID_SOURCE) :
    (scanNeighbor env m p0 lt sc i).liquid_kind =
      if sc.liquid_kind = CONTENT_AIR then
        (env.nodedef (neighborNode m p0 i).getContent).liquid_alternative_flowing_id
      else sc.liquid_kind := by
  unfold neighborNode at h1 ⊢
  unfold scanNeighbor
  simp only []
  rw [h1]
  simp only []
  split_ifs <;> simp only [] at *

theorem scanNeighbor_source_sources (env : Env) (m : v3s16 → MapNode) (p0 : v3s16)
    (lt : LiquidType) (sc : Scan) (i : Nat)
    (h1 : (env.nodedef (neighborNode m p0 i).getContent).liquid_type = LIQUID_SOURCE) :
    (scanNeighbor env m p0 lt sc i).sources =
      if (env.nodedef (neighborNode m p0 i).getContent).liquid_alternative_flowing_id ≠
          (scanNeighbor env m p0 lt sc i).liquid_kind then sc.sources
      else if neighborType i ≠ NEIGHBOR_LOWER then
        sc.sources ++ [⟨neighborNode m p0 i, neighborType i, p0.add (liquid_6dirs i)⟩]
      else sc.sources := by
  rw [scanNeighbor_source_kind env m p0 lt sc i h1]
  unfold neighborNode at h1 ⊢
  unfold scanNeighbor
  simp only []
  rw [h1]
  simp only []
  split_ifs <;> simp only [] at *

/-- A Source neighbour beside or above whose paired flowing id is the family the scan holds
after looking at it is put into the source bucket. -/
theorem scanNeighbor_adds_source (env : Env) (m : v3s16 → MapNode) (p0 : v3s16)
    (lt : LiquidType) (sc : Scan) (i : Nat) (hnt : neighborType i ≠ NEIGHBOR_LOWER)
    (hs : isSourceOf env m p0 (scanNeighbor env m p0 lt sc i).liquid_kind i) :
    (scanNeighbor env m p0 lt sc i).sources.length = sc.sources.length + 1 := by
  obtain ⟨h1, h2⟩ := hs
  rw [scanNeighbor_source_sources env m p0 lt sc i h1, if_neg (not_not.mpr h2), if_pos hnt,
    List.length_append]
  rfl

/-- A Source neighbour leaves the scan with air as family only if air is its own paired
flowing id. -/
theorem scanNeighbor_source_kind_air (env : Env) (m : v3s16 → MapNode) (p0 : v3s16)
    (lt : LiquidType) (sc : Scan) (i : Nat)
    (h1 : (env.nodedef (neighborNode m p0 i).getContent).liquid_type = LIQUID_SOURCE)
    (h2 : (scanNeighbor env m p0 lt sc i).liquid_kind = CONTENT_AIR) :
    (env.nodedef (neighborNode m p0 i).getContent).liquid_alternative_flowing_id =
      CONTENT_AIR := by
  rw [scanNeighbor_source_kind env m p0 lt sc i h1] at h2
  split_ifs at h2 with h
  · exact h2
  · exact absurd h2 h

/-- One source of the final family among the directions scanned: the bucket grows by one at
least. -/
theorem scan_foldl_one_source (env : Env) (m : v3s16 → MapNode) (p0 : v3s16)
    (lt : LiquidType) (l : List Nat) :
    ∀ (sc : Scan) (i : Nat), i ∈ l → neighborType i ≠ NEIGHBOR_LOWER →
      isSourceOf env m p0 (l.foldl (scanNeighbor env m p0 lt) sc).liquid_kind i →
      sc.sources.length + 1 ≤ (l.foldl (scanNeighbor env m p0 lt) sc).sources.length := by
  induction l with
  | nil => intro sc i hi; simp at hi
  | cons a l ih =>
    intro sc i hi hnt hs
    rw [List.foldl_cons] at hs ⊢
    rcases List.mem_cons.mp hi with rfl | hmem
    · have hk : isSourceOf env m p0 (scanNeighbor env m p0 lt sc i).liquid_kind i := by
        rcases scan_foldl_kind_cases env m p0 lt l (scanNeighbor env m p0 lt sc i) with h | h
        · rw [h] at hs; exact hs
        · exact ⟨hs.1, by rw [h]; exact scanNeighbor_source_kind_air env m p0 lt sc i hs.1 h⟩
      have := scanNeighbor_adds_source env m p0 lt sc i hnt hk
      have h2 := scan_foldl_sources_mono env m p0 lt l (scanNeighbor env m p0 lt sc i)
      omega
    · have := ih (scanNeighbor env m p0 lt sc a) i hmem hnt hs
      have h2 := scanNeighbor_sources_mono env m p0 lt sc a
      omega

/-- Two sources of the final family among the directions scanned: the bucket grows by two at
least. -/
theorem scan_foldl_two_sources (env : Env) (m : v3s16 → MapNode) (p0 : v3s16)
    (lt : LiquidType) (l : List Nat) :
    ∀ (sc : Scan) (i j : Nat), i ∈ l → j ∈ l → i ≠ j →
      neighborType i ≠ NEIGHBOR_LOWER → neighborType j ≠ NEIGHBOR_LOWER →
      isSourceOf env m p0 (l.foldl (scanNeighbor env m p0 lt) sc).liquid_kind i →
      isSourceOf env m p0 (l.foldl (scanNeighbor env m p0 lt) sc).liquid_kind j →
      sc.sources.length + 2 ≤ (l.foldl (scanNeighbor env m p0 lt) sc).sources.length := by
  induction l with
  | nil => intro sc i j hi; simp at hi
  | cons a l ih =>
    intro sc i j hi hj hij hnti hntj hsi hsj
    have key : ∀ (x y : Nat), x = a → y ∈ a :: l → x ≠ y → neighborType x ≠ NEIGHBOR_LOWER →
        neighborType y ≠ NEIGHBOR_LOWER →
        isSourceOf env m p0 ((a :: l).foldl (scanNeighbor env m p0 lt) sc).liquid_kind x →
        isSourceOf env m p0 ((a :: l).foldl (scanNeighbor env m p0 lt) sc).liquid_kind y →
        sc.sources.length + 2 ≤
          ((a :: l).foldl (scanNeighbor env m p0 lt) sc).sources.length := by
      intro x y hx hy hxy hntx hnty hsx hsy
      subst hx
      rw [List.foldl_cons] at hsx hsy ⊢
      have hyl : y ∈ l := by
        rcases List.mem_cons.mp hy with h | h
        · exact absurd h.symm hxy
        · exact h
      have hk : isSourceOf env m p0 (scanNeighbor env m p0 lt sc x).liquid_kind x := by
        rcases scan_foldl_kind_cases env m p0 lt l (scanNeighbor env m p0 lt sc x) with h | h
        · rw [h] at hsx; exact hsx
        · exact ⟨hsx.1, by rw [h]; exact scanNeighbor_source_kind_air env m p0 lt sc x hsx.1 h⟩
      have h1 := scanNeighbor_adds_source env m p0 lt sc x hntx hk
      have h2 := scan_foldl_one_source env m p0 lt l (scanNeighbor env m p0 lt sc x) y hyl
        hnty hsy
      omega
    by_cases hia : i = a
    · exact key i j hia hj hij hnti hntj hsi hsj
    · by_cases hja : j = a
      · exact key j i hja hi (Ne.symm hij) hntj hnti hsj hsi
      · have hil : i ∈ l := by
          rcases List.mem_cons.mp hi with h | h
          · exact absurd h hia
          · exact h
        have hjl : j ∈ l := by
          rcases List.mem_cons.mp hj with h | h
          · exact absurd h hja
          · exact h
        rw [List.foldl_cons] at hsi hsj ⊢
        have := ih (scanNeighbor env m p0 lt sc a) i j hil hjl hij hnti hntj hsi hsj
        have h2 := scanNeighbor_sources_mono env m p0 lt sc a
        omega

/-- One turn of the scan leaves the source bucket alone or appends the neighbour it looked
at, and the latter only for a neighbour that is not the lower one. -/
theorem scanNeighbor_sources_cases (env : Env) (m : v3s16 → MapNode) (p0 : v3s16)
    (lt : LiquidType) (sc : Scan) (i : Nat) :
    (scanNeighbor env m p0 lt sc i).sources = sc.sources ∨
      (neighborType i ≠ NEIGHBOR_LOWER ∧
        (scanNeighbor env m p0 lt sc i).sources =
          sc.sources ++ [⟨neighborNode m p0 i, neighborType i, p0.add (liquid_6dirs i)⟩]) := by
  unfold neighborNode
  unfold scanNeighbor
  simp only []
  split <;> split_ifs <;>
    first
    | exact Or.inl rfl
    | (refine Or.inr ⟨?_, rfl⟩; assumption)

/-- No entry of the source bucket is the lower neighbour. -/
theorem scanNeighbor_sources_not_lower (env : Env) (m : v3s16 → MapNode) (p0 : v3s16)
    (lt : LiquidType) (sc : Scan) (i : Nat)
    (h : ∀ x ∈ sc.sources, x.t ≠ NEIGHBOR_LOWER) :
    ∀ x ∈ (scanNeighbor env m p0 lt sc i).sources, x.t ≠ NEIGHBOR_LOWER := by
  rcases scanNeighbor_sources_cases env m p0 lt sc i with h1 | ⟨hnt, h1⟩
  · rw [h1]; exact h
  · rw [h1]
    intro x hx
    rcases List.mem_append.mp hx with hx | hx
    · exact h x hx
    · rw [List.mem_singleton.mp hx]
      exact hnt

theorem scan_foldl_sources_not_lower (env : Env) (m : v3s16 → MapNode) (p0 : v3s16)
    (lt : LiquidType) (l : List Nat) (sc : Scan)
    (h : ∀ x ∈ sc.sources, x.t ≠ NEIGHBOR_LOWER) :
    ∀ x ∈ (l.foldl (scanNeighbor env m p0 lt) sc).sources, x.t ≠ NEIGHBOR_LOWER := by
  induction l generalizing sc with
  | nil => exact h
  | cons a l ih =>
    rw [List.foldl_cons]
    exact ih _ (scanNeighbor_sources_not_lower env m p0 lt sc a h)

theorem scanNeighbors_sources_not_lower (env : Env) (m : v3s16 → MapNode) (p0 : v3s16)
    (lt : LiquidType) (k : Nat) (q : List v3s16) :
    ∀ x ∈ (scanNeighbors env m p0 lt k q).sources, x.t ≠ NEIGHBOR_LOWER :=
  scan_foldl_sources_not_lower env m p0 lt _ (scanInit k q) (by simp [scanInit])

/-- With a counted source, the test of line 260 on the first one never fails. -/
theorem scanNeighbors_step2 (env : Env) (m : v3s16 → MapNode) (p0 : v3s16)
    (lt : LiquidType) (k : Nat) (q : List v3s16)
    (h : 1 ≤ (scanNeighbors env m p0 lt k q).sources.length) :
    step2Applies (scanNeighbors env m p0 lt k q) := by
  refine ⟨h, ?_⟩
  have hall := scanNeighbors_sources_not_lower env m p0 lt k q
  cases hsrc : (scanNeighbors env m p0 lt k q).sources with
  | nil => simp
  | cons x xs =>
    rw [hsrc] at hall
    simpa using hall x (by simp)

theorem scanNeighbor_queue_none (env : Env) (m : v3s16 → MapNode) (p0 : v3s16)
    (sc : Scan) (i : Nat) :
    (scanNeighbor env m p0 LIQUID_NONE sc i).m_queue = sc.m_queue := by
  unfold scanNeighbor
  simp only []
  split <;> split_ifs <;> simp_all

/-- The scan for a voxel that is not a liquid pushes nothing onto the queue. -/
theorem scanNeighbors_queue_none (env : Env) (m : v3s16 → MapNode) (p0 : v3s16)
    (k : Nat) (q : List v3s16) :
    (scanNeighbors env m p0 LIQUID_NONE k q).m_queue = q := by
  have : ∀ (l : List Nat) (sc : Scan),
      (l.foldl (scanNeighbor env m p0 LIQUID_NONE) sc).m_queue = sc.m_queue := by
    intro l
    induction l with
    | nil => intro sc; rfl
    | cons a l ih =>
      intro sc
      rw [List.foldl_cons, ih, scanNeighbor_queue_none]
  exact this _ (scanInit k q)

/-! ## The decision, step by step -/

theorem decideNode_step1 (env : Env) (info : NodeInfo) (sc : Scan)
    (h : step1Applies env info sc) :
    decideNode env info sc =
      { new_node_content := (env.nodedef sc.liquid_kind).liquid_alternative_source_id
        new_node_level := -1
        max_node_level := -1
        push_reflow := false } := by
  unfold step1Applies at h
  unfold decideNode
  simp only []
  rw [if_pos h]

theorem decideNode_step2 (env : Env) (info : NodeInfo) (sc : Scan)
    (h1 : ¬ step1Applies env info sc) (h2 : step2Applies sc) :
    decideNode env info sc =
      { new_node_content :=
          if (LIQUID_LEVEL_MAX : Int) ≥
              (LIQUID_LEVEL_MAX : Int) + 1 - (liquidRange env sc.liquid_kind : Int) then
            sc.liquid_kind
          else info.floodable_node
        new_node_level := LIQUID_LEVEL_MAX
        max_node_level := LIQUID_LEVEL_MAX
        push_reflow := false } := by
  unfold step1Applies at h1
  unfold step2Applies at h2
  unfold decideNode
  simp only []
  rw [if_neg h1, if_pos h2]

theorem decideNode_step3 (env : Env) (info : NodeInfo) (sc : Scan)
    (h1 : ¬ step1Applies env info sc) (h2 : ¬ step2Applies sc) (h3 : step3Applies info sc) :
    decideNode env info sc =
      { new_node_content := sc.liquid_kind
        new_node_level := info.liquid_level
        max_node_level := -1
        push_reflow := false } := by
  unfold step1Applies at h1
  unfold step2Applies at h2
  unfold step3Applies at h3
  unfold decideNode
  simp only []
  rw [if_neg h1, if_neg h2, if_pos h3]

theorem decideNode_step4 (env : Env) (info : NodeInfo) (sc : Scan)
    (h1 : ¬ step1Applies env info sc) (h2 : ¬ step2Applies sc)
    (h3 : ¬ step3Applies info sc) :
    decideNode env info sc =
      { new_node_content :=
          if maxInflow sc.flows ≥
              (LIQUID_LEVEL_MAX : Int) + 1 - (liquidRange env sc.liquid_kind : Int) then
            sc.liquid_kind
          else info.floodable_node
        new_node_level :=
          (viscosityLevel (env.nodedef sc.liquid_kind).liquid_viscosity info.liquid_level
            (maxInflow sc.flows)).1
        max_node_level := maxInflow sc.flows
        push_reflow :=
          (viscosityLevel (env.nodedef sc.liquid_kind).liquid_viscosity info.liquid_level
            (maxInflow sc.flows)).2 } := by
  unfold step1Applies at h1
  unfold step2Applies at h2
  unfold step3Applies at h3
  unfold decideNode
  simp only []
  rw [if_neg h1, if_neg h2, if_neg h3]

theorem collectNode_source (env : Env) (n0 : MapNode)
    (h : (env.nodedef n0.getContent).liquid_type = LIQUID_SOURCE) :
    collectNode env n0 =
      { liquid_level := LIQUID_LEVEL_SOURCE
        liquid_kind := (env.nodedef n0.getContent).liquid_alternative_flowing_id
        floodable_node := CONTENT_AIR
        liquid_type := LIQUID_SOURCE
        proceed := true } := by
  unfold collectNode
  simp only []
  rw [h]

theorem collectNode_flowing (env : Env) (n0 : MapNode)
    (h : (env.nodedef n0.getContent).liquid_type = LIQUID_FLOWING) :
    collectNode env n0 =
      { liquid_level := ((n0.param2 &&& LIQUID_LEVEL_MASK : Nat) : Int)
        liquid_kind := n0.getContent
        floodable_node := CONTENT_AIR
        liquid_type := LIQUID_FLOWING
        proceed := true } := by
  unfold collectNode
  simp only []
  rw [h]

theorem collectNode_none (env : Env) (n0 : MapNode)
    (h : (env.nodedef n0.getContent).liquid_type = LIQUID_NONE)
    (hf : (env.nodedef n0.getContent).floodable = true) :
    collectNode env n0 =
      { liquid_level := -1
        liquid_kind := CONTENT_AIR
        floodable_node := n0.getContent
        liquid_type := LIQUID_NONE
        proceed := true } := by
  unfold collectNode
  simp only []
  rw [h]
  simp only [hf, Bool.not_true, Bool.false_eq_true, if_false]

theorem collectNode_solid (env : Env) (n0 : MapNode)
    (h : (env.nodedef n0.getContent).liquid_type = LIQUID_NONE)
    (hf : (env.nodedef n0.getContent).floodable = false) :
    (collectNode env n0).proceed = false := by
  unfold collectNode
  simp only []
  rw [h]
  simp only [hf, Bool.not_false, if_true]

/-- The level a voxel has when the decision starts lies in `-1..8`, and is 8 only for a
source. -/
theorem collectNode_level (env : Env) (n0 : MapNode) :
    -1 ≤ (collectNode env n0).liquid_level ∧ (collectNode env n0).liquid_level ≤ 8 ∧
      ((collectNode env n0).liquid_type ≠ LIQUID_SOURCE →
        (collectNode env n0).liquid_level ≤ 7) ∧
      ((collectNode env n0).liquid_type = LIQUID_NONE →
        (collectNode env n0).liquid_level = -1) ∧
      ((collectNode env n0).liquid_type = LIQUID_FLOWING →
        (collectNode env n0).liquid_level =
          ((n0.param2 &&& LIQUID_LEVEL_MASK : Nat) : Int)) := by
  have hmask : n0.param2 &&& LIQUID_LEVEL_MASK ≤ 7 := Nat.and_le_right
  unfold collectNode
  simp only []
  split
  · simp [LIQUID_LEVEL_SOURCE, LIQUID_LEVEL_MAX]
  · simp only [ne_eq, reduceCtorEq, not_false_eq_true, forall_const, false_implies, true_implies,
      and_true, true_and]
    omega
  · split <;> simp

/-! ## One turn of the loop, case by case -/

theorem updatedNode_content (env : Env) (n0 : MapNode) (sc : Scan) (d : Decision) :
    (updatedNode env n0 sc d).getContent = d.new_node_content := by
  unfold updatedNode MapNode.setContent MapNode.getContent
  rfl

theorem clearLight_content (n : MapNode) (b : Bool) :
    (n.clearLight b).getContent = n.getContent := by
  unfold MapNode.clearLight MapNode.getContent
  split <;> rfl

theorem clearLight_param2 (n : MapNode) (b : Bool) :
    (n.clearLight b).param2 = n.param2 := by
  unfold MapNode.clearLight
  split <;> rfl

theorem setNode_same (m : v3s16 → MapNode) (p : v3s16) (n : MapNode)
    (h : n.getContent ≠ CONTENT_IGNORE) : setNode m p n p = n := by
  unfold setNode
  rw [if_neg h]
  simp

theorem setNode_other (m : v3s16 → MapNode) (p q : v3s16) (n : MapNode) (h : q ≠ p) :
    setNode m p n q = m q := by
  unfold setNode
  split
  · rfl
  · simp [h]

/-- The voxel is not reached by the decision: the turn changes nothing. -/
theorem transformNode_skip (env : Env) (p0 : v3s16) (s : LoopState)
    (h : (collectNode env (s.m_map p0)).proceed = false) :
    transformNode env p0 s = s := by
  unfold transformNode
  simp only []
  rw [if_pos h]

/-- The decision finds nothing changed: only what the scan pushed and the forced re-queue
mark are kept. -/
theorem transformNode_unchanged (env : Env) (p0 : v3s16) (s : LoopState)
    (hp : (collectNode env (s.m_map p0)).proceed = true)
    (hu : unchanged env (s.m_map p0)
      (scanNeighbors env s.m_map p0 (collectNode env (s.m_map p0)).liquid_type
        (collectNode env (s.m_map p0)).liquid_kind s.m_queue)
      (decideNode env (collectNode env (s.m_map p0))
        (scanNeighbors env s.m_map p0 (collectNode env (s.m_map p0)).liquid_type
          (collectNode env (s.m_map p0)).liquid_kind s.m_queue)) = true) :
    transformNode env p0 s =
      { s with
        m_queue := (scanNeighbors env s.m_map p0 (collectNode env (s.m_map p0)).liquid_type
          (collectNode env (s.m_map p0)).liquid_kind s.m_queue).m_queue
        must_reflow :=
          if (decideNode env (collectNode env (s.m_map p0))
            (scanNeighbors env s.m_map p0 (collectNode env (s.m_map p0)).liquid_type
              (collectNode env (s.m_map p0)).liquid_kind s.m_queue)).push_reflow = true
          then s.must_reflow ++ [p0] else s.must_reflow } := by
  unfold transformNode
  simp only []
  rw [if_neg (by rw [hp]; simp), if_pos hu]

/-- Something changed: the turn is `applyChange` on the state left by scan and decision. -/
theorem transformNode_changed (env : Env) (p0 : v3s16) (s : LoopState)
    (hp : (collectNode env (s.m_map p0)).proceed = true)
    (hu : unchanged env (s.m_map p0)
      (scanNeighbors env s.m_map p0 (collectNode env (s.m_map p0)).liquid_type
        (collectNode env (s.m_map p0)).liquid_kind s.m_queue)
      (decideNode env (collectNode env (s.m_map p0))
        (scanNeighbors env s.m_map p0 (collectNode env (s.m_map p0)).liquid_type
          (collectNode env (s.m_map p0)).liquid_kind s.m_queue)) = false) :
    transformNode env p0 s =
      applyChange env p0 (s.m_map p0) (collectNode env (s.m_map p0))
        (scanNeighbors env s.m_map p0 (collectNode env (s.m_map p0)).liquid_type
          (collectNode env (s.m_map p0)).liquid_kind s.m_queue)
        (decideNode env (collectNode env (s.m_map p0))
          (scanNeighbors env s.m_map p0 (collectNode env (s.m_map p0)).liquid_type
            (collectNode env (s.m_map p0)).liquid_kind s.m_queue))
        { s with
          m_queue := (scanNeighbors env s.m_map p0 (collectNode env (s.m_map p0)).liquid_type
            (collectNode env (s.m_map p0)).liquid_kind s.m_queue).m_queue
          must_reflow :=
            if (decideNode env (collectNode env (s.m_map p0))
              (scanNeighbors env s.m_map p0 (collectNode env (s.m_map p0)).liquid_type
                (collectNode env (s.m_map p0)).liquid_kind s.m_queue)).push_reflow = true
            then s.must_reflow ++ [p0] else s.must_reflow } := by
  unfold transformNode
  simp only []
  rw [if_neg (by rw [hp]; simp), if_neg (by rw [hu]; simp)]

/-- The flood hook vetoes: only the falling check and the call of the hook are noted. -/
theorem applyChange_veto (env : Env) (p0 : v3s16) (n0 : MapNode) (info : NodeInfo)
    (sc : Scan) (d : Decision) (s : LoopState)
    (h1 : info.floodable_node ≠ CONTENT_AIR)
    (h2 : env.node_on_flood p0 n0 (updatedNode env n0 sc d) = true) :
    applyChange env p0 n0 info sc d s =
      { s with
        check_for_falling :=
          if sc.floating_node_above = true ∧ d.new_node_content = CONTENT_AIR then
            s.check_for_falling ++ [p0]
          else s.check_for_falling
        flood_calls := s.flood_calls ++ [(p0, n0, updatedNode env n0 sc d)] } := by
  unfold applyChange
  simp only []
  rw [if_pos h1, if_pos h2]

/-- The flood hook is asked and lets the change pass. -/
theorem applyChange_pass (env : Env) (p0 : v3s16) (n0 : MapNode) (info : NodeInfo)
    (sc : Scan) (d : Decision) (s : LoopState)
    (h1 : info.floodable_node ≠ CONTENT_AIR)
    (h2 : env.node_on_flood p0 n0 (updatedNode env n0 sc d) = false) :
    applyChange env p0 n0 info sc d s =
      commitNode env p0 n0 (updatedNode env n0 sc d) sc
        { s with
          check_for_falling :=
            if sc.floating_node_above = true ∧ d.new_node_content = CONTENT_AIR then
              s.check_for_falling ++ [p0]
            else s.check_for_falling
          flood_calls := s.flood_calls ++ [(p0, n0, updatedNode env n0 sc d)] } := by
  unfold applyChange
  simp only []
  rw [if_pos h1, if_neg (by rw [h2]; simp)]

/-- The voxel was air or a liquid: the flood hook is not asked. -/
theorem applyChange_air (env : Env) (p0 : v3s16) (n0 : MapNode) (info : NodeInfo)
    (sc : Scan) (d : Decision) (s : LoopState)
    (h1 : info.floodable_node = CONTENT_AIR) :
    applyChange env p0 n0 info sc d s =
      commitNode env p0 n0 (updatedNode env n0 sc d) sc
        { s with
          check_for_falling :=
            if sc.floating_node_above = true ∧ d.new_node_content = CONTENT_AIR then
              s.check_for_falling ++ [p0]
            else s.check_for_falling } := by
  unfold applyChange
  simp only []
  rw [if_neg (by rw [h1]; simp)]

/-- The content a committed node has in the store. -/
theorem commitNode_content (env : Env) (p0 : v3s16) (n00 : MapNode) (n0 : MapNode)
    (sc : Scan) (d : Decision) (s : LoopState)
    (h : d.new_node_content ≠ CONTENT_IGNORE) :
    ((commitNode env p0 n00 (updatedNode env n0 sc d) sc s).m_map p0).getContent =
        d.new_node_content ∧
      ((commitNode env p0 n00 (updatedNode env n0 sc d) sc s).m_map p0).param2 =
        (updatedNode env n0 sc d).param2 := by
  unfold commitNode
  simp only []
  rw [setNode_same _ _ _ (by
    rw [clearLight_content, clearLight_content, updatedNode_content]; exact h)]
  rw [clearLight_content, clearLight_content, updatedNode_content, clearLight_param2,
    clearLight_param2]
  exact ⟨rfl, rfl⟩

/-- When nothing has changed, the decided content is the content the voxel has. -/
theorem unchanged_content (env : Env) (n0 : MapNode) (sc : Scan) (d : Decision)
    (h : unchanged env n0 sc d = true) : d.new_node_content = n0.getContent := by
  unfold unchanged at h
  simp only [Bool.and_eq_true, decide_eq_true_eq] at h
  exact h.1

/-! ## Levels: the candidate level and the level chosen under viscosity -/

theorem inflowStep_bounds (acc : Int) (f : NodeNeighbor) (h : -1 ≤ acc ∧ acc ≤ 7) :
    -1 ≤ inflowStep acc f ∧ inflowStep acc f ≤ 7 := by
  have hmask : f.n.param2 &&& LIQUID_LEVEL_MASK ≤ 7 := Nat.and_le_right
  unfold inflowStep
  simp only [WATER_DROP_BOOST, LIQUID_LEVEL_MAX]
  split <;> (try split_ifs) <;> (try push_cast) <;> first | omega | exact ⟨trivial, trivial⟩

/-- The candidate level lies in `-1..7`. -/
theorem maxInflow_bounds (flows : List NodeNeighbor) :
    -1 ≤ maxInflow flows ∧ maxInflow flows ≤ 7 := by
  unfold maxInflow
  have : ∀ (l : List NodeNeighbor) (acc : Int), -1 ≤ acc ∧ acc ≤ 7 →
      -1 ≤ l.foldl inflowStep acc ∧ l.foldl inflowStep acc ≤ 7 := by
    intro l
    induction l with
    | nil => intro acc h; exact h
    | cons a l ih =>
      intro acc h
      rw [List.foldl_cons]
      exact ih _ (inflowStep_bounds acc a h)
  exact this flows (-1) (by omega)

/-- Viscosity at most 1, or the candidate equal to the current level: the candidate is
taken as it is. -/
theorem viscosityLevel_direct (v : Nat) (cur mx : Int) (h : v ≤ 1 ∨ mx = cur) :
    viscosityLevel v cur mx = (mx, false) := by
  unfold viscosityLevel
  rw [if_neg]
  rintro ⟨h1, h2⟩
  rcases h with h | h
  · omega
  · exact h2 h

/-- The level chosen under viscosity above 1, for a current level and a candidate in
`-1..7` that differ: it moves from the current level towards the candidate by at least one
unit, never past the candidate, and by one unit exactly when the gap is less than twice the
viscosity. -/
theorem viscosityLevel_move (v : Nat) (cur mx : Int) (hv : 1 < v)
    (hcur : -1 ≤ cur ∧ cur ≤ 7) (hmx : -1 ≤ mx ∧ mx ≤ 7) (hne : mx ≠ cur) :
    (cur < mx → cur < (viscosityLevel v cur mx).1 ∧ (viscosityLevel v cur mx).1 ≤ mx) ∧
      (mx < cur → mx ≤ (viscosityLevel v cur mx).1 ∧ (viscosityLevel v cur mx).1 < cur) ∧
      (|mx - cur| < 2 * (v : Int) → |(viscosityLevel v cur mx).1 - cur| = 1) := by
  obtain ⟨hc1, hc2⟩ := hcur
  obtain ⟨hm1, hm2⟩ := hmx
  by_cases hbig : 8 ≤ v
  · have hw : wrap_s8 (mx - cur) = mx - cur := by unfold wrap_s8; omega
    unfold viscosityLevel
    rw [if_pos ⟨hv, hne⟩]
    simp only [hw]
    rw [if_neg (by omega)]
    have hw1 : wrap_s8 (cur - 1) = cur - 1 := by unfold wrap_s8; omega
    have hw2 : wrap_s8 (cur + 1) = cur + 1 := by unfold wrap_s8; omega
    rw [hw1, hw2]
    by_cases hlt : mx - cur < 0
    · rw [if_pos hlt]
      refine ⟨by omega, by omega, ?_⟩
      intro _
      rw [show cur - 1 - cur = -1 by omega]
      rfl
    · rw [if_neg hlt, if_pos (by omega)]
      refine ⟨by omega, by omega, ?_⟩
      intro _
      rw [show cur + 1 - cur = 1 by omega]
      rfl
  · have hv8 : v < 8 := by omega
    interval_cases v <;> interval_cases cur <;> interval_cases mx <;>
      first
      | exact absurd rfl hne
      | decide

theorem to_u32_of_nat (c : Nat) (h : c < 4294967296) : to_u32 (c : Int) = c := by
  unfold to_u32
  omega

theorem run_dequeued_eq (env : Env) (curr_time : Nat) (ls : LiquidSystem)
    (mb : List (v3s16 × Nat)) :
    (ls.run env curr_time mb).dequeued = (afterLoop env ls mb).dequeued := by
  unfold LiquidSystem.run
  simp only []
  split_ifs <;> rfl

/-- C1: for a duplicate-free entry queue of `n` coordinates and a per-cycle cap `c ≥ 0`, one
invocation of `run` takes from the queue exactly the first `min n c` coordinates of the
entry queue, in their order; what was enqueued during the invocation stands behind the
unprocessed rest of the entry queue when the loop and the re-pushing are over, and is not
processed. -/
theorem run_takes_entry_front (env : Env) (curr_time : Nat) (ls : LiquidSystem)
    (mb : List (v3s16 × Nat)) (c : Nat) (hc : env.liquid_loop_max = (c : Int))
    (hc31 : c < 2147483648) (_hnodup : ls.m_queue.Nodup) :
    (ls.run env curr_time mb).dequeued = ls.m_queue.take (min ls.m_queue.length c) ∧
      ∃ added, (afterLoop env ls mb).m_queue =
        ls.m_queue.drop (min ls.m_queue.length c) ++ added := by
  have hmax : to_u32 env.liquid_loop_max = c := by
    rw [hc]; exact to_u32_of_nat c (by omega)
  have hloop := runLoop_dequeued env ls.m_queue.length c ls.m_queue.length 0
    (loopInit ls mb) ls.m_queue [] (by simp [loopInit]) (by omega) (le_refl _)
  obtain ⟨hA, added, hB⟩ := hloop
  have htake : ls.m_queue.take (min ls.m_queue.length c) = ls.m_queue.take c := by
    rcases Nat.le_total ls.m_queue.length c with h | h
    · rw [Nat.min_eq_left h, List.take_of_length_le h, List.take_of_length_le (le_refl _)]
    · rw [Nat.min_eq_right h]
  have hdrop : ls.m_queue.drop (min ls.m_queue.length c) = ls.m_queue.drop c := by
    rcases Nat.le_total ls.m_queue.length c with h | h
    · rw [Nat.min_eq_left h, List.drop_of_length_le h, List.drop_of_length_le (le_refl _)]
    · rw [Nat.min_eq_right h]
  constructor
  · rw [run_dequeued_eq, htake]
    unfold afterLoop
    simp only [hmax]
    rw [hA]
    simp [loopInit]
  · unfold afterLoop
    simp only [hmax]
    obtain ⟨a2, h2⟩ := foldl_push_back_ext
      (runLoop env ls.m_queue.length c ls.m_queue.length 0 (loopInit ls mb)).must_reflow
      (runLoop env ls.m_queue.length c ls.m_queue.length 0 (loopInit ls mb)).m_queue
    refine ⟨added ++ a2, ?_⟩
    rw [h2, hB, hdrop, List.append_assoc]
    simp

/-- C1 at a source with air around it: the one queued coordinate is taken, the five
neighbours it enqueues are left for the next invocation. -/
theorem run_takes_entry_front_witness :
    (waterEnv 1 8 false).liquid_loop_max = ((1000 : Nat) : Int) ∧
      (systemOf [⟨0, 10, 0⟩] (mapOf [(⟨0, 10, 0⟩, ⟨10, 0, 0⟩)])).m_queue.Nodup ∧
      ((systemOf [⟨0, 10, 0⟩] (mapOf [(⟨0, 10, 0⟩, ⟨10, 0, 0⟩)])).run
          (waterEnv 1 8 false) 0 []).dequeued =
        (systemOf [⟨0, 10, 0⟩] (mapOf [(⟨0, 10, 0⟩, ⟨10, 0, 0⟩)])).m_queue.take
          (min (systemOf [⟨0, 10, 0⟩] (mapOf [(⟨0, 10, 0⟩, ⟨10, 0, 0⟩)])).m_queue.length 1000) :=
  ⟨rfl, by decide,
    (run_takes_entry_front (waterEnv 1 8 false) 0
      (systemOf [⟨0, 10, 0⟩] (mapOf [(⟨0, 10, 0⟩, ⟨10, 0, 0⟩)])) [] 1000 rfl (by decide)
      (by decide)).1⟩

/-! ## C2: a source of a well-formed family stays as it is -/

/-- C2: a voxel whose content is a Source, whose paired flowing id is a content of its own
(not air, which the scan reads as no family yet) and has the voxel's content registered as
its source form, is decided to keep its content whatever its six neighbours are, and
processing it writes nothing: the map is the same afterwards, and no flood hook call, change
record, modified block, rollback action, falling check or forced re-queue is made for
it. -/
theorem source_voxel_unchanged (env : Env) (p0 : v3s16) (s : LoopState)
    (hsrc : (env.nodedef (s.m_map p0).getContent).liquid_type = LIQUID_SOURCE)
    (hkind : (env.nodedef (s.m_map p0).getContent).liquid_alternative_flowing_id ≠ CONTENT_AIR)
    (hwf : (env.nodedef (env.nodedef
      (s.m_map p0).getContent).liquid_alternative_flowing_id).liquid_alternative_source_id =
        (s.m_map p0).getContent) :
    (decideNode env (collectNode env (s.m_map p0))
        (scanNeighbors env s.m_map p0 (collectNode env (s.m_map p0)).liquid_type
          (collectNode env (s.m_map p0)).liquid_kind s.m_queue)).new_node_content =
        (s.m_map p0).getContent ∧
      (transformNode env p0 s).m_map = s.m_map ∧
      (transformNode env p0 s).flood_calls = s.flood_calls ∧
      (transformNode env p0 s).changed_nodes = s.changed_nodes ∧
      (transformNode env p0 s).modified_blocks = s.modified_blocks ∧
      (transformNode env p0 s).rollback_actions = s.rollback_actions ∧
      (transformNode env p0 s).check_for_falling = s.check_for_falling ∧
      (transformNode env p0 s).must_reflow = s.must_reflow := by
  have hinfo := collectNode_source env (s.m_map p0) hsrc
  have hk := scanNeighbors_kind_stable env s.m_map p0 LIQUID_SOURCE
    (env.nodedef (s.m_map p0).getContent).liquid_alternative_flowing_id s.m_queue hkind
  have hd := decideNode_step1 env (collectNode env (s.m_map p0))
    (scanNeighbors env s.m_map p0 (collectNode env (s.m_map p0)).liquid_type
      (collectNode env (s.m_map p0)).liquid_kind s.m_queue)
    (Or.inr (by rw [hinfo]))
  have hcontent : (decideNode env (collectNode env (s.m_map p0))
        (scanNeighbors env s.m_map p0 (collectNode env (s.m_map p0)).liquid_type
          (collectNode env (s.m_map p0)).liquid_kind s.m_queue)).new_node_content =
        (s.m_map p0).getContent := by
    rw [hd]
    simp only [hinfo]
    rw [hk, hwf]
  have hun : unchanged env (s.m_map p0)
      (scanNeighbors env s.m_map p0 (collectNode env (s.m_map p0)).liquid_type
        (collectNode env (s.m_map p0)).liquid_kind s.m_queue)
      (decideNode env (collectNode env (s.m_map p0))
        (scanNeighbors env s.m_map p0 (collectNode env (s.m_map p0)).liquid_type
          (collectNode env (s.m_map p0)).liquid_kind s.m_queue)) = true := by
    unfold unchanged
    rw [hcontent, hsrc]
    simp
  have hreflow : (decideNode env (collectNode env (s.m_map p0))
        (scanNeighbors env s.m_map p0 (collectNode env (s.m_map p0)).liquid_type
          (collectNode env (s.m_map p0)).liquid_kind s.m_queue)).push_reflow = false := by
    rw [hd]
  have hproceed : ¬ ((collectNode env (s.m_map p0)).proceed = false) := by
    rw [hinfo]; simp
  refine ⟨hcontent, ?_⟩
  unfold transformNode
  simp only []
  rw [if_neg hproceed, if_pos hun, hreflow]
  simp

/-- C2 at a water source with a second source above, flowing water beside and air below. -/
theorem source_voxel_unchanged_witness :
    ((waterEnv 7 7 true).nodedef
        ((stateOf [] (mapOf [(⟨0, 10, 0⟩, ⟨10, 0, 0⟩), (⟨0, 11, 0⟩, ⟨10, 0, 0⟩),
          (⟨1, 10, 0⟩, ⟨11, 0, 5⟩)])).m_map ⟨0, 10, 0⟩).getContent).liquid_type =
        LIQUID_SOURCE ∧
      (transformNode (waterEnv 7 7 true) ⟨0, 10, 0⟩
        (stateOf [] (mapOf [(⟨0, 10, 0⟩, ⟨10, 0, 0⟩), (⟨0, 11, 0⟩, ⟨10, 0, 0⟩),
          (⟨1, 10, 0⟩, ⟨11, 0, 5⟩)]))).m_map =
        (stateOf [] (mapOf [(⟨0, 10, 0⟩, ⟨10, 0, 0⟩), (⟨0, 11, 0⟩, ⟨10, 0, 0⟩),
          (⟨1, 10, 0⟩, ⟨11, 0, 5⟩)])).m_map :=
  ⟨by decide,
    (source_voxel_unchanged (waterEnv 7 7 true) ⟨0, 10, 0⟩
      (stateOf [] (mapOf [(⟨0, 10, 0⟩, ⟨10, 0, 0⟩), (⟨0, 11, 0⟩, ⟨10, 0, 0⟩),
        (⟨1, 10, 0⟩, ⟨11, 0, 5⟩)]))
      (by decide) (by decide) (by decide)).2.1⟩

/-! ## C3: a source beside or above gives the full level at once -/

/-- C3: for a voxel the decision reaches (floodable non-liquid or Flowing) to which step 1
does not apply and which has, above or beside it, a Source whose paired flowing id is the
voxel's working family, the decided level is `LIQUID_LEVEL_MAX` whatever the viscosity, and
the decided content is the family's flowing id when the family's range is at least 1 and
the floodable substitute when the range is 0. -/
theorem source_beside_gives_level_max (env : Env) (p0 : v3s16) (s : LoopState)
    (_hproceed : (collectNode env (s.m_map p0)).proceed = true)
    (h1 : ¬ step1Applies env (collectNode env (s.m_map p0))
      (scanNeighbors env s.m_map p0 (collectNode env (s.m_map p0)).liquid_type
        (collectNode env (s.m_map p0)).liquid_kind s.m_queue))
    (hsrc : ∃ i, i < 5 ∧ isSourceOf env s.m_map p0
      (scanNeighbors env s.m_map p0 (collectNode env (s.m_map p0)).liquid_type
        (collectNode env (s.m_map p0)).liquid_kind s.m_queue).liquid_kind i) :
    (decideNode env (collectNode env (s.m_map p0))
        (scanNeighbors env s.m_map p0 (collectNode env (s.m_map p0)).liquid_type
          (collectNode env (s.m_map p0)).liquid_kind s.m_queue)).new_node_level =
        (LIQUID_LEVEL_MAX : Int) ∧
      (1 ≤ (env.nodedef (scanNeighbors env s.m_map p0 (collectNode env (s.m_map p0)).liquid_type
          (collectNode env (s.m_map p0)).liquid_kind s.m_queue).liquid_kind).liquid_range →
        (decideNode env (collectNode env (s.m_map p0))
          (scanNeighbors env s.m_map p0 (collectNode env (s.m_map p0)).liquid_type
            (collectNode env (s.m_map p0)).liquid_kind s.m_queue)).new_node_content =
          (scanNeighbors env s.m_map p0 (collectNode env (s.m_map p0)).liquid_type
            (collectNode env (s.m_map p0)).liquid_kind s.m_queue).liquid_kind) ∧
      ((env.nodedef (scanNeighbors env s.m_map p0 (collectNode env (s.m_map p0)).liquid_type
          (collectNode env (s.m_map p0)).liquid_kind s.m_queue).liquid_kind).liquid_range = 0 →
        (decideNode env (collectNode env (s.m_map p0))
          (scanNeighbors env s.m_map p0 (collectNode env (s.m_map p0)).liquid_type
            (collectNode env (s.m_map p0)).liquid_kind s.m_queue)).new_node_content =
          (collectNode env (s.m_map p0)).floodable_node) := by
  obtain ⟨i, hi, hs⟩ := hsrc
  have hmem : i ∈ [0, 1, 2, 3, 4, 5] := by
    simp only [List.mem_cons, List.mem_singleton, List.not_mem_nil, or_false]; omega
  have hnt : neighborType i ≠ NEIGHBOR_LOWER := by
    unfold neighborType
    split
    · simp
    · omega
    · simp
  have hone := scan_foldl_one_source env s.m_map p0 (collectNode env (s.m_map p0)).liquid_type
    [0, 1, 2, 3, 4, 5]
    (scanInit (collectNode env (s.m_map p0)).liquid_kind s.m_queue) i hmem hnt hs
  have h2 := scanNeighbors_step2 env s.m_map p0 (collectNode env (s.m_map p0)).liquid_type
    (collectNode env (s.m_map p0)).liquid_kind s.m_queue
    (by unfold scanNeighbors; omega)
  rw [decideNode_step2 env _ _ h1 h2]
  refine ⟨rfl, ?_, ?_⟩
  · intro hr
    simp only [liquidRange, LIQUID_LEVEL_MAX]
    rw [if_pos]
    split_ifs <;> omega
  · intro hr
    simp only [liquidRange, LIQUID_LEVEL_MAX]
    rw [if_neg]
    rw [hr]
    simp

/-- C3 on the map of `test_liquid.cpp`: the air cell at (0, 9, 0), directly below the lone
source, is decided to be flowing water at level 7. -/
theorem source_beside_gives_level_max_witness :
    (collectNode testEnv ((stateOf [] testMap).m_map ⟨0, 9, 0⟩)).proceed = true ∧
      (decideNode testEnv (collectNode testEnv ((stateOf [] testMap).m_map ⟨0, 9, 0⟩))
        (scanNeighbors testEnv (stateOf [] testMap).m_map ⟨0, 9, 0⟩
          (collectNode testEnv ((stateOf [] testMap).m_map ⟨0, 9, 0⟩)).liquid_type
          (collectNode testEnv ((stateOf [] testMap).m_map ⟨0, 9, 0⟩)).liquid_kind
          (stateOf [] testMap).m_queue)).new_node_level = (LIQUID_LEVEL_MAX : Int) ∧
      (decideNode testEnv (collectNode testEnv ((stateOf [] testMap).m_map ⟨0, 9, 0⟩))
        (scanNeighbors testEnv (stateOf [] testMap).m_map ⟨0, 9, 0⟩
          (collectNode testEnv ((stateOf [] testMap).m_map ⟨0, 9, 0⟩)).liquid_type
          (collectNode testEnv ((stateOf [] testMap).m_map ⟨0, 9, 0⟩)).liquid_kind
          (stateOf [] testMap).m_queue)).new_node_content = 1 :=
  ⟨by decide,
    (source_beside_gives_level_max testEnv ⟨0, 9, 0⟩ (stateOf [] testMap) (by decide)
      (by decide) ⟨0, by decide, by decide⟩).1,
    (source_beside_gives_level_max testEnv ⟨0, 9, 0⟩ (stateOf [] testMap) (by decide)
      (by decide) ⟨0, by decide, by decide⟩).2.1 (by decide)⟩

/-! ## C4: saturation by two sources -/

/-- C4 as stated fails: a dirt voxel between two sources of the renewable water family is
skipped by the loop and stays dirt; and an air voxel with one water source below it and one
beside it has only the one beside it counted, so it is decided to be flowing water (11),
not the source (10). -/
theorem saturation_counterexample :
    (isSourceOf (waterEnv 1 8 false)
        (mapOf [(⟨0, 10, 0⟩, ⟨2, 0, 0⟩), (⟨1, 10, 0⟩, ⟨10, 0, 0⟩), (⟨-1, 10, 0⟩, ⟨10, 0, 0⟩)])
        ⟨0, 10, 0⟩ 11 2 ∧
      isSourceOf (waterEnv 1 8 false)
        (mapOf [(⟨0, 10, 0⟩, ⟨2, 0, 0⟩), (⟨1, 10, 0⟩, ⟨10, 0, 0⟩), (⟨-1, 10, 0⟩, ⟨10, 0, 0⟩)])
        ⟨0, 10, 0⟩ 11 4 ∧
      ((waterEnv 1 8 false).nodedef 11).liquid_renewable = true ∧
      ((waterEnv 1 8 false).nodedef 11).liquid_alternative_source_id = 10 ∧
      ((transformNode (waterEnv 1 8 false) ⟨0, 10, 0⟩
        (stateOf [] (mapOf [(⟨0, 10, 0⟩, ⟨2, 0, 0⟩), (⟨1, 10, 0⟩, ⟨10, 0, 0⟩),
          (⟨-1, 10, 0⟩, ⟨10, 0, 0⟩)]))).m_map ⟨0, 10, 0⟩).getContent = 2) ∧
    (isSourceOf (waterEnv 1 8 false)
        (mapOf [(⟨1, 10, 0⟩, ⟨10, 0, 0⟩), (⟨0, 9, 0⟩, ⟨10, 0, 0⟩)]) ⟨0, 10, 0⟩ 11 2 ∧
      isSourceOf (waterEnv 1 8 false)
        (mapOf [(⟨1, 10, 0⟩, ⟨10, 0, 0⟩), (⟨0, 9, 0⟩, ⟨10, 0, 0⟩)]) ⟨0, 10, 0⟩ 11 5 ∧
      ((transformNode (waterEnv 1 8 false) ⟨0, 10, 0⟩
        (stateOf [] (mapOf [(⟨1, 10, 0⟩, ⟨10, 0, 0⟩),
          (⟨0, 9, 0⟩, ⟨10, 0, 0⟩)]))).m_map ⟨0, 10, 0⟩).getContent = 11) := by
  decide

/-- C4 as amended: for a voxel the decision reaches (floodable non-liquid, or a liquid), if
at least two of its upper and same-level neighbours are Sources whose paired flowing id is
the voxel's working family and that family is renewable, the decided content is the
family's source form; and unless the flood hook vetoes, or that source form is the
unresolved sentinel which the store does not place, the voxel holds it after the turn. -/
theorem saturation_amended (env : Env) (p0 : v3s16) (s : LoopState)
    (hproceed : (collectNode env (s.m_map p0)).proceed = true)
    (hsrc : ∃ i j, i < 5 ∧ j < 5 ∧ i ≠ j ∧
      isSourceOf env s.m_map p0
        (scanNeighbors env s.m_map p0 (collectNode env (s.m_map p0)).liquid_type
          (collectNode env (s.m_map p0)).liquid_kind s.m_queue).liquid_kind i ∧
      isSourceOf env s.m_map p0
        (scanNeighbors env s.m_map p0 (collectNode env (s.m_map p0)).liquid_type
          (collectNode env (s.m_map p0)).liquid_kind s.m_queue).liquid_kind j)
    (hren : (env.nodedef (scanNeighbors env s.m_map p0 (collectNode env (s.m_map p0)).liquid_type
      (collectNode env (s.m_map p0)).liquid_kind s.m_queue).liquid_kind).liquid_renewable =
        true) :
    (decideNode env (collectNode env (s.m_map p0))
        (scanNeighbors env s.m_map p0 (collectNode env (s.m_map p0)).liquid_type
          (collectNode env (s.m_map p0)).liquid_kind s.m_queue)).new_node_content =
        (env.nodedef (scanNeighbors env s.m_map p0 (collectNode env (s.m_map p0)).liquid_type
          (collectNode env (s.m_map p0)).liquid_kind
          s.m_queue).liquid_kind).liquid_alternative_source_id ∧
      (((collectNode env (s.m_map p0)).floodable_node = CONTENT_AIR ∨
          env.node_on_flood p0 (s.m_map p0)
            (updatedNode env (s.m_map p0)
              (scanNeighbors env s.m_map p0 (collectNode env (s.m_map p0)).liquid_type
                (collectNode env (s.m_map p0)).liquid_kind s.m_queue)
              (decideNode env (collectNode env (s.m_map p0))
                (scanNeighbors env s.m_map p0 (collectNode env (s.m_map p0)).liquid_type
                  (collectNode env (s.m_map p0)).liquid_kind s.m_queue))) = false) →
        (env.nodedef (scanNeighbors env s.m_map p0 (collectNode env (s.m_map p0)).liquid_type
          (collectNode env (s.m_map p0)).liquid_kind
          s.m_queue).liquid_kind).liquid_alternative_source_id ≠ CONTENT_IGNORE →
        ((transformNode env p0 s).m_map p0).getContent =
          (env.nodedef (scanNeighbors env s.m_map p0 (collectNode env (s.m_map p0)).liquid_type
            (collectNode env (s.m_map p0)).liquid_kind
            s.m_queue).liquid_kind).liquid_alternative_source_id) := by
  obtain ⟨i, j, hi, hj, hij, hsi, hsj⟩ := hsrc
  have hnt : ∀ k, k < 5 → neighborType k ≠ NEIGHBOR_LOWER := by
    intro k hk
    unfold neighborType
    split
    · simp
    · omega
    · simp
  have hmem : ∀ k, k < 5 → k ∈ [0, 1, 2, 3, 4, 5] := by
    intro k hk
    simp only [List.mem_cons, List.mem_singleton, List.not_mem_nil, or_false]; omega
  have htwo := scan_foldl_two_sources env s.m_map p0 (collectNode env (s.m_map p0)).liquid_type
    [0, 1, 2, 3, 4, 5] (scanInit (collectNode env (s.m_map p0)).liquid_kind s.m_queue)
    i j (hmem i hi) (hmem j hj) hij (hnt i hi) (hnt j hj) hsi hsj
  have hd := decideNode_step1 env (collectNode env (s.m_map p0))
    (scanNeighbors env s.m_map p0 (collectNode env (s.m_map p0)).liquid_type
      (collectNode env (s.m_map p0)).liquid_kind s.m_queue)
    (Or.inl ⟨by unfold scanNeighbors; omega, hren⟩)
  have hc : (decideNode env (collectNode env (s.m_map p0))
        (scanNeighbors env s.m_map p0 (collectNode env (s.m_map p0)).liquid_type
          (collectNode env (s.m_map p0)).liquid_kind s.m_queue)).new_node_content =
        (env.nodedef (scanNeighbors env s.m_map p0 (collectNode env (s.m_map p0)).liquid_type
          (collectNode env (s.m_map p0)).liquid_kind
          s.m_queue).liquid_kind).liquid_alternative_source_id := by
    rw [hd]
  refine ⟨hc, ?_⟩
  intro hveto hign
  rw [← hc] at hign ⊢
  cases hu : unchanged env (s.m_map p0)
      (scanNeighbors env s.m_map p0 (collectNode env (s.m_map p0)).liquid_type
        (collectNode env (s.m_map p0)).liquid_kind s.m_queue)
      (decideNode env (collectNode env (s.m_map p0))
        (scanNeighbors env s.m_map p0 (collectNode env (s.m_map p0)).liquid_type
          (collectNode env (s.m_map p0)).liquid_kind s.m_queue)) with
  | true =>
    rw [transformNode_unchanged env p0 s hproceed hu]
    exact (unchanged_content env _ _ _ hu).symm
  | false =>
    rw [transformNode_changed env p0 s hproceed hu]
    by_cases hfl : (collectNode env (s.m_map p0)).floodable_node = CONTENT_AIR
    · rw [applyChange_air env p0 _ _ _ _ _ hfl]
      exact (commitNode_content env p0 _ _ _ _ _ hign).1
    · rcases hveto with h | h
      · exact absurd h hfl
      · rw [applyChange_pass env p0 _ _ _ _ _ hfl h]
        exact (commitNode_content env p0 _ _ _ _ _ hign).1

/-- C4 as amended, at an air voxel with a water source above it and one beside it: it
becomes a water source (10). -/
theorem saturation_amended_witness :
    (collectNode (waterEnv 1 8 false)
        ((stateOf [] (mapOf [(⟨0, 11, 0⟩, ⟨10, 0, 0⟩),
          (⟨1, 10, 0⟩, ⟨10, 0, 0⟩)])).m_map ⟨0, 10, 0⟩)).proceed = true ∧
      ((transformNode (waterEnv 1 8 false) ⟨0, 10, 0⟩
        (stateOf [] (mapOf [(⟨0, 11, 0⟩, ⟨10, 0, 0⟩),
          (⟨1, 10, 0⟩, ⟨10, 0, 0⟩)]))).m_map ⟨0, 10, 0⟩).getContent = 10 :=
  ⟨by decide,
    (saturation_amended (waterEnv 1 8 false) ⟨0, 10, 0⟩
      (stateOf [] (mapOf [(⟨0, 11, 0⟩, ⟨10, 0, 0⟩), (⟨1, 10, 0⟩, ⟨10, 0, 0⟩)]))
      (by decide) ⟨0, 2, by decide, by decide, by decide, by decide, by decide⟩
      (by decide)).2 (Or.inl (by decide)) (by decide)⟩

/-! ## C5: the range cutoff -/

/-- C5 as stated fails.  With water of range 1 (threshold `7 + 1 - 1 = 7`) and viscosity 7,
an air voxel under flowing water of level 7 has candidate level 7, so the flowing form is
chosen, but viscosity lets the level rise to 0 only: a flowing node of level 0 is written.
And a flowing voxel of level 0 beside an unresolved neighbour keeps content and level by
step 3 whatever the range; air below it changes its flowing-down flag, so it is written
again as a flowing node of level 0. -/
theorem range_cutoff_counterexample :
    (liquidRange (waterEnv 7 1 false) 11 = 1 ∧
      ((transformNode (waterEnv 7 1 false) ⟨0, 10, 0⟩
        (stateOf [] (mapOf [(⟨0, 11, 0⟩, ⟨11, 0, 7⟩)]))).m_map ⟨0, 10, 0⟩).getContent = 11 ∧
      ((transformNode (waterEnv 7 1 false) ⟨0, 10, 0⟩
        (stateOf [] (mapOf [(⟨0, 11, 0⟩, ⟨11, 0, 7⟩)]))).m_map ⟨0, 10, 0⟩).param2 &&&
          LIQUID_LEVEL_MASK = 0 ∧
      (0 : Int) < (LIQUID_LEVEL_MAX : Int) + 1 - 1) ∧
    (liquidRange (waterEnv 1 1 false) 11 = 1 ∧
      (mapOf [(⟨0, 10, 0⟩, ⟨11, 0, 0⟩), (⟨1, 10, 0⟩, ⟨CONTENT_IGNORE, 0, 0⟩)]
        ⟨0, 10, 0⟩) = ⟨11, 0, 0⟩ ∧
      (transformNode (waterEnv 1 1 false) ⟨0, 10, 0⟩
        (stateOf [] (mapOf [(⟨0, 10, 0⟩, ⟨11, 0, 0⟩),
          (⟨1, 10, 0⟩, ⟨CONTENT_IGNORE, 0, 0⟩)]))).m_map ⟨0, 10, 0⟩ = ⟨11, 0, 8⟩) := by
  decide

/-- C5 as amended: the cutoff is taken on the candidate level.  For a family of range
`R ≤ LIQUID_LEVEL_MAX + 1`, whatever the viscosity and the neighbourhood, when the decision
is taken by step 2 or by step 4 the content is the family's flowing id if the candidate
level (`max_node_level`) is at least `LIQUID_LEVEL_MAX + 1 - R` and the floodable substitute
if it is below; and the decided level is the candidate itself in step 2, and in step 4 when
the viscosity is at most 1, so that there a flowing node is never decided below the
threshold. -/
theorem range_cutoff_amended (env : Env) (info : NodeInfo) (sc : Scan)
    (hR : (env.nodedef sc.liquid_kind).liquid_range ≤ LIQUID_LEVEL_MAX + 1)
    (h1 : ¬ step1Applies env info sc)
    (h23 : step2Applies sc ∨ ¬ step3Applies info sc) :
    ((LIQUID_LEVEL_MAX : Int) + 1 - ((env.nodedef sc.liquid_kind).liquid_range : Int) ≤
        (decideNode env info sc).max_node_level →
      (decideNode env info sc).new_node_content = sc.liquid_kind) ∧
    ((decideNode env info sc).max_node_level <
        (LIQUID_LEVEL_MAX : Int) + 1 - ((env.nodedef sc.liquid_kind).liquid_range : Int) →
      (decideNode env info sc).new_node_content = info.floodable_node) ∧
    ((step2Applies sc ∨ (env.nodedef sc.liquid_kind).liquid_viscosity ≤ 1) →
      (decideNode env info sc).new_node_level = (decideNode env info sc).max_node_level) := by
  have hrange : liquidRange env sc.liquid_kind = (env.nodedef sc.liquid_kind).liquid_range := by
    unfold liquidRange
    simp only []
    rw [if_neg (by omega)]
  by_cases h2 : step2Applies sc
  · rw [decideNode_step2 env info sc h1 h2, hrange]
    refine ⟨?_, ?_, ?_⟩
    · intro h
      simp only [] at h ⊢
      rw [if_pos h]
    · intro h
      simp only [] at h ⊢
      rw [if_neg (by omega)]
    · intro _
      rfl
  · have h3 : ¬ step3Applies info sc := by
      rcases h23 with h | h
      · exact absurd h h2
      · exact h
    rw [decideNode_step4 env info sc h1 h2 h3, hrange]
    refine ⟨?_, ?_, ?_⟩
    · intro h
      simp only [] at h ⊢
      rw [if_pos h]
    · intro h
      simp only [] at h ⊢
      rw [if_neg (by omega)]
    · intro h
      rcases h with h | h
      · exact absurd h h2
      · simp only []
        rw [viscosityLevel_direct _ _ _ (Or.inl h)]

/-- C5 as amended, at an air voxel under flowing water of level 2, with water of range 1 and
viscosity 1: the candidate level 6 is below the threshold 7 and the voxel stays air. -/
theorem range_cutoff_amended_witness :
    ((waterEnv 1 1 false).nodedef
        (scanNeighbors (waterEnv 1 1 false) (mapOf [(⟨0, 11, 0⟩, ⟨11, 0, 2⟩)]) ⟨0, 10, 0⟩
          LIQUID_NONE CONTENT_AIR []).liquid_kind).liquid_range ≤ LIQUID_LEVEL_MAX + 1 ∧
      (decideNode (waterEnv 1 1 false)
        (collectNode (waterEnv 1 1 false) ((mapOf [(⟨0, 11, 0⟩, ⟨11, 0, 2⟩)]) ⟨0, 10, 0⟩))
        (scanNeighbors (waterEnv 1 1 false) (mapOf [(⟨0, 11, 0⟩, ⟨11, 0, 2⟩)]) ⟨0, 10, 0⟩
          LIQUID_NONE CONTENT_AIR [])).new_node_content = CONTENT_AIR :=
  ⟨by decide,
    (range_cutoff_amended (waterEnv 1 1 false)
      (collectNode (waterEnv 1 1 false) ((mapOf [(⟨0, 11, 0⟩, ⟨11, 0, 2⟩)]) ⟨0, 10, 0⟩))
      (scanNeighbors (waterEnv 1 1 false) (mapOf [(⟨0, 11, 0⟩, ⟨11, 0, 2⟩)]) ⟨0, 10, 0⟩
        LIQUID_NONE CONTENT_AIR [])
      (by decide) (by decide) (Or.inr (by decide))).2.1 (by decide)⟩

/-! ## C6: the level of a flowing node -/

theorem liquidRange_le (env : Env) (k : Nat) : liquidRange env k ≤ 8 := by
  unfold liquidRange
  simp only [LIQUID_LEVEL_MAX]
  split_ifs <;> omega

theorem level_bits (k : Nat) (hk : k ≤ 7) (b : Bool) :
    ((if b = true then LIQUID_FLOW_DOWN_MASK else 0x00) ||| k) &&& LIQUID_LEVEL_MASK = k := by
  interval_cases k <;> cases b <;> decide

/-- The level decided by steps 2 to 4 when the flowing form, and not the substitute, is
chosen. -/
theorem decideNode_level_bounds (env : Env) (n0 : MapNode) (sc : Scan)
    (h1 : ¬ step1Applies env (collectNode env n0) sc)
    (hc : (decideNode env (collectNode env n0) sc).new_node_content = sc.liquid_kind)
    (hne : sc.liquid_kind ≠ (collectNode env n0).floodable_node) :
    0 ≤ (decideNode env (collectNode env n0) sc).new_node_level ∧
      (decideNode env (collectNode env n0) sc).new_node_level ≤ 7 := by
  obtain ⟨hl1, _, hl3, _, _⟩ := collectNode_level env n0
  have hns : (collectNode env n0).liquid_type ≠ LIQUID_SOURCE := fun h => h1 (Or.inr h)
  have hl7 := hl3 hns
  by_cases h2 : step2Applies sc
  · rw [decideNode_step2 env _ sc h1 h2]
    simp [LIQUID_LEVEL_MAX]
  · by_cases h3 : step3Applies (collectNode env n0) sc
    · rw [decideNode_step3 env _ sc h1 h2 h3]
      exact ⟨h3.2, hl7⟩
    · rw [decideNode_step4 env _ sc h1 h2 h3] at hc ⊢
      simp only [] at hc ⊢
      obtain ⟨hm1, hm2⟩ := maxInflow_bounds sc.flows
      have hr := liquidRange_le env sc.liquid_kind
      have hm0 : 0 ≤ maxInflow sc.flows := by
        by_contra hneg
        rw [if_neg (by simp only [LIQUID_LEVEL_MAX]; omega)] at hc
        exact hne hc.symm
      by_cases hdir : (env.nodedef sc.liquid_kind).liquid_viscosity ≤ 1 ∨
          maxInflow sc.flows = (collectNode env n0).liquid_level
      · rw [viscosityLevel_direct _ _ _ hdir]
        exact ⟨hm0, hm2⟩
      · have hv : 1 < (env.nodedef sc.liquid_kind).liquid_viscosity := by omega
        have hneq : maxInflow sc.flows ≠ (collectNode env n0).liquid_level :=
          fun h => hdir (Or.inr h)
        obtain ⟨hup, hdown, _⟩ := viscosityLevel_move
          (env.nodedef sc.liquid_kind).liquid_viscosity (collectNode env n0).liquid_level
          (maxInflow sc.flows) hv ⟨hl1, hl7⟩ ⟨hm1, hm2⟩ hneq
        rcases lt_or_gt_of_ne hneq with hlt | hgt
        · have := hdown hlt
          omega
        · have := hup hgt
          omega

/-- C6: whatever the current node, the neighbourhood and the descriptor values, when steps
2 to 4 choose the family's flowing id as the new content (and not the floodable
substitute), the decided level is an integer in `0..LIQUID_LEVEL_MAX`, never the initial
`-1`; so its three low bits are the level itself, and the level read back from the auxiliary
byte of the node built for a flowing content is the decided level. -/
theorem flowing_level_in_range (env : Env) (n0 : MapNode) (sc : Scan)
    (h1 : ¬ step1Applies env (collectNode env n0) sc)
    (hc : (decideNode env (collectNode env n0) sc).new_node_content = sc.liquid_kind)
    (hne : sc.liquid_kind ≠ (collectNode env n0).floodable_node) :
    0 ≤ (decideNode env (collectNode env n0) sc).new_node_level ∧
      (decideNode env (collectNode env n0) sc).new_node_level ≤ (LIQUID_LEVEL_MAX : Int) ∧
      ((((decideNode env (collectNode env n0) sc).new_node_level % 8).toNat : Int) =
        (decideNode env (collectNode env n0) sc).new_node_level) ∧
      ((env.nodedef (decideNode env (collectNode env n0) sc).new_node_content).liquid_type =
          LIQUID_FLOWING →
        (((updatedNode env n0 sc (decideNode env (collectNode env n0) sc)).param2 &&&
          LIQUID_LEVEL_MASK : Nat) : Int) =
          (decideNode env (collectNode env n0) sc).new_node_level) := by
  obtain ⟨hlo, hhi⟩ := decideNode_level_bounds env n0 sc h1 hc hne
  have hmod : (((decideNode env (collectNode env n0) sc).new_node_level % 8).toNat : Int) =
      (decideNode env (collectNode env n0) sc).new_node_level := by omega
  refine ⟨hlo, by simpa [LIQUID_LEVEL_MAX] using hhi, hmod, ?_⟩
  intro hfl
  unfold updatedNode
  simp only [MapNode.setContent]
  rw [if_pos hfl]
  simp only []
  rw [level_bits _ (by omega)]
  exact hmod

/-- C6 at an air voxel under flowing water of level 7, viscosity 7: the flowing form is
chosen with a level in `0..7`. -/
theorem flowing_level_in_range_witness :
    (decideNode (waterEnv 7 8 false)
        (collectNode (waterEnv 7 8 false) ⟨CONTENT_AIR, 0, 0⟩)
        (scanNeighbors (waterEnv 7 8 false) (mapOf [(⟨0, 11, 0⟩, ⟨11, 0, 7⟩)]) ⟨0, 10, 0⟩
          LIQUID_NONE CONTENT_AIR [])).new_node_content = 11 ∧
      0 ≤ (decideNode (waterEnv 7 8 false)
        (collectNode (waterEnv 7 8 false) ⟨CONTENT_AIR, 0, 0⟩)
        (scanNeighbors (waterEnv 7 8 false) (mapOf [(⟨0, 11, 0⟩, ⟨11, 0, 7⟩)]) ⟨0, 10, 0⟩
          LIQUID_NONE CONTENT_AIR [])).new_node_level :=
  ⟨by decide,
    (flowing_level_in_range (waterEnv 7 8 false) ⟨CONTENT_AIR, 0, 0⟩
      (scanNeighbors (waterEnv 7 8 false) (mapOf [(⟨0, 11, 0⟩, ⟨11, 0, 7⟩)]) ⟨0, 10, 0⟩
        LIQUID_NONE CONTENT_AIR [])
      (by decide) (by decide) (by decide)).1⟩

/-! ## C7: the level change under viscosity -/

/-- C7 as stated fails: with viscosity 2, a flowing voxel of level 0 under flowing water of
level 7 is handled by the no-source step, its candidate level 7 differs from its level 0 by
more than one unit, and the decided level is `0 + 7 / 2 = 3`, three units away. -/
theorem viscosity_counterexample :
    ((waterEnv 2 8 false).nodedef 11).liquid_viscosity = 2 ∧
      ¬ step1Applies (waterEnv 2 8 false)
        (collectNode (waterEnv 2 8 false) ⟨11, 0, 0⟩)
        (scanNeighbors (waterEnv 2 8 false)
          (mapOf [(⟨0, 10, 0⟩, ⟨11, 0, 0⟩), (⟨0, 11, 0⟩, ⟨11, 0, 7⟩)]) ⟨0, 10, 0⟩
          LIQUID_FLOWING 11 []) ∧
      ¬ step2Applies
        (scanNeighbors (waterEnv 2 8 false)
          (mapOf [(⟨0, 10, 0⟩, ⟨11, 0, 0⟩), (⟨0, 11, 0⟩, ⟨11, 0, 7⟩)]) ⟨0, 10, 0⟩
          LIQUID_FLOWING 11 []) ∧
      ¬ step3Applies (collectNode (waterEnv 2 8 false) ⟨11, 0, 0⟩)
        (scanNeighbors (waterEnv 2 8 false)
          (mapOf [(⟨0, 10, 0⟩, ⟨11, 0, 0⟩), (⟨0, 11, 0⟩, ⟨11, 0, 7⟩)]) ⟨0, 10, 0⟩
          LIQUID_FLOWING 11 []) ∧
      (collectNode (waterEnv 2 8 false) ⟨11, 0, 0⟩).liquid_level = 0 ∧
      (decideNode (waterEnv 2 8 false) (collectNode (waterEnv 2 8 false) ⟨11, 0, 0⟩)
        (scanNeighbors (waterEnv 2 8 false)
          (mapOf [(⟨0, 10, 0⟩, ⟨11, 0, 0⟩), (⟨0, 11, 0⟩, ⟨11, 0, 7⟩)]) ⟨0, 10, 0⟩
          LIQUID_FLOWING 11 [])).max_node_level = 7 ∧
      (decideNode (waterEnv 2 8 false) (collectNode (waterEnv 2 8 false) ⟨11, 0, 0⟩)
        (scanNeighbors (waterEnv 2 8 false)
          (mapOf [(⟨0, 10, 0⟩, ⟨11, 0, 0⟩), (⟨0, 11, 0⟩, ⟨11, 0, 7⟩)]) ⟨0, 10, 0⟩
          LIQUID_FLOWING 11 [])).new_node_level = 3 := by
  decide

/-- C7 as amended: for a family of viscosity above 1 and a voxel handled by the no-source
step, if the candidate level differs from the voxel's current level by more than one unit
and by less than twice the viscosity, the decided level differs from the current level by
exactly one unit; whatever the gap, the decided level lies strictly off the current level
on the candidate's side and never past the candidate. -/
theorem viscosity_amended (env : Env) (n0 : MapNode) (sc : Scan)
    (h1 : ¬ step1Applies env (collectNode env n0) sc)
    (h2 : ¬ step2Applies sc)
    (h3 : ¬ step3Applies (collectNode env n0) sc)
    (hv : 1 < (env.nodedef sc.liquid_kind).liquid_viscosity)
    (hgap : 1 < |(decideNode env (collectNode env n0) sc).max_node_level -
      (collectNode env n0).liquid_level|) :
    (|(decideNode env (collectNode env n0) sc).max_node_level -
        (collectNode env n0).liquid_level| <
        2 * ((env.nodedef sc.liquid_kind).liquid_viscosity : Int) →
      |(decideNode env (collectNode env n0) sc).new_node_level -
        (collectNode env n0).liquid_level| = 1) ∧
    ((collectNode env n0).liquid_level <
        (decideNode env (collectNode env n0) sc).max_node_level →
      (collectNode env n0).liquid_level <
          (decideNode env (collectNode env n0) sc).new_node_level ∧
        (decideNode env (collectNode env n0) sc).new_node_level ≤
          (decideNode env (collectNode env n0) sc).max_node_level) ∧
    ((decideNode env (collectNode env n0) sc).max_node_level <
        (collectNode env n0).liquid_level →
      (decideNode env (collectNode env n0) sc).max_node_level ≤
          (decideNode env (collectNode env n0) sc).new_node_level ∧
        (decideNode env (collectNode env n0) sc).new_node_level <
          (collectNode env n0).liquid_level) := by
  obtain ⟨hl1, _, hl3, _, _⟩ := collectNode_level env n0
  have hns : (collectNode env n0).liquid_type ≠ LIQUID_SOURCE := fun h => h1 (Or.inr h)
  have hl7 := hl3 hns
  rw [decideNode_step4 env _ sc h1 h2 h3] at hgap ⊢
  simp only [] at hgap ⊢
  have hneq : maxInflow sc.flows ≠ (collectNode env n0).liquid_level := by
    intro h
    rw [h, sub_self, abs_zero] at hgap
    omega
  obtain ⟨hup, hdown, hone⟩ := viscosityLevel_move
    (env.nodedef sc.liquid_kind).liquid_viscosity (collectNode env n0).liquid_level
    (maxInflow sc.flows) hv ⟨hl1, hl7⟩ (maxInflow_bounds sc.flows) hneq
  exact ⟨hone, hup, hdown⟩

/-- C7 as amended, at an air voxel (level `-1`) under flowing water of level 7 with
viscosity 7: the gap of 8 is less than 14, and the decided level 0 is one unit off. -/
theorem viscosity_amended_witness :
    1 < ((waterEnv 7 8 false).nodedef
        (scanNeighbors (waterEnv 7 8 false) (mapOf [(⟨0, 11, 0⟩, ⟨11, 0, 7⟩)]) ⟨0, 10, 0⟩
          LIQUID_NONE CONTENT_AIR []).liquid_kind).liquid_viscosity ∧
      |(decideNode (waterEnv 7 8 false)
          (collectNode (waterEnv 7 8 false) ⟨CONTENT_AIR, 0, 0⟩)
          (scanNeighbors (waterEnv 7 8 false) (mapOf [(⟨0, 11, 0⟩, ⟨11, 0, 7⟩)]) ⟨0, 10, 0⟩
            LIQUID_NONE CONTENT_AIR [])).new_node_level -
        (collectNode (waterEnv 7 8 false) ⟨CONTENT_AIR, 0, 0⟩).liquid_level| = 1 :=
  ⟨by decide,
    (viscosity_amended (waterEnv 7 8 false) ⟨CONTENT_AIR, 0, 0⟩
      (scanNeighbors (waterEnv 7 8 false) (mapOf [(⟨0, 11, 0⟩, ⟨11, 0, 7⟩)]) ⟨0, 10, 0⟩
        LIQUID_NONE CONTENT_AIR [])
      (by decide) (by decide) (by decide) (by decide) (by decide)).1 (by decide)⟩

/-! ## C8: the boost from a flowing neighbour above -/

/-- One turn of the scan leaves the flow bucket alone or appends the neighbour it looked
at. -/
theorem scanNeighbor_flows_cases (env : Env) (m : v3s16 → MapNode) (p0 : v3s16)
    (lt : LiquidType) (sc : Scan) (i : Nat) :
    (scanNeighbor env m p0 lt sc i).flows = sc.flows ∨
      (scanNeighbor env m p0 lt sc i).flows =
        sc.flows ++ [⟨neighborNode m p0 i, neighborType i, p0.add (liquid_6dirs i)⟩] := by
  unfold neighborNode
  unfold scanNeighbor
  simp only []
  split <;> split_ifs <;>
    first
    | exact Or.inl rfl
    | exact Or.inr rfl

/-- Every entry of the flow bucket is the snapshot of one of the directions scanned. -/
theorem scan_foldl_flows_mem (env : Env) (m : v3s16 → MapNode) (p0 : v3s16)
    (lt : LiquidType) (l : List Nat) :
    ∀ (sc : Scan) (f : NodeNeighbor), f ∈ (l.foldl (scanNeighbor env m p0 lt) sc).flows →
      f ∈ sc.flows ∨
        ∃ i ∈ l, f = ⟨neighborNode m p0 i, neighborType i, p0.add (liquid_6dirs i)⟩ := by
  induction l with
  | nil => intro sc f hf; exact Or.inl hf
  | cons a l ih =>
    intro sc f hf
    rw [List.foldl_cons] at hf
    rcases ih _ f hf with h | ⟨i, hi, h⟩
    · rcases scanNeighbor_flows_cases env m p0 lt sc a with h1 | h1
      · rw [h1] at h; exact Or.inl h
      · rw [h1] at h
        rcases List.mem_append.mp h with h | h
        · exact Or.inl h
        · exact Or.inr ⟨a, List.mem_cons_self _ _, List.mem_singleton.mp h⟩
    · exact Or.inr ⟨i, List.mem_cons_of_mem _ hi, h⟩

/-- An entry of the flow bucket tagged as upper is the snapshot of the neighbour above. -/
theorem scanNeighbors_flows_upper (env : Env) (m : v3s16 → MapNode) (p0 : v3s16)
    (lt : LiquidType) (k : Nat) (q : List v3s16) (f : NodeNeighbor)
    (hf : f ∈ (scanNeighbors env m p0 lt k q).flows) (ht : f.t = NEIGHBOR_UPPER) :
    f.n = neighborNode m p0 0 := by
  rcases scan_foldl_flows_mem env m p0 lt _ (scanInit k q) f hf with h | ⟨i, hi, h⟩
  · simp [scanInit] at h
  · subst h
    simp only [List.mem_cons, List.mem_singleton, List.not_mem_nil, or_false] at hi
    rcases hi with rfl | rfl | rfl | rfl | rfl | rfl
    · rfl
    all_goals exact absurd ht (by simp [neighborType])

/-- C8: for a floodable voxel that is not a liquid, with no counted Source neighbour, whose
only entry in the flow bucket is the upper neighbour, at level `L`, the candidate level
(`max_node_level`) is `min(LIQUID_LEVEL_MAX, L + WATER_DROP_BOOST)`, with a boost of 4,
whatever stands below the voxel and whether or not a neighbour is unresolved. -/
theorem upper_boost (env : Env) (p0 : v3s16) (s : LoopState)
    (hnone : (env.nodedef (s.m_map p0).getContent).liquid_type = LIQUID_NONE)
    (hflood : (env.nodedef (s.m_map p0).getContent).floodable = true)
    (hsrc : (scanNeighbors env s.m_map p0 (collectNode env (s.m_map p0)).liquid_type
      (collectNode env (s.m_map p0)).liquid_kind s.m_queue).sources = [])
    (hflows : (scanNeighbors env s.m_map p0 (collectNode env (s.m_map p0)).liquid_type
      (collectNode env (s.m_map p0)).liquid_kind s.m_queue).flows.map (fun f => f.t) =
        [NEIGHBOR_UPPER]) :
    (decideNode env (collectNode env (s.m_map p0))
        (scanNeighbors env s.m_map p0 (collectNode env (s.m_map p0)).liquid_type
          (collectNode env (s.m_map p0)).liquid_kind s.m_queue)).max_node_level =
      ((min LIQUID_LEVEL_MAX
        (((neighborNode s.m_map p0 0).param2 &&& LIQUID_LEVEL_MASK) + WATER_DROP_BOOST) :
          Nat) : Int) ∧
      WATER_DROP_BOOST = 4 := by
  refine ⟨?_, rfl⟩
  have hinfo := collectNode_none env (s.m_map p0) hnone hflood
  have h1 : ¬ step1Applies env (collectNode env (s.m_map p0))
      (scanNeighbors env s.m_map p0 (collectNode env (s.m_map p0)).liquid_type
        (collectNode env (s.m_map p0)).liquid_kind s.m_queue) := by
    unfold step1Applies
    rw [hsrc]
    rw [hinfo]
    simp
  have h2 : ¬ step2Applies
      (scanNeighbors env s.m_map p0 (collectNode env (s.m_map p0)).liquid_type
        (collectNode env (s.m_map p0)).liquid_kind s.m_queue) := by
    unfold step2Applies
    rw [hsrc]
    simp
  have h3 : ¬ step3Applies (collectNode env (s.m_map p0))
      (scanNeighbors env s.m_map p0 (collectNode env (s.m_map p0)).liquid_type
        (collectNode env (s.m_map p0)).liquid_kind s.m_queue) := by
    unfold step3Applies
    rw [hinfo]
    simp
  rw [decideNode_step4 env _ _ h1 h2 h3]
  simp only []
  cases hfl : (scanNeighbors env s.m_map p0 (collectNode env (s.m_map p0)).liquid_type
      (collectNode env (s.m_map p0)).liquid_kind s.m_queue).flows with
  | nil => rw [hfl] at hflows; simp at hflows
  | cons f rest =>
    rw [hfl] at hflows
    simp only [List.map_cons, List.cons.injEq, List.map_eq_nil_iff] at hflows
    obtain ⟨ht, hrest⟩ := hflows
    subst hrest
    have hn := scanNeighbors_flows_upper env s.m_map p0 _ _ _ f
      (by rw [hfl]; exact List.mem_singleton.mpr rfl) ht
    have hmask : f.n.param2 &&& LIQUID_LEVEL_MASK ≤ 7 := Nat.and_le_right
    rw [← hn]
    unfold maxInflow
    simp only [List.foldl_cons, List.foldl_nil]
    unfold inflowStep
    simp only [ht, WATER_DROP_BOOST, LIQUID_LEVEL_MAX]
    split_ifs <;> omega

/-- C8 at an air voxel under flowing water of level 2 with air below: the candidate level
is 6. -/
theorem upper_boost_witness :
    ((waterEnv 1 8 false).nodedef
        ((stateOf [] (mapOf [(⟨0, 11, 0⟩, ⟨11, 0, 2⟩)])).m_map ⟨0, 10, 0⟩).getContent).floodable =
        true ∧
      (decideNode (waterEnv 1 8 false)
        (collectNode (waterEnv 1 8 false)
          ((stateOf [] (mapOf [(⟨0, 11, 0⟩, ⟨11, 0, 2⟩)])).m_map ⟨0, 10, 0⟩))
        (scanNeighbors (waterEnv 1 8 false)
          (stateOf [] (mapOf [(⟨0, 11, 0⟩, ⟨11, 0, 2⟩)])).m_map ⟨0, 10, 0⟩
          (collectNode (waterEnv 1 8 false)
            ((stateOf [] (mapOf [(⟨0, 11, 0⟩, ⟨11, 0, 2⟩)])).m_map ⟨0, 10, 0⟩)).liquid_type
          (collectNode (waterEnv 1 8 false)
            ((stateOf [] (mapOf [(⟨0, 11, 0⟩, ⟨11, 0, 2⟩)])).m_map ⟨0, 10, 0⟩)).liquid_kind
          (stateOf [] (mapOf [(⟨0, 11, 0⟩, ⟨11, 0, 2⟩)])).m_queue)).max_node_level = 6 :=
  ⟨by decide,
    (upper_boost (waterEnv 1 8 false) ⟨0, 10, 0⟩
      (stateOf [] (mapOf [(⟨0, 11, 0⟩, ⟨11, 0, 2⟩)]))
      (by decide) (by decide) (by decide) (by decide)).1⟩

/-! ## C9: an unresolved neighbour keeps a flowing voxel as it is -/

theorem scanNeighbor_ignored_mono (env : Env) (m : v3s16 → MapNode) (p0 : v3s16)
    (lt : LiquidType) (sc : Scan) (i : Nat) (h : sc.ignored_sources = true) :
    (scanNeighbor env m p0 lt sc i).ignored_sources = true := by
  unfold scanNeighbor
  simp only []
  split <;> split_ifs <;> first | exact h | rfl

/-- An unresolved neighbour beside or above sets the flag `ignored_sources`. -/
theorem scanNeighbor_ignored_set (env : Env) (m : v3s16 → MapNode) (p0 : v3s16)
    (lt : LiquidType) (sc : Scan) (i : Nat)
    (hb1 : (env.nodedef CONTENT_IGNORE).liquid_type = LIQUID_NONE)
    (hb2 : (env.nodedef CONTENT_IGNORE).floodable = false)
    (hnt : neighborType i ≠ NEIGHBOR_LOWER)
    (hc : (neighborNode m p0 i).getContent = CONTENT_IGNORE) :
    (scanNeighbor env m p0 lt sc i).ignored_sources = true := by
  unfold neighborNode at hc
  unfold scanNeighbor
  simp only []
  rw [hc, hb1]
  simp only [hb2, Bool.false_eq_true, if_false, if_true, if_neg hnt]

theorem scan_foldl_ignored (env : Env) (m : v3s16 → MapNode) (p0 : v3s16)
    (lt : LiquidType) (l : List Nat)
    (hb1 : (env.nodedef CONTENT_IGNORE).liquid_type = LIQUID_NONE)
    (hb2 : (env.nodedef CONTENT_IGNORE).floodable = false) :
    ∀ (sc : Scan),
      (sc.ignored_sources = true ∨
        ∃ i ∈ l, neighborType i ≠ NEIGHBOR_LOWER ∧
          (neighborNode m p0 i).getContent = CONTENT_IGNORE) →
      (l.foldl (scanNeighbor env m p0 lt) sc).ignored_sources = true := by
  induction l with
  | nil =>
    intro sc h
    rcases h with h | ⟨i, hi, _⟩
    · exact h
    · simp at hi
  | cons a l ih =>
    intro sc h
    rw [List.foldl_cons]
    apply ih
    rcases h with h | ⟨i, hi, hnt, hc⟩
    · exact Or.inl (scanNeighbor_ignored_mono env m p0 lt sc a h)
    · rcases List.mem_cons.mp hi with rfl | hmem
      · exact Or.inl (scanNeighbor_ignored_set env m p0 lt sc i hb1 hb2 hnt hc)
      · exact Or.inr ⟨i, hmem, hnt, hc⟩

/-- C9: a Flowing voxel to which steps 1 and 2 do not apply and which has, above or beside
it, a neighbour that is the unresolved sentinel, is decided to keep its content and its
level, whatever is in its flow bucket; after the turn the voxel has the content and the
level it had before.  The registry holds the built-in entries for the sentinel and for
air. -/
theorem unloaded_neighbour_stability (env : Env) (p0 : v3s16) (s : LoopState)
    (hb : builtinEntries env)
    (hfl : (env.nodedef (s.m_map p0).getContent).liquid_type = LIQUID_FLOWING)
    (h1 : ¬ step1Applies env (collectNode env (s.m_map p0))
      (scanNeighbors env s.m_map p0 (collectNode env (s.m_map p0)).liquid_type
        (collectNode env (s.m_map p0)).liquid_kind s.m_queue))
    (h2 : ¬ step2Applies
      (scanNeighbors env s.m_map p0 (collectNode env (s.m_map p0)).liquid_type
        (collectNode env (s.m_map p0)).liquid_kind s.m_queue))
    (hnb : ∃ i, i < 5 ∧ (neighborNode s.m_map p0 i).getContent = CONTENT_IGNORE) :
    (decideNode env (collectNode env (s.m_map p0))
        (scanNeighbors env s.m_map p0 (collectNode env (s.m_map p0)).liquid_type
          (collectNode env (s.m_map p0)).liquid_kind s.m_queue)).new_node_content =
        (s.m_map p0).getContent ∧
      (decideNode env (collectNode env (s.m_map p0))
        (scanNeighbors env s.m_map p0 (collectNode env (s.m_map p0)).liquid_type
          (collectNode env (s.m_map p0)).liquid_kind s.m_queue)).new_node_level =
        (((s.m_map p0).param2 &&& LIQUID_LEVEL_MASK : Nat) : Int) ∧
      ((transformNode env p0 s).m_map p0).getContent = (s.m_map p0).getContent ∧
      ((transformNode env p0 s).m_map p0).param2 &&& LIQUID_LEVEL_MASK =
        (s.m_map p0).param2 &&& LIQUID_LEVEL_MASK := by
  obtain ⟨hb1, hb2, hb3, _⟩ := hb
  obtain ⟨i, hi, hc⟩ := hnb
  have hinfo := collectNode_flowing env (s.m_map p0) hfl
  have hnair : (s.m_map p0).getContent ≠ CONTENT_AIR := by
    intro h
    rw [h, hb3] at hfl
    exact absurd hfl (by decide)
  have hnign : (s.m_map p0).getContent ≠ CONTENT_IGNORE := by
    intro h
    rw [h, hb1] at hfl
    exact absurd hfl (by decide)
  have hmem : i ∈ [0, 1, 2, 3, 4, 5] := by
    simp only [List.mem_cons, List.mem_singleton, List.not_mem_nil, or_false]; omega
  have hnt : neighborType i ≠ NEIGHBOR_LOWER := by
    unfold neighborType
    split
    · simp
    · omega
    · simp
  have hproceed : (collectNode env (s.m_map p0)).proceed = true := by rw [hinfo]
  have hfn : (collectNode env (s.m_map p0)).floodable_node = CONTENT_AIR := by rw [hinfo]
  have hlev : (collectNode env (s.m_map p0)).liquid_level =
      (((s.m_map p0).param2 &&& LIQUID_LEVEL_MASK : Nat) : Int) := by rw [hinfo]
  have hkind0 : (collectNode env (s.m_map p0)).liquid_kind = (s.m_map p0).getContent := by
    rw [hinfo]
  have hkind : (scanNeighbors env s.m_map p0 (collectNode env (s.m_map p0)).liquid_type
      (collectNode env (s.m_map p0)).liquid_kind s.m_queue).liquid_kind =
      (s.m_map p0).getContent := by
    rw [scanNeighbors_kind_stable env s.m_map p0 _ _ _ (by rw [hkind0]; exact hnair), hkind0]
  have hign : (scanNeighbors env s.m_map p0 (collectNode env (s.m_map p0)).liquid_type
      (collectNode env (s.m_map p0)).liquid_kind s.m_queue).ignored_sources = true :=
    scan_foldl_ignored env s.m_map p0 _ [0, 1, 2, 3, 4, 5] hb1 hb2 _
      (Or.inr ⟨i, hmem, hnt, hc⟩)
  have h3 : step3Applies (collectNode env (s.m_map p0))
      (scanNeighbors env s.m_map p0 (collectNode env (s.m_map p0)).liquid_type
        (collectNode env (s.m_map p0)).liquid_kind s.m_queue) :=
    ⟨hign, by rw [hlev]; exact Int.natCast_nonneg _⟩
  have hd := decideNode_step3 env _ _ h1 h2 h3
  have hcontent : (decideNode env (collectNode env (s.m_map p0))
      (scanNeighbors env s.m_map p0 (collectNode env (s.m_map p0)).liquid_type
        (collectNode env (s.m_map p0)).liquid_kind s.m_queue)).new_node_content =
      (s.m_map p0).getContent := by
    rw [hd]; exact hkind
  have hlevel : (decideNode env (collectNode env (s.m_map p0))
      (scanNeighbors env s.m_map p0 (collectNode env (s.m_map p0)).liquid_type
        (collectNode env (s.m_map p0)).liquid_kind s.m_queue)).new_node_level =
      (((s.m_map p0).param2 &&& LIQUID_LEVEL_MASK : Nat) : Int) := by
    rw [hd]; exact hlev
  refine ⟨hcontent, hlevel, ?_⟩
  cases hu : unchanged env (s.m_map p0)
      (scanNeighbors env s.m_map p0 (collectNode env (s.m_map p0)).liquid_type
        (collectNode env (s.m_map p0)).liquid_kind s.m_queue)
      (decideNode env (collectNode env (s.m_map p0))
        (scanNeighbors env s.m_map p0 (collectNode env (s.m_map p0)).liquid_type
          (collectNode env (s.m_map p0)).liquid_kind s.m_queue)) with
  | true =>
    rw [transformNode_unchanged env p0 s hproceed hu]
    exact ⟨rfl, rfl⟩
  | false =>
    rw [transformNode_changed env p0 s hproceed hu, applyChange_air env p0 _ _ _ _ _ hfn]
    have hcc := commitNode_content env p0 (s.m_map p0) (s.m_map p0)
      (scanNeighbors env s.m_map p0 (collectNode env (s.m_map p0)).liquid_type
        (collectNode env (s.m_map p0)).liquid_kind s.m_queue)
      (decideNode env (collectNode env (s.m_map p0))
        (scanNeighbors env s.m_map p0 (collectNode env (s.m_map p0)).liquid_type
          (collectNode env (s.m_map p0)).liquid_kind s.m_queue))
      { s with
        m_queue := (scanNeighbors env s.m_map p0 (collectNode env (s.m_map p0)).liquid_type
          (collectNode env (s.m_map p0)).liquid_kind s.m_queue).m_queue
        must_reflow :=
          if (decideNode env (collectNode env (s.m_map p0))
            (scanNeighbors env s.m_map p0 (collectNode env (s.m_map p0)).liquid_type
              (collectNode env (s.m_map p0)).liquid_kind s.m_queue)).push_reflow = true
          then s.must_reflow ++ [p0] else s.must_reflow
        check_for_falling :=
          if (scanNeighbors env s.m_map p0 (collectNode env (s.m_map p0)).liquid_type
              (collectNode env (s.m_map p0)).liquid_kind s.m_queue).floating_node_above = true ∧
            (decideNode env (collectNode env (s.m_map p0))
              (scanNeighbors env s.m_map p0 (collectNode env (s.m_map p0)).liquid_type
                (collectNode env (s.m_map p0)).liquid_kind s.m_queue)).new_node_content =
              CONTENT_AIR
          then s.check_for_falling ++ [p0] else s.check_for_falling }
      (by rw [hcontent]; exact hnign)
    refine ⟨by rw [hcc.1, hcontent], ?_⟩
    rw [hcc.2]
    unfold updatedNode
    simp only [MapNode.setContent]
    rw [if_pos (by rw [hcontent]; exact hfl)]
    simp only []
    rw [hlevel]
    have hmask : (s.m_map p0).param2 &&& LIQUID_LEVEL_MASK ≤ 7 := Nat.and_le_right
    have hnat : ((((s.m_map p0).param2 &&& LIQUID_LEVEL_MASK : Nat) : Int) % 8).toNat =
        (s.m_map p0).param2 &&& LIQUID_LEVEL_MASK := by omega
    rw [hnat]
    exact level_bits _ hmask _

/-- C9 at flowing water of level 3 with an unresolved neighbour beside it, nothing flowing
into it and air below: content and level stay, only the flowing-down flag is set. -/
theorem unloaded_neighbour_stability_witness :
    builtinEntries (waterEnv 1 8 false) ∧
      (transformNode (waterEnv 1 8 false) ⟨0, 10, 0⟩
        (stateOf [] (mapOf [(⟨0, 10, 0⟩, ⟨11, 0, 3⟩),
          (⟨1, 10, 0⟩, ⟨CONTENT_IGNORE, 0, 0⟩)]))).m_map ⟨0, 10, 0⟩ = ⟨11, 0, 11⟩ ∧
      ((transformNode (waterEnv 1 8 false) ⟨0, 10, 0⟩
        (stateOf [] (mapOf [(⟨0, 10, 0⟩, ⟨11, 0, 3⟩),
          (⟨1, 10, 0⟩, ⟨CONTENT_IGNORE, 0, 0⟩)]))).m_map ⟨0, 10, 0⟩).param2 &&&
          LIQUID_LEVEL_MASK =
        ((stateOf [] (mapOf [(⟨0, 10, 0⟩, ⟨11, 0, 3⟩),
          (⟨1, 10, 0⟩, ⟨CONTENT_IGNORE, 0, 0⟩)])).m_map ⟨0, 10, 0⟩).param2 &&&
          LIQUID_LEVEL_MASK :=
  ⟨by decide, by decide,
    (unloaded_neighbour_stability (waterEnv 1 8 false) ⟨0, 10, 0⟩
      (stateOf [] (mapOf [(⟨0, 10, 0⟩, ⟨11, 0, 3⟩), (⟨1, 10, 0⟩, ⟨CONTENT_IGNORE, 0, 0⟩)]))
      (by decide) (by decide) (by decide) (by decide)
      ⟨2, by decide, by decide⟩).2.2.2⟩

/-! ## C10: the veto of the flood hook -/

/-- C10 fails on the code.  A floodable plant (20) under flowing water of level 7, in a
well-formed water registry with viscosity 7, and a hook that vetoes: the hook is asked once,
the plant stays and no change record is made, but the voxel was put on `must_reflow` at
line 308, before the hook was asked at line 354 (its level would rise to 0 only, the
candidate being 7), and the `continue` of line 355 leaves it there: the invocation ends
with the voxel back on the work queue, and so does every invocation after it. -/
theorem flood_veto_not_atomic :
    ((systemOf [⟨0, 10, 0⟩] (mapOf [(⟨0, 10, 0⟩, ⟨20, 0, 0⟩),
        (⟨0, 11, 0⟩, ⟨11, 0, 7⟩)])).run (waterEnv 7 8 true) 0 []).flood_calls.length = 1 ∧
      ((systemOf [⟨0, 10, 0⟩] (mapOf [(⟨0, 10, 0⟩, ⟨20, 0, 0⟩),
        (⟨0, 11, 0⟩, ⟨11, 0, 7⟩)])).run (waterEnv 7 8 true) 0 []).sys.m_map ⟨0, 10, 0⟩ =
        ⟨20, 0, 0⟩ ∧
      ((systemOf [⟨0, 10, 0⟩] (mapOf [(⟨0, 10, 0⟩, ⟨20, 0, 0⟩),
        (⟨0, 11, 0⟩, ⟨11, 0, 7⟩)])).run (waterEnv 7 8 true) 0 []).changed_nodes = [] ∧
      ((systemOf [⟨0, 10, 0⟩] (mapOf [(⟨0, 10, 0⟩, ⟨20, 0, 0⟩),
        (⟨0, 11, 0⟩, ⟨11, 0, 7⟩)])).run (waterEnv 7 8 true) 0 []).sys.m_queue =
        [⟨0, 10, 0⟩] ∧
      (runMany (waterEnv 7 8 true) [0, 0, 0]
        (systemOf [⟨0, 10, 0⟩] (mapOf [(⟨0, 10, 0⟩, ⟨20, 0, 0⟩),
          (⟨0, 11, 0⟩, ⟨11, 0, 7⟩)])) []).map
          (fun r => (r.dequeued, r.flood_calls.length, r.sys.m_queue)) =
        [([⟨0, 10, 0⟩], 1, [⟨0, 10, 0⟩]), ([⟨0, 10, 0⟩], 1, [⟨0, 10, 0⟩]),
          ([⟨0, 10, 0⟩], 1, [⟨0, 10, 0⟩])] := by
  decide

/-- A turn of the loop whose change the flood hook vetoes, as the code runs it: the map, the
change records, the modified blocks and the rollback actions are as before, nothing is
pushed onto the work queue in the turn, and the loop goes on with the next queued voxel;
what the code has done before it asks the hook stays: the mark on `must_reflow` of line 308
and the falling check of line 334. -/
theorem runLoop_vetoed_turn (env : Env) (p0 : v3s16) (s0 : LoopState) (rest : List v3s16)
    (initial_size loop_max fuel loopcount : Nat)
    (hq : s0.m_queue = p0 :: rest)
    (hcount : loopcount < initial_size ∧ loopcount < loop_max)
    (hproceed : (collectNode env (s0.m_map p0)).proceed = true)
    (hchanged : unchanged env (s0.m_map p0)
      (scanNeighbors env s0.m_map p0 (collectNode env (s0.m_map p0)).liquid_type
        (collectNode env (s0.m_map p0)).liquid_kind rest)
      (decideNode env (collectNode env (s0.m_map p0))
        (scanNeighbors env s0.m_map p0 (collectNode env (s0.m_map p0)).liquid_type
          (collectNode env (s0.m_map p0)).liquid_kind rest)) = false)
    (hsub : (collectNode env (s0.m_map p0)).floodable_node ≠ CONTENT_AIR)
    (hveto : env.node_on_flood p0 (s0.m_map p0)
      (updatedNode env (s0.m_map p0)
        (scanNeighbors env s0.m_map p0 (collectNode env (s0.m_map p0)).liquid_type
          (collectNode env (s0.m_map p0)).liquid_kind rest)
        (decideNode env (collectNode env (s0.m_map p0))
          (scanNeighbors env s0.m_map p0 (collectNode env (s0.m_map p0)).liquid_type
            (collectNode env (s0.m_map p0)).liquid_kind rest))) = true) :
    runLoop env initial_size loop_max (fuel + 1) loopcount s0 =
      runLoop env initial_size loop_max fuel (loopcount + 1)
        { m_queue := rest
          m_map := s0.m_map
          must_reflow :=
            if (decideNode env (collectNode env (s0.m_map p0))
              (scanNeighbors env s0.m_map p0 (collectNode env (s0.m_map p0)).liquid_type
                (collectNode env (s0.m_map p0)).liquid_kind rest)).push_reflow = true
            then s0.must_reflow ++ [p0] else s0.must_reflow
          changed_nodes := s0.changed_nodes
          check_for_falling :=
            if (scanNeighbors env s0.m_map p0 (collectNode env (s0.m_map p0)).liquid_type
                (collectNode env (s0.m_map p0)).liquid_kind rest).floating_node_above = true ∧
              (decideNode env (collectNode env (s0.m_map p0))
                (scanNeighbors env s0.m_map p0 (collectNode env (s0.m_map p0)).liquid_type
                  (collectNode env (s0.m_map p0)).liquid_kind rest)).new_node_content =
                CONTENT_AIR
            then s0.check_for_falling ++ [p0] else s0.check_for_falling
          modified_blocks := s0.modified_blocks
          flood_calls := s0.flood_calls ++ [(p0, s0.m_map p0,
            updatedNode env (s0.m_map p0)
              (scanNeighbors env s0.m_map p0 (collectNode env (s0.m_map p0)).liquid_type
                (collectNode env (s0.m_map p0)).liquid_kind rest)
              (decideNode env (collectNode env (s0.m_map p0))
                (scanNeighbors env s0.m_map p0 (collectNode env (s0.m_map p0)).liquid_type
                  (collectNode env (s0.m_map p0)).liquid_kind rest)))]
          rollback_actions := s0.rollback_actions
          dequeued := s0.dequeued ++ [p0] } ∧
      ((decideNode env (collectNode env (s0.m_map p0))
          (scanNeighbors env s0.m_map p0 (collectNode env (s0.m_map p0)).liquid_type
            (collectNode env (s0.m_map p0)).liquid_kind rest)).push_reflow = true ↔
        (decideNode env (collectNode env (s0.m_map p0))
          (scanNeighbors env s0.m_map p0 (collectNode env (s0.m_map p0)).liquid_type
            (collectNode env (s0.m_map p0)).liquid_kind rest)).new_node_level ≠
        (decideNode env (collectNode env (s0.m_map p0))
          (scanNeighbors env s0.m_map p0 (collectNode env (s0.m_map p0)).liquid_type
            (collectNode env (s0.m_map p0)).liquid_kind rest)).max_node_level) := by
  have hnone : (collectNode env (s0.m_map p0)).liquid_type = LIQUID_NONE ∧
      (collectNode env (s0.m_map p0)).liquid_level = -1 := by
    revert hsub
    unfold collectNode
    simp only []
    split
    · intro h; exact absurd rfl h
    · intro h; exact absurd rfl h
    · split
      · intro h; exact absurd rfl h
      · intro _; exact ⟨rfl, rfl⟩
  have hqueue : (scanNeighbors env s0.m_map p0 (collectNode env (s0.m_map p0)).liquid_type
      (collectNode env (s0.m_map p0)).liquid_kind rest).m_queue = rest := by
    rw [hnone.1]
    exact scanNeighbors_queue_none env s0.m_map p0 _ rest
  constructor
  · rw [runLoop, hq]
    simp only []
    rw [if_neg (by omega)]
    congr 1
    rw [transformNode_changed env p0
        { s0 with m_queue := rest, dequeued := s0.dequeued ++ [p0] } hproceed hchanged,
      applyChange_veto env p0 _ _ _ _ _ hsub hveto]
    simp only [hqueue]
  · by_cases h1 : step1Applies env (collectNode env (s0.m_map p0))
        (scanNeighbors env s0.m_map p0 (collectNode env (s0.m_map p0)).liquid_type
          (collectNode env (s0.m_map p0)).liquid_kind rest)
    · rw [decideNode_step1 env _ _ h1]
      simp
    · by_cases h2 : step2Applies
          (scanNeighbors env s0.m_map p0 (collectNode env (s0.m_map p0)).liquid_type
            (collectNode env (s0.m_map p0)).liquid_kind rest)
      · rw [decideNode_step2 env _ _ h1 h2]
        simp
      · have h3 : ¬ step3Applies (collectNode env (s0.m_map p0))
            (scanNeighbors env s0.m_map p0 (collectNode env (s0.m_map p0)).liquid_type
              (collectNode env (s0.m_map p0)).liquid_kind rest) := by
          rintro ⟨_, h⟩
          rw [hnone.2] at h
          omega
        rw [decideNode_step4 env _ _ h1 h2 h3]
        simp only []
        unfold viscosityLevel
        simp only []
        split_ifs <;> simp

/-! ## C11: one transformed notification for every invocation -/

/-- What `run` hands out comes from the state after the loop and from the relighting pass,
whatever the purge does. -/
theorem run_outputs (env : Env) (curr_time : Nat) (ls : LiquidSystem)
    (mb : List (v3s16 × Nat)) :
    (ls.run env curr_time mb).changed_nodes = (afterLoop env ls mb).changed_nodes ∧
      (ls.run env curr_time mb).transformed_calls = [(afterLoop env ls mb).changed_nodes] ∧
      (ls.run env curr_time mb).lighting_calls = [(afterLoop env ls mb).changed_nodes] ∧
      (ls.run env curr_time mb).falling_calls = (afterLoop env ls mb).check_for_falling ∧
      (ls.run env curr_time mb).flood_calls = (afterLoop env ls mb).flood_calls ∧
      (ls.run env curr_time mb).rollback_actions = (afterLoop env ls mb).rollback_actions ∧
      (ls.run env curr_time mb).modified_blocks =
        (update_lighting_nodes env (afterLoop env ls mb).m_map
          (afterLoop env ls mb).changed_nodes (afterLoop env ls mb).modified_blocks).2 ∧
      (ls.run env curr_time mb).sys.m_map =
        (update_lighting_nodes env (afterLoop env ls mb).m_map
          (afterLoop env ls mb).changed_nodes (afterLoop env ls mb).modified_blocks).1 := by
  unfold LiquidSystem.run
  simp only []
  split_ifs <;> exact ⟨rfl, rfl, rfl, rfl, rfl, rfl, rfl, rfl⟩

theorem runMany_length (env : Env) (times : List Nat) :
    ∀ (ls : LiquidSystem) (mb : List (v3s16 × Nat)),
      (runMany env times ls mb).length = times.length := by
  induction times with
  | nil => intro ls mb; rfl
  | cons t ts ih =>
    intro ls mb
    simp only [runMany, List.length_cons, ih]

theorem runMany_notifications (env : Env) (times : List Nat) :
    ∀ (ls : LiquidSystem) (mb : List (v3s16 × Nat)),
      (notifications (runMany env times ls mb)).length = times.length := by
  induction times with
  | nil => intro ls mb; rfl
  | cons t ts ih =>
    intro ls mb
    have h := ih (ls.run env t mb).sys (ls.run env t mb).modified_blocks
    unfold notifications at h ⊢
    simp only [runMany, List.map_cons, List.flatten_cons, List.length_append, h,
      (run_outputs env t ls mb).2.1, List.length_singleton, List.length_cons,
      List.length_nil]
    omega

/-- C11: every invocation of `run` delivers exactly one transformed notification, and it
carries the whole batch of change records of that invocation, also when the batch is empty;
so a series of `k` invocations delivers exactly `k` notifications. -/
theorem one_notification_per_run (env : Env) (curr_time : Nat) (ls : LiquidSystem)
    (mb : List (v3s16 × Nat)) (times : List Nat) :
    (ls.run env curr_time mb).transformed_calls = [(ls.run env curr_time mb).changed_nodes] ∧
      (ls.run env curr_time mb).transformed_calls.length = 1 ∧
      (notifications (runMany env times ls mb)).length = times.length := by
  have h := run_outputs env curr_time ls mb
  refine ⟨by rw [h.2.1, h.1], by rw [h.2.1]; rfl, runMany_notifications env times ls mb⟩

/-! ## C12: an invocation entered with an empty queue -/

theorem afterLoop_empty (env : Env) (ls : LiquidSystem) (mb : List (v3s16 × Nat))
    (h : ls.m_queue = []) : afterLoop env ls mb = loopInit ls mb := by
  unfold afterLoop
  simp only [h, List.length_nil, runLoop]
  simp [loopInit, h]

/-- C12 as stated fails: entered with an empty queue, `run` still delivers one transformed
notification, with an empty batch. -/
theorem fixed_point_counterexample :
    (systemOf [] (mapOf [])).m_queue = [] ∧
      ((systemOf [] (mapOf [])).run (waterEnv 1 8 false) 0 []).transformed_calls = [[]] ∧
      ((systemOf [] (mapOf [])).run (waterEnv 1 8 false) 0 []).transformed_calls.length ≠
        0 := by
  decide

/-- C12 as amended: an invocation entered with an empty work queue writes no node, asks the
flood hook nothing, dispatches no falling check, makes no change record, rollback action or
modified block, and leaves the queue empty; it delivers exactly one transformed
notification, whose batch is empty. -/
theorem fixed_point_amended (env : Env) (curr_time : Nat) (ls : LiquidSystem)
    (mb : List (v3s16 × Nat)) (h : ls.m_queue = []) :
    (ls.run env curr_time mb).sys.m_map = ls.m_map ∧
      (ls.run env curr_time mb).sys.m_queue = [] ∧
      (ls.run env curr_time mb).flood_calls = [] ∧
      (ls.run env curr_time mb).falling_calls = [] ∧
      (ls.run env curr_time mb).changed_nodes = [] ∧
      (ls.run env curr_time mb).rollback_actions = [] ∧
      (ls.run env curr_time mb).modified_blocks = mb ∧
      (ls.run env curr_time mb).dequeued = [] ∧
      (ls.run env curr_time mb).transformed_calls = [[]] := by
  obtain ⟨h1, h2, _, h4, h5, h6, h7, h8⟩ := run_outputs env curr_time ls mb
  have ha := afterLoop_empty env ls mb h
  refine ⟨by rw [h8, ha]; rfl, ?_, by rw [h5, ha]; rfl, by rw [h4, ha]; rfl,
    by rw [h1, ha]; rfl, by rw [h6, ha]; rfl, by rw [h7, ha]; rfl,
    by rw [run_dequeued_eq, ha]; rfl, by rw [h2, ha]; rfl⟩
  unfold LiquidSystem.run
  simp only [ha]
  have hq : (loopInit ls mb).m_queue = [] := h
  simp only [hq, List.length_nil, Nat.zero_le, if_true]
  split_ifs <;> first | exact h | rfl | simp_all

/-- C12 as amended, at a system with an empty queue over a map that holds a source. -/
theorem fixed_point_amended_witness :
    (systemOf [] (mapOf [(⟨0, 10, 0⟩, ⟨10, 0, 0⟩)])).m_queue = [] ∧
      ((systemOf [] (mapOf [(⟨0, 10, 0⟩, ⟨10, 0, 0⟩)])).run
        (waterEnv 1 8 false) 0 []).transformed_calls = [[]] :=
  ⟨rfl,
    (fixed_point_amended (waterEnv 1 8 false) 0
      (systemOf [] (mapOf [(⟨0, 10, 0⟩, ⟨10, 0, 0⟩)])) [] rfl).2.2.2.2.2.2.2.2⟩

/-! ## C13: every coordinate at most once in an invocation -/

/-- A property of the loop state that every turn of the loop keeps is kept by the loop. -/
theorem runLoop_invariant (env : Env) (initial_size loop_max : Nat) (P : LoopState → Prop)
    (hstep : ∀ (s : LoopState) (p0 : v3s16) (rest : List v3s16), P s → s.m_queue = p0 :: rest →
      P (transformNode env p0 { s with m_queue := rest, dequeued := s.dequeued ++ [p0] }))
    (fuel : Nat) :
    ∀ (loopcount : Nat) (s : LoopState), P s →
      P (runLoop env initial_size loop_max fuel loopcount s) := by
  induction fuel with
  | zero => intro loopcount s hs; exact hs
  | succ k ih =>
    intro loopcount s hs
    rw [runLoop]
    split
    · exact hs
    · rename_i p0 rest hq
      split_ifs
      · exact hs
      · exact ih _ _ (hstep s p0 rest hs hq)

/-- What one turn adds to the three traces: at most one entry each, for the coordinate of
the turn. -/
theorem transformNode_traces (env : Env) (p0 : v3s16) (s : LoopState) :
    ((transformNode env p0 s).changed_nodes = s.changed_nodes ∨
        (transformNode env p0 s).changed_nodes = s.changed_nodes ++ [(p0, s.m_map p0)]) ∧
      ((transformNode env p0 s).flood_calls = s.flood_calls ∨
        ∃ n1, (transformNode env p0 s).flood_calls =
          s.flood_calls ++ [(p0, s.m_map p0, n1)]) ∧
      ((transformNode env p0 s).check_for_falling = s.check_for_falling ∨
        (transformNode env p0 s).check_for_falling = s.check_for_falling ++ [p0]) := by
  cases hp : (collectNode env (s.m_map p0)).proceed with
  | false =>
    rw [transformNode_skip env p0 s hp]
    exact ⟨Or.inl rfl, Or.inl rfl, Or.inl rfl⟩
  | true =>
    cases hu : unchanged env (s.m_map p0)
        (scanNeighbors env s.m_map p0 (collectNode env (s.m_map p0)).liquid_type
          (collectNode env (s.m_map p0)).liquid_kind s.m_queue)
        (decideNode env (collectNode env (s.m_map p0))
          (scanNeighbors env s.m_map p0 (collectNode env (s.m_map p0)).liquid_type
            (collectNode env (s.m_map p0)).liquid_kind s.m_queue)) with
    | true =>
      rw [transformNode_unchanged env p0 s hp hu]
      exact ⟨Or.inl rfl, Or.inl rfl, Or.inl rfl⟩
    | false =>
      rw [transformNode_changed env p0 s hp hu]
      have hfall : ∀ (c : Prop) [Decidable c],
          (if c then s.check_for_falling ++ [p0] else s.check_for_falling) =
              s.check_for_falling ∨
            (if c then s.check_for_falling ++ [p0] else s.check_for_falling) =
              s.check_for_falling ++ [p0] := by
        intro c _
        by_cases hc : c
        · rw [if_pos hc]; exact Or.inr rfl
        · rw [if_neg hc]; exact Or.inl rfl
      have hchg : ∀ (o : Option Nat),
          (match o with
            | some _ => s.changed_nodes ++ [(p0, s.m_map p0)]
            | none => s.changed_nodes) = s.changed_nodes ∨
          (match o with
            | some _ => s.changed_nodes ++ [(p0, s.m_map p0)]
            | none => s.changed_nodes) = s.changed_nodes ++ [(p0, s.m_map p0)] := by
        intro o
        cases o
        · exact Or.inl rfl
        · exact Or.inr rfl
      by_cases hfl : (collectNode env (s.m_map p0)).floodable_node = CONTENT_AIR
      · rw [applyChange_air env p0 _ _ _ _ _ hfl]
        exact ⟨hchg _, Or.inl rfl, hfall _⟩
      · cases hv : env.node_on_flood p0 (s.m_map p0)
            (updatedNode env (s.m_map p0)
              (scanNeighbors env s.m_map p0 (collectNode env (s.m_map p0)).liquid_type
                (collectNode env (s.m_map p0)).liquid_kind s.m_queue)
              (decideNode env (collectNode env (s.m_map p0))
                (scanNeighbors env s.m_map p0 (collectNode env (s.m_map p0)).liquid_type
                  (collectNode env (s.m_map p0)).liquid_kind s.m_queue))) with
        | true =>
          rw [applyChange_veto env p0 _ _ _ _ _ hfl hv]
          exact ⟨Or.inl rfl, Or.inr ⟨_, rfl⟩, hfall _⟩
        | false =>
          rw [applyChange_pass env p0 _ _ _ _ _ hfl hv]
          exact ⟨hchg _, Or.inr ⟨_, rfl⟩, hfall _⟩


theorem transformNode_tracesFollowQueue (env : Env) (s : LoopState) (p0 : v3s16)
    (rest : List v3s16) (h : tracesFollowQueue s) :
    tracesFollowQueue
      (transformNode env p0 { s with m_queue := rest, dequeued := s.dequeued ++ [p0] }) := by
  obtain ⟨h1, h2, h3⟩ := h
  obtain ⟨t1, t2, t3⟩ := transformNode_traces env p0
    { s with m_queue := rest, dequeued := s.dequeued ++ [p0] }
  have hd := transformNode_dequeued env p0
    { s with m_queue := rest, dequeued := s.dequeued ++ [p0] }
  simp only [] at t1 t2 t3 hd
  unfold tracesFollowQueue
  rw [hd]
  refine ⟨?_, ?_, ?_⟩
  · rcases t1 with t | t
    · rw [t]; exact h1.trans (List.sublist_append_left _ _)
    · rw [t, List.map_append]
      exact List.Sublist.append h1 (List.Sublist.refl _)
  · rcases t2 with t | ⟨n1, t⟩
    · rw [t]; exact h2.trans (List.sublist_append_left _ _)
    · rw [t, List.map_append]
      exact List.Sublist.append h2 (List.Sublist.refl _)
  · rcases t3 with t | t
    · rw [t]; exact h3.trans (List.sublist_append_left _ _)
    · rw [t]
      exact List.Sublist.append h3 (List.Sublist.refl _)

theorem afterLoop_tracesFollowQueue (env : Env) (ls : LiquidSystem)
    (mb : List (v3s16 × Nat)) : tracesFollowQueue (afterLoop env ls mb) := by
  have h := runLoop_invariant env ls.m_queue.length (to_u32 env.liquid_loop_max)
    tracesFollowQueue
    (fun s p0 rest hs _ => transformNode_tracesFollowQueue env s p0 rest hs)
    ls.m_queue.length 0 (loopInit ls mb)
    (by unfold tracesFollowQueue loopInit; simp)
  unfold afterLoop
  exact h

theorem afterLoop_dequeued_sublist (env : Env) (ls : LiquidSystem)
    (mb : List (v3s16 × Nat)) : (afterLoop env ls mb).dequeued.Sublist ls.m_queue := by
  have h := (runLoop_dequeued env ls.m_queue.length (to_u32 env.liquid_loop_max)
    ls.m_queue.length 0 (loopInit ls mb) ls.m_queue [] (by simp [loopInit]) (by omega)
    (le_refl _)).1
  unfold afterLoop
  simp only []
  rw [h]
  simp only [loopInit, List.nil_append]
  exact List.take_sublist _ _

/-- C13: with a duplicate-free entry queue, one invocation takes every coordinate from the
queue at most once; the batch of change records holds at most one record for a coordinate,
the flood hook is asked at most once for a coordinate, and at most one falling check is
dispatched for a coordinate; and every such record, call and check is for a coordinate taken
from the queue in this invocation. -/
theorem at_most_once (env : Env) (curr_time : Nat) (ls : LiquidSystem)
    (mb : List (v3s16 × Nat)) (hnodup : ls.m_queue.Nodup) :
    (ls.run env curr_time mb).dequeued.Nodup ∧
      ((ls.run env curr_time mb).changed_nodes.map (fun e => e.1)).Nodup ∧
      ((ls.run env curr_time mb).flood_calls.map (fun e => e.1)).Nodup ∧
      (ls.run env curr_time mb).falling_calls.Nodup ∧
      ((ls.run env curr_time mb).changed_nodes.map (fun e => e.1)).Sublist
        (ls.run env curr_time mb).dequeued ∧
      ((ls.run env curr_time mb).flood_calls.map (fun e => e.1)).Sublist
        (ls.run env curr_time mb).dequeued ∧
      (ls.run env curr_time mb).falling_calls.Sublist (ls.run env curr_time mb).dequeued := by
  obtain ⟨h1, _, _, h4, h5, _, _, _⟩ := run_outputs env curr_time ls mb
  obtain ⟨t1, t2, t3⟩ := afterLoop_tracesFollowQueue env ls mb
  have hd : (afterLoop env ls mb).dequeued.Nodup :=
    List.Nodup.sublist (afterLoop_dequeued_sublist env ls mb) hnodup
  rw [h1, h4, h5, run_dequeued_eq]
  exact ⟨hd, List.Nodup.sublist t1 hd, List.Nodup.sublist t2 hd, List.Nodup.sublist t3 hd,
    t1, t2, t3⟩

/-- C13 on the second invocation of `test_liquid.cpp`, which takes five coordinates from
the queue and changes each of them. -/
theorem at_most_once_witness :
    ((systemOf [⟨0, 10, 0⟩] testMap).run testEnv 0 []).sys.m_queue.Nodup ∧
      ((((systemOf [⟨0, 10, 0⟩] testMap).run testEnv 0 []).sys.run testEnv 0
        []).changed_nodes.map (fun e => e.1)).Nodup :=
  ⟨by decide,
    (at_most_once testEnv 0 ((systemOf [⟨0, 10, 0⟩] testMap).run testEnv 0 []).sys []
      (by decide)).2.1⟩

/-! ## The purge (lines 429-472) -/

theorem dumpLoop_drop (n : Nat) : ∀ (q : List v3s16) (e : Nat), n ≤ q.length →
    dumpLoop n q e = (q.drop n, e) := by
  induction n with
  | zero => intro q e _; rfl
  | succ k ih =>
    intro q e h
    cases q with
    | nil => simp at h
    | cons a q1 =>
      simp only [List.length_cons] at h
      rw [dumpLoop]
      simp only [pop_front, Bool.false_eq_true, if_false, List.drop_succ_cons]
      exact ih q1 e (by omega)

/-- The system `run` leaves when the purge condition holds. -/
theorem run_purge (env : Env) (curr_time : Nat) (ls : LiquidSystem)
    (mb : List (v3s16 × Nat)) (hcurr : curr_time < 18446744073709551616)
    (h : purgeCondition env curr_time ls (afterLoop env ls mb).m_queue.length) :
    (ls.run env curr_time mb).sys.m_queue =
        (afterLoop env ls mb).m_queue.drop
          ((afterLoop env ls mb).m_queue.length - loopMax env) ∧
      (ls.run env curr_time mb).empty_pops = 0 ∧
      (ls.run env curr_time mb).dumped =
        (afterLoop env ls mb).m_queue.length - loopMax env ∧
      (ls.run env curr_time mb).sys.m_queue_size_timer_started = false ∧
      (ls.run env curr_time mb).sys.m_unprocessed_count =
        (ls.run env curr_time mb).sys.m_queue.length := by
  obtain ⟨hw, ⟨hgrow, hstart⟩, helapsed, hcap⟩ := h
  unfold purgeThreshold at helapsed
  unfold loopMax at hcap ⊢
  unfold streakStart at hstart helapsed
  have hd := dumpLoop_drop
    ((afterLoop env ls mb).m_queue.length - to_u32 env.liquid_loop_max)
    (afterLoop env ls mb).m_queue 0 (by omega)
  have hle : ¬ (afterLoop env ls mb).m_queue.length ≤ ls.m_unprocessed_count := by omega
  unfold LiquidSystem.run
  simp only []
  generalize (if (afterLoop env ls mb).m_queue.length ≤ ls.m_unprocessed_count then
      ls.m_inc_trending_up_start_time
    else if (!ls.m_queue_size_timer_started) = true then curr_time
    else ls.m_inc_trending_up_start_time) = st at hstart helapsed ⊢
  have hgt : ¬ st > curr_time := by omega
  have hel : (curr_time + 18446744073709551616 - st) % 18446744073709551616 >
      env.liquid_queue_purge_time % 65536 * 1000 % 65536 := by omega
  simp only [if_neg hw, if_neg hle, hgt, and_false, if_false, hel, hcap, and_self, if_true, hd]

/-- The system `run` leaves when the purge is enabled and its condition does not hold: the
post-loop queue is kept whole. -/
theorem run_no_purge (env : Env) (curr_time : Nat) (ls : LiquidSystem)
    (mb : List (v3s16 × Nat)) (hcurr : curr_time < 18446744073709551616)
    (h : ¬ purgeCondition env curr_time ls (afterLoop env ls mb).m_queue.length) :
    (ls.run env curr_time mb).sys.m_queue = (afterLoop env ls mb).m_queue ∧
      (ls.run env curr_time mb).dumped = 0 ∧
      (ls.run env curr_time mb).empty_pops = 0 := by
  unfold purgeCondition streakRunning purgeThreshold loopMax streakStart at h
  unfold LiquidSystem.run
  simp only []
  generalize (if (afterLoop env ls mb).m_queue.length ≤ ls.m_unprocessed_count then
      ls.m_inc_trending_up_start_time
    else if (!ls.m_queue_size_timer_started) = true then curr_time
    else ls.m_inc_trending_up_start_time) = st at h ⊢
  by_cases hw : env.liquid_queue_purge_time % 65536 = 0
  · rw [if_pos hw]
    exact ⟨rfl, rfl, rfl⟩
  · rw [if_neg hw]
    by_cases hle : (afterLoop env ls mb).m_queue.length ≤ ls.m_unprocessed_count
    · simp only [if_pos hle, Bool.false_eq_true, false_and, if_false]
      exact ⟨trivial, trivial, trivial⟩
    · simp only [if_neg hle, true_and]
      by_cases hgt : st > curr_time
      · simp only [if_pos hgt, Bool.false_eq_true, false_and, if_false]
        exact ⟨trivial, trivial, trivial⟩
      · simp only [if_neg hgt, true_and]
        rw [if_neg]
        · exact ⟨rfl, rfl, rfl⟩
        · rintro ⟨hel, hcap⟩
          apply h
          refine ⟨hw, ⟨by omega, by omega⟩, ?_, hcap⟩
          omega

/-! ## C15: what the purge leaves -/

/-- C15: when the purge condition holds at the end of an invocation (the purge is enabled,
the growth-streak timer is running, the time since the start of the streak is above the
threshold and the post-loop queue is longer than the cap), the queue left is exactly the
newest `cap` entries of the post-loop queue in their order, its size is the cap, no pop
met an empty queue, the timer is cleared and the recorded unprocessed count is the cap. -/
theorem shedding_exact (env : Env) (curr_time : Nat) (ls : LiquidSystem)
    (mb : List (v3s16 × Nat)) (hcurr : curr_time < 18446744073709551616)
    (h : purgeCondition env curr_time ls (afterLoop env ls mb).m_queue.length) :
    (ls.run env curr_time mb).sys.m_queue =
        (afterLoop env ls mb).m_queue.drop
          ((afterLoop env ls mb).m_queue.length - loopMax env) ∧
      (ls.run env curr_time mb).sys.m_queue.Sublist (afterLoop env ls mb).m_queue ∧
      (ls.run env curr_time mb).sys.m_queue.length = loopMax env ∧
      (ls.run env curr_time mb).empty_pops = 0 ∧
      (ls.run env curr_time mb).sys.m_queue_size_timer_started = false ∧
      (ls.run env curr_time mb).sys.m_unprocessed_count = loopMax env := by
  obtain ⟨h1, h2, _, h4, h5⟩ := run_purge env curr_time ls mb hcurr h
  have hcap : loopMax env < (afterLoop env ls mb).m_queue.length := h.2.2.2
  have hlen : (ls.run env curr_time mb).sys.m_queue.length = loopMax env := by
    rw [h1, List.length_drop]
    omega
  refine ⟨h1, ?_, hlen, h2, h4, by rw [h5, hlen]⟩
  rw [h1]
  exact List.drop_sublist _ _

/-- C15 at a growing queue, 1000 ms into the streak with a threshold of 464 ms and a cap
of 1: of the three entries left by the loop the newest one is kept. -/
theorem shedding_exact_witness :
    purgeCondition (purgeEnv 66 1) 1000 growingSystem
        (afterLoop (purgeEnv 66 1) growingSystem []).m_queue.length ∧
      (afterLoop (purgeEnv 66 1) growingSystem []).m_queue =
        [⟨2, 0, 0⟩, ⟨3, 0, 0⟩, ⟨4, 0, 0⟩] ∧
      (growingSystem.run (purgeEnv 66 1) 1000 []).sys.m_queue = [⟨4, 0, 0⟩] :=
  ⟨by decide, by decide,
    (shedding_exact (purgeEnv 66 1) 1000 growingSystem [] (by decide) (by decide)).1⟩

/-! ## C14: the bound the purge gives -/

/-- C14 as stated fails.  Three plants under flowing water whose flooding is vetoed are
re-queued by every invocation that handles them, so with a cap of 1 the queue holds three
entries at the start and at the end of every invocation: the unprocessed count stays above
the cap.  With a purge window of 1 s and invocations 10 s apart, the queue grows in the
first invocation only, the growth streak is cleared by the second, nothing is ever shed and
every invocation ends with three entries. -/
theorem purge_bound_counterexample :
    (purgeEnv 1 1).liquid_queue_purge_time = 1 ∧ loopMax (purgeEnv 1 1) = 1 ∧
      (runMany (purgeEnv 1 1) [0, 10000, 20000, 30000]
        (systemOf [⟨0, 10, 0⟩, ⟨5, 10, 0⟩, ⟨10, 10, 0⟩] plantsMap) []).map
          (fun r => (r.sys.m_queue.length, r.dumped)) = [(3, 0), (3, 0), (3, 0), (3, 0)] := by
  decide

/-- C14 as amended: for an invocation with a non-zero purge window, if the queue is growing
(the growth-streak timer is running from an earlier invocation and the post-loop queue is
again longer than the size the invocation before recorded) and the streak began longer ago
than the purge window, the invocation ends with a queue size that does not exceed the
per-cycle cap. -/
theorem purge_bound_amended (env : Env) (curr_time : Nat) (ls : LiquidSystem)
    (mb : List (v3s16 × Nat)) (hcurr : curr_time < 18446744073709551616)
    (hw : env.liquid_queue_purge_time % 65536 ≠ 0)
    (hrun : ls.m_queue_size_timer_started = true)
    (hgrow : ls.m_unprocessed_count < (afterLoop env ls mb).m_queue.length)
    (hstart : ls.m_inc_trending_up_start_time ≤ curr_time)
    (helapsed : env.liquid_queue_purge_time % 65536 * 1000 <
      curr_time - ls.m_inc_trending_up_start_time) :
    (ls.run env curr_time mb).sys.m_queue.length ≤ loopMax env := by
  have hst : streakStart ls curr_time (afterLoop env ls mb).m_queue.length =
      ls.m_inc_trending_up_start_time := by
    unfold streakStart
    rw [if_neg (by omega), hrun]
    simp
  by_cases hcap : loopMax env < (afterLoop env ls mb).m_queue.length
  · have hp : purgeCondition env curr_time ls (afterLoop env ls mb).m_queue.length := by
      refine ⟨hw, ⟨hgrow, by rw [hst]; exact hstart⟩, ?_, hcap⟩
      rw [hst]
      unfold purgeThreshold
      have := Nat.mod_le (env.liquid_queue_purge_time % 65536 * 1000) 65536
      omega
    have h1 := (run_purge env curr_time ls mb hcurr hp).1
    rw [h1, List.length_drop]
    omega
  · have hp : ¬ purgeCondition env curr_time ls (afterLoop env ls mb).m_queue.length :=
      fun h => hcap h.2.2.2
    rw [(run_no_purge env curr_time ls mb hcurr hp).1]
    omega

/-- C14 as amended, at a growing queue 70 s into the streak with a window of 66 s and a cap
of 1: the invocation ends with one entry. -/
theorem purge_bound_amended_witness :
    growingSystem.m_queue_size_timer_started = true ∧
      (purgeEnv 66 1).liquid_queue_purge_time % 65536 * 1000 <
        70000 - growingSystem.m_inc_trending_up_start_time ∧
      (growingSystem.run (purgeEnv 66 1) 70000 []).sys.m_queue.length ≤
        loopMax (purgeEnv 66 1) :=
  ⟨by decide, by decide,
    purge_bound_amended (purgeEnv 66 1) 70000 growingSystem [] (by decide) (by decide)
      (by decide) (by decide) (by decide) (by decide)⟩

/-! ## C16: the time after which the purge sheds -/

/-- C16 fails on the code: with a purge window of 66 s the threshold computed in 16 bits is
`66000 mod 65536 = 464` ms, so an invocation only 1000 ms after the start of the growth
streak sheds two entries, long before the 66000 ms of the configured window. -/
theorem purge_timing_overflow :
    (purgeEnv 66 1).liquid_queue_purge_time = 66 ∧
      purgeThreshold (purgeEnv 66 1) = 464 ∧
      growingSystem.m_queue_size_timer_started = true ∧
      growingSystem.m_inc_trending_up_start_time = 0 ∧
      ¬ (66 * 1000 < 1000 - growingSystem.m_inc_trending_up_start_time) ∧
      (growingSystem.run (purgeEnv 66 1) 1000 []).dumped = 2 ∧
      (growingSystem.run (purgeEnv 66 1) 1000 []).sys.m_queue = [⟨4, 0, 0⟩] := by
  decide

/-! ## C17: the first steps of the scenario of `test_liquid.cpp` -/

/-- C17 as stated fails: the first invocation takes the one queued coordinate, the source,
and nothing else, so the cell at height 9 is still air when it ends; this holds for the
registry of the test and for a well-formed water family of viscosity 7 and range 7. -/
theorem scenario_counterexample :
    (((systemOf [⟨0, 10, 0⟩] testMap).run testEnv 0 []).dequeued = [⟨0, 10, 0⟩] ∧
      ((systemOf [⟨0, 10, 0⟩] testMap).run testEnv 0 []).sys.m_map ⟨0, 9, 0⟩ =
        ⟨CONTENT_AIR, 0, 0⟩ ∧
      (testEnv.nodedef CONTENT_AIR).liquid_type = LIQUID_NONE) ∧
    (((systemOf [⟨0, 10, 0⟩] (mapOf [(⟨0, 10, 0⟩, ⟨10, 0, 0⟩)])).run (waterEnv 7 7 true) 0
        []).dequeued = [⟨0, 10, 0⟩] ∧
      ((systemOf [⟨0, 10, 0⟩] (mapOf [(⟨0, 10, 0⟩, ⟨10, 0, 0⟩)])).run (waterEnv 7 7 true) 0
        []).sys.m_map ⟨0, 9, 0⟩ = ⟨CONTENT_AIR, 0, 0⟩) := by
  decide

/-- C17 as amended: in the world of `test_liquid.cpp` (a source scheduled at height 10, air
below it down to the solid floor, viscosity 7, range 7), the first invocation delivers
exactly one transformed notification, takes only the source from the queue, leaves it a
source with air at heights 9 and 8, and schedules its four horizontal neighbours and the
cell below it; the second invocation delivers exactly one more notification and leaves a
Flowing cell of level 7 at height 9, with height 8 still air and height 10 still the
source.  The same cells result with a well-formed water family of viscosity 7 and range 7
in place of the registry of the test. -/
theorem scenario_amended :
    ((systemOf [⟨0, 10, 0⟩] testMap).run testEnv 0 []).transformed_calls.length = 1 ∧
      ((systemOf [⟨0, 10, 0⟩] testMap).run testEnv 0 []).dequeued = [⟨0, 10, 0⟩] ∧
      ((systemOf [⟨0, 10, 0⟩] testMap).run testEnv 0 []).sys.m_map ⟨0, 10, 0⟩ =
        ⟨0, 0, 0⟩ ∧
      ((systemOf [⟨0, 10, 0⟩] testMap).run testEnv 0 []).sys.m_map ⟨0, 9, 0⟩ =
        ⟨CONTENT_AIR, 0, 0⟩ ∧
      ((systemOf [⟨0, 10, 0⟩] testMap).run testEnv 0 []).sys.m_map ⟨0, 8, 0⟩ =
        ⟨CONTENT_AIR, 0, 0⟩ ∧
      ((systemOf [⟨0, 10, 0⟩] testMap).run testEnv 0 []).sys.m_queue =
        [⟨0, 10, 1⟩, ⟨1, 10, 0⟩, ⟨0, 10, -1⟩, ⟨-1, 10, 0⟩, ⟨0, 9, 0⟩] ∧
      (((systemOf [⟨0, 10, 0⟩] testMap).run testEnv 0 []).sys.run testEnv 0
        []).transformed_calls.length = 1 ∧
      (((systemOf [⟨0, 10, 0⟩] testMap).run testEnv 0 []).sys.run testEnv 0
        []).sys.m_map ⟨0, 10, 0⟩ = ⟨0, 0, 0⟩ ∧
      (((systemOf [⟨0, 10, 0⟩] testMap).run testEnv 0 []).sys.run testEnv 0
        []).sys.m_map ⟨0, 9, 0⟩ = ⟨1, 0, 15⟩ ∧
      (((systemOf [⟨0, 10, 0⟩] testMap).run testEnv 0 []).sys.run testEnv 0
        []).sys.m_map ⟨0, 8, 0⟩ = ⟨CONTENT_AIR, 0, 0⟩ ∧
      (testEnv.nodedef 0).liquid_type = LIQUID_SOURCE ∧
      (testEnv.nodedef 1).liquid_type = LIQUID_FLOWING ∧
      (15 : Nat) &&& LIQUID_LEVEL_MASK = LIQUID_LEVEL_MAX ∧
      ((systemOf [⟨0, 10, 0⟩] (mapOf [(⟨0, 10, 0⟩, ⟨10, 0, 0⟩)])).run (waterEnv 7 7 true) 0
        []).sys.m_map ⟨0, 10, 0⟩ = ⟨10, 0, 0⟩ ∧
      (((systemOf [⟨0, 10, 0⟩] (mapOf [(⟨0, 10, 0⟩, ⟨10, 0, 0⟩)])).run (waterEnv 7 7 true) 0
        []).sys.run (waterEnv 7 7 true) 0 []).sys.m_map ⟨0, 10, 0⟩ = ⟨10, 0, 0⟩ ∧
      (((systemOf [⟨0, 10, 0⟩] (mapOf [(⟨0, 10, 0⟩, ⟨10, 0, 0⟩)])).run (waterEnv 7 7 true) 0
        []).sys.run (waterEnv 7 7 true) 0 []).sys.m_map ⟨0, 9, 0⟩ = ⟨11, 0, 15⟩ ∧
      (((systemOf [⟨0, 10, 0⟩] (mapOf [(⟨0, 10, 0⟩, ⟨10, 0, 0⟩)])).run (waterEnv 7 7 true) 0
        []).sys.run (waterEnv 7 7 true) 0 []).sys.m_map ⟨0, 8, 0⟩ = ⟨CONTENT_AIR, 0, 0⟩ := by
  decide

/-! ## The scan, turn by turn -/

theorem scanUpTo_succ (env : Env) (m : v3s16 → MapNode) (p0 : v3s16) (lt : LiquidType)
    (k : Nat) (q : List v3s16) (n : Nat) :
    scanUpTo env m p0 lt k q (n + 1) =
      scanNeighbor env m p0 lt (scanUpTo env m p0 lt k q n) n := by
  unfold scanUpTo
  rw [List.range_succ, List.foldl_append]
  rfl

theorem scanUpTo_six (env : Env) (m : v3s16 → MapNode) (p0 : v3s16) (lt : LiquidType)
    (k : Nat) (q : List v3s16) :
    scanUpTo env m p0 lt k q 6 = scanNeighbors env m p0 lt k q := by
  unfold scanUpTo scanNeighbors
  rfl

/-- A neighbour that is not a liquid and floodable goes to the air bucket. -/
theorem scanNeighbor_air (env : Env) (m : v3s16 → MapNode) (p0 : v3s16)
    (lt : LiquidType) (sc : Scan) (i : Nat)
    (h1 : neighborLiquid env m p0 i = LIQUID_NONE)
    (h2 : (env.nodedef (neighborNode m p0 i).getContent).floodable = true) :
    (scanNeighbor env m p0 lt sc i).liquid_kind = sc.liquid_kind ∧
      placedIn sc (scanNeighbor env m p0 lt sc i) (neighborRecord m p0 i) Bucket.Air := by
  unfold neighborLiquid neighborNode at h1
  unfold neighborNode at h2
  unfold placedIn neighborRecord neighborNode
  unfold scanNeighbor
  simp only []
  rw [h1]
  simp only [h2, if_true]
  split_ifs <;> exact ⟨rfl, rfl, rfl, rfl, rfl⟩

/-- A neighbour that is neither a liquid nor floodable goes to the neutral bucket. -/
theorem scanNeighbor_solid (env : Env) (m : v3s16 → MapNode) (p0 : v3s16)
    (lt : LiquidType) (sc : Scan) (i : Nat)
    (h1 : neighborLiquid env m p0 i = LIQUID_NONE)
    (h2 : (env.nodedef (neighborNode m p0 i).getContent).floodable = false) :
    (scanNeighbor env m p0 lt sc i).liquid_kind = sc.liquid_kind ∧
      placedIn sc (scanNeighbor env m p0 lt sc i) (neighborRecord m p0 i)
        Bucket.Neutral := by
  unfold neighborLiquid neighborNode at h1
  unfold neighborNode at h2
  unfold placedIn neighborRecord neighborNode
  unfold scanNeighbor
  simp only []
  rw [h1]
  simp only [h2, Bool.false_eq_true, if_false]
  split_ifs <;> exact ⟨rfl, rfl, rfl, rfl, rfl⟩

/-- A Source neighbour: the family it leaves, and where it goes. -/
theorem scanNeighbor_source (env : Env) (m : v3s16 → MapNode) (p0 : v3s16)
    (lt : LiquidType) (sc : Scan) (i : Nat)
    (h1 : neighborLiquid env m p0 i = LIQUID_SOURCE) :
    (scanNeighbor env m p0 lt sc i).liquid_kind =
        (if sc.liquid_kind = CONTENT_AIR then neighborFamily env m p0 i
          else sc.liquid_kind) ∧
      (neighborFamily env m p0 i ≠ (scanNeighbor env m p0 lt sc i).liquid_kind →
        placedIn sc (scanNeighbor env m p0 lt sc i) (neighborRecord m p0 i)
          Bucket.Neutral) ∧
      (neighborFamily env m p0 i = (scanNeighbor env m p0 lt sc i).liquid_kind →
        neighborType i ≠ NEIGHBOR_LOWER →
        placedIn sc (scanNeighbor env m p0 lt sc i) (neighborRecord m p0 i)
          Bucket.Source) ∧
      (neighborFamily env m p0 i = (scanNeighbor env m p0 lt sc i).liquid_kind →
        neighborType i = NEIGHBOR_LOWER →
        placedNowhere sc (scanNeighbor env m p0 lt sc i)) := by
  unfold neighborLiquid neighborNode at h1
  unfold placedIn placedNowhere neighborRecord neighborFamily neighborNode
  unfold scanNeighbor
  simp only []
  rw [h1]
  simp only []
  split_ifs <;> simp_all

/-- A Flowing neighbour: the family it leaves, and where it goes. -/
theorem scanNeighbor_flowing (env : Env) (m : v3s16 → MapNode) (p0 : v3s16)
    (lt : LiquidType) (sc : Scan) (i : Nat)
    (h1 : neighborLiquid env m p0 i = LIQUID_FLOWING) :
    (scanNeighbor env m p0 lt sc i).liquid_kind =
        (if ¬ fallsBeside env m p0 i ∧ sc.liquid_kind = CONTENT_AIR then
          neighborFamily env m p0 i
        else sc.liquid_kind) ∧
      (neighborFamily env m p0 i ≠ (scanNeighbor env m p0 lt sc i).liquid_kind →
        placedIn sc (scanNeighbor env m p0 lt sc i) (neighborRecord m p0 i)
          Bucket.Neutral) ∧
      (neighborFamily env m p0 i = (scanNeighbor env m p0 lt sc i).liquid_kind →
        placedIn sc (scanNeighbor env m p0 lt sc i) (neighborRecord m p0 i)
          Bucket.Flow) := by
  have h1' := h1
  unfold neighborLiquid neighborNode at h1
  unfold fallsBeside placedIn neighborRecord neighborFamily neighborNode
  unfold neighborNode at h1'
  unfold scanNeighbor
  simp only []
  rw [h1]
  simp only [h1', true_and]
  split_ifs <;> simp_all

/-- One turn of the scan puts the neighbour it looks at into one bucket, or, for a Source
below that has the family the turn leaves, into none. -/
theorem scanNeighbor_placed (env : Env) (m : v3s16 → MapNode) (p0 : v3s16)
    (lt : LiquidType) (sc : Scan) (i : Nat) :
    ((neighborLiquid env m p0 i = LIQUID_SOURCE ∧
        neighborFamily env m p0 i = (scanNeighbor env m p0 lt sc i).liquid_kind ∧
        neighborType i = NEIGHBOR_LOWER) →
      placedNowhere sc (scanNeighbor env m p0 lt sc i)) ∧
    (¬ (neighborLiquid env m p0 i = LIQUID_SOURCE ∧
        neighborFamily env m p0 i = (scanNeighbor env m p0 lt sc i).liquid_kind ∧
        neighborType i = NEIGHBOR_LOWER) →
      ∃ b, placedIn sc (scanNeighbor env m p0 lt sc i) (neighborRecord m p0 i) b) := by
  cases hl : neighborLiquid env m p0 i with
  | LIQUID_NONE =>
    refine ⟨fun h => absurd h.1 (by simp), fun _ => ?_⟩
    cases hf : (env.nodedef (neighborNode m p0 i).getContent).floodable with
    | true => exact ⟨Bucket.Air, (scanNeighbor_air env m p0 lt sc i hl hf).2⟩
    | false => exact ⟨Bucket.Neutral, (scanNeighbor_solid env m p0 lt sc i hl hf).2⟩
  | LIQUID_FLOWING =>
    refine ⟨fun h => absurd h.1 (by simp), fun _ => ?_⟩
    obtain ⟨_, hn, hf⟩ := scanNeighbor_flowing env m p0 lt sc i hl
    by_cases hfam : neighborFamily env m p0 i = (scanNeighbor env m p0 lt sc i).liquid_kind
    · exact ⟨Bucket.Flow, hf hfam⟩
    · exact ⟨Bucket.Neutral, hn hfam⟩
  | LIQUID_SOURCE =>
    obtain ⟨_, hn, hs, hnone⟩ := scanNeighbor_source env m p0 lt sc i hl
    refine ⟨fun h => hnone h.2.1 h.2.2, fun hex => ?_⟩
    by_cases hfam : neighborFamily env m p0 i = (scanNeighbor env m p0 lt sc i).liquid_kind
    · by_cases hlow : neighborType i = NEIGHBOR_LOWER
      · exact absurd ⟨rfl, hfam, hlow⟩ hex
      · exact ⟨Bucket.Source, hs hfam hlow⟩
    · exact ⟨Bucket.Neutral, hn hfam⟩

/-- A record is appended to one bucket at most. -/
theorem placedIn_unique (before after : Scan) (r : NodeNeighbor) (b c : Bucket)
    (hb : placedIn before after r b) (hc : placedIn before after r c) : b = c := by
  cases b <;> cases c <;> first | rfl | (exfalso; unfold placedIn at hb hc; simp_all)

theorem placedIn_total (before after : Scan) (r : NodeNeighbor) (b : Bucket)
    (h : placedIn before after r b) :
    bucketTotal after = bucketTotal before + 1 ∧
      after.airs.length ≤ before.airs.length + 1 ∧
      after.neutrals.length ≤ before.neutrals.length + 1 ∧
      after.sources.length ≤ before.sources.length + 1 ∧
      after.flows.length ≤ before.flows.length + 1 ∧
      before.airs.length ≤ after.airs.length ∧
      before.neutrals.length ≤ after.neutrals.length ∧
      before.sources.length ≤ after.sources.length ∧
      before.flows.length ≤ after.flows.length := by
  unfold bucketTotal
  cases b
  all_goals
    unfold placedIn at h
    obtain ⟨h1, h2, h3, h4⟩ := h
    rw [h1, h2, h3, h4]
    simp only [List.length_append, List.length_singleton]
    omega

theorem placedNowhere_total (before after : Scan) (h : placedNowhere before after) :
    bucketTotal after = bucketTotal before := by
  unfold bucketTotal
  obtain ⟨h1, h2, h3, h4⟩ := h
  rw [h1, h2, h3, h4]

/-- After `n` turns that did not look below, the buckets hold `n` entries together. -/
theorem scanUpTo_total (env : Env) (m : v3s16 → MapNode) (p0 : v3s16) (lt : LiquidType)
    (k : Nat) (q : List v3s16) (n : Nat) (hn : n ≤ 5) :
    bucketTotal (scanUpTo env m p0 lt k q n) = n := by
  induction n with
  | zero => rfl
  | succ j ih =>
    rw [scanUpTo_succ]
    have hnt : neighborType j ≠ NEIGHBOR_LOWER := by
      unfold neighborType
      split
      · simp
      · omega
      · simp
    obtain ⟨b, hb⟩ := (scanNeighbor_placed env m p0 lt
      (scanUpTo env m p0 lt k q j) j).2 (fun h => hnt h.2.2)
    rw [(placedIn_total _ _ _ b hb).1, ih (by omega)]

/-! ## C20: the buckets part the neighbours -/

/-- C20: for any voxel and neighbourhood, the turn of the scan for direction `i` appends
the neighbour's record to exactly one of the four buckets and leaves the other three alone,
except for a Source directly below whose paired flowing id is the working family, which is
put into none; so the four buckets hold 6 or 5 entries together, none holds more than six,
every entry of the source bucket is an upper or same-level neighbour, and with a counted
source the test on the first one in step 2 never fails. -/
theorem bucket_partition (env : Env) (m : v3s16 → MapNode) (p0 : v3s16) (lt : LiquidType)
    (k : Nat) (q : List v3s16) :
    (∀ i, i < 6 →
      ((isSourceOf env m p0 (scanNeighbors env m p0 lt k q).liquid_kind i ∧
          neighborType i = NEIGHBOR_LOWER) →
        placedNowhere (scanUpTo env m p0 lt k q i) (scanUpTo env m p0 lt k q (i + 1))) ∧
      (¬ (isSourceOf env m p0 (scanNeighbors env m p0 lt k q).liquid_kind i ∧
          neighborType i = NEIGHBOR_LOWER) →
        ∃! b, placedIn (scanUpTo env m p0 lt k q i) (scanUpTo env m p0 lt k q (i + 1))
          (neighborRecord m p0 i) b)) ∧
    (bucketTotal (scanNeighbors env m p0 lt k q) = 6 ∨
      bucketTotal (scanNeighbors env m p0 lt k q) = 5) ∧
    (scanNeighbors env m p0 lt k q).airs.length ≤ 6 ∧
    (scanNeighbors env m p0 lt k q).neutrals.length ≤ 6 ∧
    (scanNeighbors env m p0 lt k q).sources.length ≤ 6 ∧
    (scanNeighbors env m p0 lt k q).flows.length ≤ 6 ∧
    (∀ x ∈ (scanNeighbors env m p0 lt k q).sources,
      x.t = NEIGHBOR_UPPER ∨ x.t = NEIGHBOR_SAME_LEVEL) ∧
    (1 ≤ (scanNeighbors env m p0 lt k q).sources.length →
      step2Applies (scanNeighbors env m p0 lt k q)) := by
  have hlow : ∀ i, i < 6 → neighborType i = NEIGHBOR_LOWER → i = 5 := by
    intro i hi h
    interval_cases i <;> first | rfl | (exact absurd h (by simp [neighborType]))
  have hex : ∀ i, i < 6 →
      ((isSourceOf env m p0 (scanNeighbors env m p0 lt k q).liquid_kind i ∧
          neighborType i = NEIGHBOR_LOWER) ↔
        (neighborLiquid env m p0 i = LIQUID_SOURCE ∧
          neighborFamily env m p0 i =
            (scanNeighbor env m p0 lt (scanUpTo env m p0 lt k q i) i).liquid_kind ∧
          neighborType i = NEIGHBOR_LOWER)) := by
    intro i hi
    constructor
    · rintro ⟨⟨h1, h2⟩, h3⟩
      have h5 := hlow i hi h3
      subst h5
      rw [← scanUpTo_succ, scanUpTo_six]
      exact ⟨h1, h2, h3⟩
    · rintro ⟨h1, h2, h3⟩
      have h5 := hlow i hi h3
      subst h5
      rw [← scanUpTo_succ, scanUpTo_six] at h2
      exact ⟨⟨h1, h2⟩, h3⟩
  have htotal : bucketTotal (scanNeighbors env m p0 lt k q) = 6 ∨
      bucketTotal (scanNeighbors env m p0 lt k q) = 5 := by
    rw [← scanUpTo_six, scanUpTo_succ]
    have h5 := scanUpTo_total env m p0 lt k q 5 (le_refl _)
    obtain ⟨hno, hyes⟩ := scanNeighbor_placed env m p0 lt (scanUpTo env m p0 lt k q 5) 5
    by_cases hc : neighborLiquid env m p0 5 = LIQUID_SOURCE ∧
        neighborFamily env m p0 5 =
          (scanNeighbor env m p0 lt (scanUpTo env m p0 lt k q 5) 5).liquid_kind ∧
        neighborType 5 = NEIGHBOR_LOWER
    · right
      rw [placedNowhere_total _ _ (hno hc), h5]
    · left
      obtain ⟨b, hb⟩ := hyes hc
      rw [(placedIn_total _ _ _ b hb).1, h5]
  have hle : (scanNeighbors env m p0 lt k q).airs.length ≤ 6 ∧
      (scanNeighbors env m p0 lt k q).neutrals.length ≤ 6 ∧
      (scanNeighbors env m p0 lt k q).sources.length ≤ 6 ∧
      (scanNeighbors env m p0 lt k q).flows.length ≤ 6 := by
    unfold bucketTotal at htotal
    omega
  refine ⟨?_, htotal, hle.1, hle.2.1, hle.2.2.1, hle.2.2.2, ?_,
    scanNeighbors_step2 env m p0 lt k q⟩
  · intro i hi
    obtain ⟨hno, hyes⟩ := scanNeighbor_placed env m p0 lt (scanUpTo env m p0 lt k q i) i
    rw [scanUpTo_succ]
    constructor
    · intro h
      exact hno ((hex i hi).mp h)
    · intro h
      obtain ⟨b, hb⟩ := hyes (fun hc => h ((hex i hi).mpr hc))
      exact ⟨b, hb, fun c hc => placedIn_unique _ _ _ c b hc hb⟩
  · intro x hx
    have := scanNeighbors_sources_not_lower env m p0 lt k q x hx
    cases ht : x.t with
    | NEIGHBOR_UPPER => exact Or.inl rfl
    | NEIGHBOR_SAME_LEVEL => exact Or.inr rfl
    | NEIGHBOR_LOWER => exact absurd ht this

/-- Once the scan holds a family, later turns keep it. -/
theorem scanUpTo_kind_stable (env : Env) (m : v3s16 → MapNode) (p0 : v3s16)
    (lt : LiquidType) (k : Nat) (q : List v3s16) (n : Nat)
    (h : (scanUpTo env m p0 lt k q n).liquid_kind ≠ CONTENT_AIR) (d : Nat) :
    (scanUpTo env m p0 lt k q (n + d)).liquid_kind =
      (scanUpTo env m p0 lt k q n).liquid_kind := by
  induction d with
  | zero => rfl
  | succ e ih =>
    rw [← Nat.add_assoc, scanUpTo_succ,
      scanNeighbor_kind_stable env m p0 lt _ _ (by rw [ih]; exact h), ih]

/-! ## C19: a same-level neighbour that flows down -/

/-- A neighbour that cannot give the family leaves family and source bucket as they are,
and is put into the flow bucket only if it is a same-level neighbour flowing down. -/
theorem scanNeighbor_not_resolving (env : Env) (m : v3s16 → MapNode) (p0 : v3s16)
    (lt : LiquidType) (sc : Scan) (i : Nat) (h : ¬ resolvesFamily env m p0 i) :
    (scanNeighbor env m p0 lt sc i).liquid_kind = sc.liquid_kind ∧
      (scanNeighbor env m p0 lt sc i).sources = sc.sources ∧
      ((scanNeighbor env m p0 lt sc i).flows = sc.flows ∨
        ((scanNeighbor env m p0 lt sc i).flows = sc.flows ++ [neighborRecord m p0 i] ∧
          fallsBeside env m p0 i)) := by
  unfold resolvesFamily at h
  cases hl : neighborLiquid env m p0 i with
  | LIQUID_NONE =>
    cases hf : (env.nodedef (neighborNode m p0 i).getContent).floodable with
    | true =>
      obtain ⟨hk, hp⟩ := scanNeighbor_air env m p0 lt sc i hl hf
      exact ⟨hk, hp.2.2.1, Or.inl hp.2.2.2⟩
    | false =>
      obtain ⟨hk, hp⟩ := scanNeighbor_solid env m p0 lt sc i hl hf
      exact ⟨hk, hp.2.2.1, Or.inl hp.2.2.2⟩
  | LIQUID_SOURCE => exact absurd (Or.inl hl) h
  | LIQUID_FLOWING =>
    have hfb : fallsBeside env m p0 i := by
      by_contra hc
      exact h (Or.inr ⟨hl, hc⟩)
    obtain ⟨hk, hn, hfl⟩ := scanNeighbor_flowing env m p0 lt sc i hl
    rw [if_neg (fun hc => hc.1 hfb)] at hk
    refine ⟨hk, ?_, ?_⟩
    · by_cases hfam : neighborFamily env m p0 i = (scanNeighbor env m p0 lt sc i).liquid_kind
      · exact (hfl hfam).2.2.1
      · exact (hn hfam).2.2.1
    · by_cases hfam : neighborFamily env m p0 i = (scanNeighbor env m p0 lt sc i).liquid_kind
      · exact Or.inr ⟨(hfl hfam).2.2.2, hfb⟩
      · exact Or.inl (hn hfam).2.2.2

/-- A neighbour that can give the family gives it to a voxel that has none yet. -/
theorem scanNeighbor_resolving (env : Env) (m : v3s16 → MapNode) (p0 : v3s16)
    (lt : LiquidType) (sc : Scan) (i : Nat) (h : resolvesFamily env m p0 i)
    (hk : sc.liquid_kind = CONTENT_AIR) :
    (scanNeighbor env m p0 lt sc i).liquid_kind = neighborFamily env m p0 i := by
  rcases h with h | ⟨h, hnf⟩
  · rw [(scanNeighbor_source env m p0 lt sc i h).1, if_pos hk]
  · rw [(scanNeighbor_flowing env m p0 lt sc i h).1, if_pos ⟨hnf, hk⟩]

/-- While no neighbour that can give the family has been looked at, a voxel that is not a
liquid has no family, no counted source, and only same-level neighbours flowing down in its
flow bucket. -/
theorem scanUpTo_unresolved (env : Env) (m : v3s16 → MapNode) (p0 : v3s16)
    (lt : LiquidType) (q : List v3s16) (n : Nat)
    (h : ∀ j, j < n → ¬ resolvesFamily env m p0 j) :
    (scanUpTo env m p0 lt CONTENT_AIR q n).liquid_kind = CONTENT_AIR ∧
      (scanUpTo env m p0 lt CONTENT_AIR q n).sources = [] ∧
      ∀ f ∈ (scanUpTo env m p0 lt CONTENT_AIR q n).flows,
        f.t = NEIGHBOR_SAME_LEVEL ∧
          f.n.param2 &&& LIQUID_FLOW_DOWN_MASK = LIQUID_FLOW_DOWN_MASK := by
  induction n with
  | zero =>
    refine ⟨rfl, rfl, ?_⟩
    intro f hf
    simp [scanUpTo, scanInit] at hf
  | succ j ih =>
    obtain ⟨ih1, ih2, ih3⟩ := ih (fun i hi => h i (by omega))
    obtain ⟨s1, s2, s3⟩ := scanNeighbor_not_resolving env m p0 lt
      (scanUpTo env m p0 lt CONTENT_AIR q j) j (h j (by omega))
    rw [scanUpTo_succ]
    refine ⟨by rw [s1, ih1], by rw [s2, ih2], ?_⟩
    intro f hf
    rcases s3 with s3 | ⟨s3, hfb⟩
    · rw [s3] at hf; exact ih3 f hf
    · rw [s3] at hf
      rcases List.mem_append.mp hf with hf | hf
      · exact ih3 f hf
      · rw [List.mem_singleton.mp hf]
        exact ⟨hfb.2.1, hfb.2.2⟩

/-- Same-level neighbours flowing down give no inflow. -/
theorem foldl_inflowStep_falling (l : List NodeNeighbor) (acc : Int)
    (h : ∀ f ∈ l, f.t = NEIGHBOR_SAME_LEVEL ∧
      f.n.param2 &&& LIQUID_FLOW_DOWN_MASK = LIQUID_FLOW_DOWN_MASK) :
    l.foldl inflowStep acc = acc := by
  induction l generalizing acc with
  | nil => rfl
  | cons a l ih =>
    rw [List.foldl_cons]
    have ha := h a (List.mem_cons_self _ _)
    have hstep : inflowStep acc a = acc := by
      unfold inflowStep
      simp only [ha.1, ha.2, ne_eq, not_true_eq_false, false_and, if_false]
    rw [hstep]
    exact ih acc (fun f hf => h f (List.mem_cons_of_mem _ hf))

/-- A voxel that is not a liquid and has no neighbour that can give it a family is left as
it is by its turn. -/
theorem transformNode_no_family (env : Env) (p0 : v3s16) (s : LoopState)
    (hnone : (env.nodedef (s.m_map p0).getContent).liquid_type = LIQUID_NONE)
    (hflood : (env.nodedef (s.m_map p0).getContent).floodable = true)
    (h : ∀ i, i < 6 → ¬ resolvesFamily env s.m_map p0 i) :
    transformNode env p0 s = s := by
  have hinfo := collectNode_none env (s.m_map p0) hnone hflood
  obtain ⟨u1, u2, u3⟩ := scanUpTo_unresolved env s.m_map p0 LIQUID_NONE s.m_queue 6 h
  rw [scanUpTo_six] at u1 u2 u3
  have hq := scanNeighbors_queue_none env s.m_map p0 CONTENT_AIR s.m_queue
  have hp : (collectNode env (s.m_map p0)).proceed = true := by rw [hinfo]
  have hsc : scanNeighbors env s.m_map p0 (collectNode env (s.m_map p0)).liquid_type
      (collectNode env (s.m_map p0)).liquid_kind s.m_queue =
      scanNeighbors env s.m_map p0 LIQUID_NONE CONTENT_AIR s.m_queue := by rw [hinfo]
  have h1 : ¬ step1Applies env (collectNode env (s.m_map p0))
      (scanNeighbors env s.m_map p0 LIQUID_NONE CONTENT_AIR s.m_queue) := by
    unfold step1Applies
    rw [u2, hinfo]
    simp
  have h2 : ¬ step2Applies (scanNeighbors env s.m_map p0 LIQUID_NONE CONTENT_AIR s.m_queue) := by
    unfold step2Applies
    rw [u2]
    simp
  have h3 : ¬ step3Applies (collectNode env (s.m_map p0))
      (scanNeighbors env s.m_map p0 LIQUID_NONE CONTENT_AIR s.m_queue) := by
    unfold step3Applies
    rw [hinfo]
    simp
  have hmax : maxInflow (scanNeighbors env s.m_map p0 LIQUID_NONE CONTENT_AIR s.m_queue).flows =
      -1 := by
    unfold maxInflow
    exact foldl_inflowStep_falling _ _ u3
  have hd := decideNode_step4 env _ _ h1 h2 h3
  rw [hmax] at hd
  have hlev : (collectNode env (s.m_map p0)).liquid_level = -1 := by rw [hinfo]
  rw [hlev, viscosityLevel_direct _ _ _ (Or.inr rfl)] at hd
  have hr := liquidRange_le env
    (scanNeighbors env s.m_map p0 LIQUID_NONE CONTENT_AIR s.m_queue).liquid_kind
  rw [if_neg (by simp only [LIQUID_LEVEL_MAX]; omega)] at hd
  simp only [] at hd
  have hfn : (collectNode env (s.m_map p0)).floodable_node = (s.m_map p0).getContent := by
    rw [hinfo]
  have hu : unchanged env (s.m_map p0)
      (scanNeighbors env s.m_map p0 (collectNode env (s.m_map p0)).liquid_type
        (collectNode env (s.m_map p0)).liquid_kind s.m_queue)
      (decideNode env (collectNode env (s.m_map p0))
        (scanNeighbors env s.m_map p0 (collectNode env (s.m_map p0)).liquid_type
          (collectNode env (s.m_map p0)).liquid_kind s.m_queue)) = true := by
    rw [hsc, hd]
    unfold unchanged
    simp only [hfn, hnone]
    simp
  rw [transformNode_unchanged env p0 s hp hu, hsc, hd, hq]
  simp

/-- C18 as stated fails.  An air voxel with, in direction 1, a Source that names air as its
flowing form and, in direction 2, a water source: the first neighbour that is a Source is
the one in direction 1, but its paired flowing id is air, which the scan reads as no family
yet, so the family is taken from the water source in direction 2; that one lands in the
source bucket beside the first although their paired flowing ids differ, and with two
counted sources the voxel becomes a water source. -/
theorem family_resolution_counterexample :
    (twoFamilyEnv.nodedef
        (mapOf [(⟨0, 10, 1⟩, ⟨30, 0, 0⟩), (⟨1, 10, 0⟩, ⟨10, 0, 0⟩)]
          ⟨0, 10, 0⟩).getContent).liquid_type = LIQUID_NONE ∧
      (twoFamilyEnv.nodedef
        (mapOf [(⟨0, 10, 1⟩, ⟨30, 0, 0⟩), (⟨1, 10, 0⟩, ⟨10, 0, 0⟩)]
          ⟨0, 10, 0⟩).getContent).floodable = true ∧
      resolvesFamily twoFamilyEnv
        (mapOf [(⟨0, 10, 1⟩, ⟨30, 0, 0⟩), (⟨1, 10, 0⟩, ⟨10, 0, 0⟩)]) ⟨0, 10, 0⟩ 1 ∧
      ¬ resolvesFamily twoFamilyEnv
        (mapOf [(⟨0, 10, 1⟩, ⟨30, 0, 0⟩), (⟨1, 10, 0⟩, ⟨10, 0, 0⟩)]) ⟨0, 10, 0⟩ 0 ∧
      neighborFamily twoFamilyEnv
        (mapOf [(⟨0, 10, 1⟩, ⟨30, 0, 0⟩), (⟨1, 10, 0⟩, ⟨10, 0, 0⟩)]) ⟨0, 10, 0⟩ 1 =
        CONTENT_AIR ∧
      neighborFamily twoFamilyEnv
        (mapOf [(⟨0, 10, 1⟩, ⟨30, 0, 0⟩), (⟨1, 10, 0⟩, ⟨10, 0, 0⟩)]) ⟨0, 10, 0⟩ 2 = 11 ∧
      (scanNeighbors twoFamilyEnv
        (mapOf [(⟨0, 10, 1⟩, ⟨30, 0, 0⟩), (⟨1, 10, 0⟩, ⟨10, 0, 0⟩)]) ⟨0, 10, 0⟩
        LIQUID_NONE CONTENT_AIR []).liquid_kind = 11 ∧
      (scanNeighbors twoFamilyEnv
        (mapOf [(⟨0, 10, 1⟩, ⟨30, 0, 0⟩), (⟨1, 10, 0⟩, ⟨10, 0, 0⟩)]) ⟨0, 10, 0⟩
        LIQUID_NONE CONTENT_AIR []).liquid_kind ≠
        neighborFamily twoFamilyEnv
          (mapOf [(⟨0, 10, 1⟩, ⟨30, 0, 0⟩), (⟨1, 10, 0⟩, ⟨10, 0, 0⟩)]) ⟨0, 10, 0⟩ 1 ∧
      (scanNeighbors twoFamilyEnv
        (mapOf [(⟨0, 10, 1⟩, ⟨30, 0, 0⟩), (⟨1, 10, 0⟩, ⟨10, 0, 0⟩)]) ⟨0, 10, 0⟩
        LIQUID_NONE CONTENT_AIR []).sources =
        [⟨⟨30, 0, 0⟩, NEIGHBOR_SAME_LEVEL, ⟨0, 10, 1⟩⟩,
          ⟨⟨10, 0, 0⟩, NEIGHBOR_SAME_LEVEL, ⟨1, 10, 0⟩⟩] ∧
      ((systemOf [⟨0, 10, 0⟩]
        (mapOf [(⟨0, 10, 1⟩, ⟨30, 0, 0⟩), (⟨1, 10, 0⟩, ⟨10, 0, 0⟩)])).run twoFamilyEnv 0
        []).sys.m_map ⟨0, 10, 0⟩ = ⟨10, 0, 0⟩ := by
  decide

/-- C18 as amended: for a floodable voxel that is not a liquid, whatever its neighbourhood:
when the first neighbour, in the order up, (0,0,+1), (+1,0,0), (0,0,-1), (-1,0,0), down,
that is a Source or a Flowing node other than a same-level one with its flowing-down flag
set has a paired flowing id that is a content of its own, not air, the family the scan ends
with is that id; every liquid neighbour looked at after that one is put into the source or
the flow bucket only if its paired flowing id is that family and into the neutral bucket if
it is not; and if there is no such neighbour, the voxel's turn leaves everything as it
was. -/
theorem family_resolution (env : Env) (p0 : v3s16) (s : LoopState)
    (hnone : (env.nodedef (s.m_map p0).getContent).liquid_type = LIQUID_NONE)
    (hflood : (env.nodedef (s.m_map p0).getContent).floodable = true) :
    ((collectNode env (s.m_map p0)).liquid_type = LIQUID_NONE ∧
      (collectNode env (s.m_map p0)).liquid_kind = CONTENT_AIR ∧
      liquid_6dirs 0 = ⟨0, 1, 0⟩ ∧ liquid_6dirs 1 = ⟨0, 0, 1⟩ ∧ liquid_6dirs 2 = ⟨1, 0, 0⟩ ∧
      liquid_6dirs 3 = ⟨0, 0, -1⟩ ∧ liquid_6dirs 4 = ⟨-1, 0, 0⟩ ∧
      liquid_6dirs 5 = ⟨0, -1, 0⟩) ∧
    (∀ i, i < 6 → resolvesFamily env s.m_map p0 i →
      (∀ j, j < i → ¬ resolvesFamily env s.m_map p0 j) →
      neighborFamily env s.m_map p0 i ≠ CONTENT_AIR →
      (scanNeighbors env s.m_map p0 LIQUID_NONE CONTENT_AIR s.m_queue).liquid_kind =
          neighborFamily env s.m_map p0 i ∧
        ∀ j, i < j → j < 6 → neighborLiquid env s.m_map p0 j ≠ LIQUID_NONE →
          ((placedIn (scanUpTo env s.m_map p0 LIQUID_NONE CONTENT_AIR s.m_queue j)
                (scanUpTo env s.m_map p0 LIQUID_NONE CONTENT_AIR s.m_queue (j + 1))
                (neighborRecord s.m_map p0 j) Bucket.Source ∨
              placedIn (scanUpTo env s.m_map p0 LIQUID_NONE CONTENT_AIR s.m_queue j)
                (scanUpTo env s.m_map p0 LIQUID_NONE CONTENT_AIR s.m_queue (j + 1))
                (neighborRecord s.m_map p0 j) Bucket.Flow) →
            neighborFamily env s.m_map p0 j = neighborFamily env s.m_map p0 i) ∧
          (neighborFamily env s.m_map p0 j ≠ neighborFamily env s.m_map p0 i →
            placedIn (scanUpTo env s.m_map p0 LIQUID_NONE CONTENT_AIR s.m_queue j)
              (scanUpTo env s.m_map p0 LIQUID_NONE CONTENT_AIR s.m_queue (j + 1))
              (neighborRecord s.m_map p0 j) Bucket.Neutral)) ∧
    ((∀ i, i < 6 → ¬ resolvesFamily env s.m_map p0 i) → transformNode env p0 s = s) := by
  have hinfo := collectNode_none env (s.m_map p0) hnone hflood
  refine ⟨⟨by rw [hinfo], by rw [hinfo], rfl, rfl, rfl, rfl, rfl, rfl⟩, ?_,
    transformNode_no_family env p0 s hnone hflood⟩
  intro i hi hres hfirst hne
  have hbefore := (scanUpTo_unresolved env s.m_map p0 LIQUID_NONE s.m_queue i hfirst).1
  have hat : (scanUpTo env s.m_map p0 LIQUID_NONE CONTENT_AIR s.m_queue (i + 1)).liquid_kind =
      neighborFamily env s.m_map p0 i := by
    rw [scanUpTo_succ]
    exact scanNeighbor_resolving env s.m_map p0 _ _ i hres hbefore
  have hlater : ∀ d, (scanUpTo env s.m_map p0 LIQUID_NONE CONTENT_AIR s.m_queue
      (i + 1 + d)).liquid_kind = neighborFamily env s.m_map p0 i := by
    intro d
    rw [scanUpTo_kind_stable env s.m_map p0 _ _ _ (i + 1) (by rw [hat]; exact hne) d, hat]
  refine ⟨?_, ?_⟩
  · rw [← scanUpTo_six]
    have := hlater (6 - (i + 1))
    rw [show i + 1 + (6 - (i + 1)) = 6 by omega] at this
    exact this
  · intro j hij hj hliq
    have hkj : (scanUpTo env s.m_map p0 LIQUID_NONE CONTENT_AIR s.m_queue j).liquid_kind =
        neighborFamily env s.m_map p0 i := by
      have := hlater (j - (i + 1))
      rw [show i + 1 + (j - (i + 1)) = j by omega] at this
      exact this
    have hkj1 : (scanNeighbor env s.m_map p0 LIQUID_NONE
        (scanUpTo env s.m_map p0 LIQUID_NONE CONTENT_AIR s.m_queue j) j).liquid_kind =
        neighborFamily env s.m_map p0 i := by
      rw [← scanUpTo_succ]
      have := hlater (j + 1 - (i + 1))
      rw [show i + 1 + (j + 1 - (i + 1)) = j + 1 by omega] at this
      exact this
    have hneutral : neighborFamily env s.m_map p0 j ≠ neighborFamily env s.m_map p0 i →
        placedIn (scanUpTo env s.m_map p0 LIQUID_NONE CONTENT_AIR s.m_queue j)
          (scanUpTo env s.m_map p0 LIQUID_NONE CONTENT_AIR s.m_queue (j + 1))
          (neighborRecord s.m_map p0 j) Bucket.Neutral := by
      intro hdiff
      rw [scanUpTo_succ]
      cases hl : neighborLiquid env s.m_map p0 j with
      | LIQUID_NONE => exact absurd hl hliq
      | LIQUID_SOURCE =>
        exact (scanNeighbor_source env s.m_map p0 _ _ j hl).2.1 (by rw [hkj1]; exact hdiff)
      | LIQUID_FLOWING =>
        exact (scanNeighbor_flowing env s.m_map p0 _ _ j hl).2.1 (by rw [hkj1]; exact hdiff)
    refine ⟨?_, hneutral⟩
    intro hplaced
    by_contra hdiff
    have hn := hneutral hdiff
    rcases hplaced with hp | hp
    · exact absurd (placedIn_unique _ _ _ _ _ hp hn) (by decide)
    · exact absurd (placedIn_unique _ _ _ _ _ hp hn) (by decide)

/-- C18 as amended, at an air voxel with flowing-down water in direction 1 and plain flowing
water in direction 2: the second gives the family. -/
theorem family_resolution_witness :
    ((waterEnv 1 8 false).nodedef
        ((stateOf [] (mapOf [(⟨0, 10, 1⟩, ⟨11, 0, 13⟩),
          (⟨1, 10, 0⟩, ⟨11, 0, 5⟩)])).m_map ⟨0, 10, 0⟩).getContent).floodable = true ∧
      resolvesFamily (waterEnv 1 8 false)
        (stateOf [] (mapOf [(⟨0, 10, 1⟩, ⟨11, 0, 13⟩), (⟨1, 10, 0⟩, ⟨11, 0, 5⟩)])).m_map
        ⟨0, 10, 0⟩ 2 ∧
      (scanNeighbors (waterEnv 1 8 false)
        (stateOf [] (mapOf [(⟨0, 10, 1⟩, ⟨11, 0, 13⟩), (⟨1, 10, 0⟩, ⟨11, 0, 5⟩)])).m_map
        ⟨0, 10, 0⟩ LIQUID_NONE CONTENT_AIR
        (stateOf [] (mapOf [(⟨0, 10, 1⟩, ⟨11, 0, 13⟩),
          (⟨1, 10, 0⟩, ⟨11, 0, 5⟩)])).m_queue).liquid_kind =
        neighborFamily (waterEnv 1 8 false)
          (stateOf [] (mapOf [(⟨0, 10, 1⟩, ⟨11, 0, 13⟩), (⟨1, 10, 0⟩, ⟨11, 0, 5⟩)])).m_map
          ⟨0, 10, 0⟩ 2 :=
  ⟨by decide, by decide,
    ((family_resolution (waterEnv 1 8 false) ⟨0, 10, 0⟩
      (stateOf [] (mapOf [(⟨0, 10, 1⟩, ⟨11, 0, 13⟩), (⟨1, 10, 0⟩, ⟨11, 0, 5⟩)]))
      (by decide) (by decide)).2.1 2 (by decide) (by decide) (by decide) (by decide)).1⟩

/-! ## C21: the flowing-down flag -/

/-- A neighbour above or beside leaves the flowing-down flag as it is. -/
theorem scanNeighbor_flowing_down_keep (env : Env) (m : v3s16 → MapNode) (p0 : v3s16)
    (lt : LiquidType) (sc : Scan) (i : Nat) (h : neighborType i ≠ NEIGHBOR_LOWER) :
    (scanNeighbor env m p0 lt sc i).flowing_down = sc.flowing_down := by
  unfold scanNeighbor
  simp only []
  split <;> split_ifs <;> simp_all

/-- The first five turns of the scan leave the flowing-down flag false. -/
theorem scanUpTo_flowing_down (env : Env) (m : v3s16 → MapNode) (p0 : v3s16)
    (lt : LiquidType) (k : Nat) (q : List v3s16) (n : Nat) (hn : n ≤ 5) :
    (scanUpTo env m p0 lt k q n).flowing_down = false := by
  induction n with
  | zero => rfl
  | succ j ih =>
    rw [scanUpTo_succ, scanNeighbor_flowing_down_keep env m p0 lt _ j
      (by have : j < 5 := by omega
          interval_cases j <;> simp [neighborType])]
    exact ih (by omega)

/-- The flag after the turn of the lower neighbour, by what that neighbour is. -/
theorem scanNeighbor_flowing_down_lower (env : Env) (m : v3s16 → MapNode) (p0 : v3s16)
    (lt : LiquidType) (sc : Scan) (i : Nat) (h : neighborType i = NEIGHBOR_LOWER)
    (h0 : sc.flowing_down = false) :
    (scanNeighbor env m p0 lt sc i).flowing_down = true ↔
      (neighborLiquid env m p0 i = LIQUID_NONE ∧
          (env.nodedef (neighborNode m p0 i).getContent).floodable = true) ∨
        (neighborLiquid env m p0 i = LIQUID_NONE ∧
          (neighborNode m p0 i).getContent = CONTENT_IGNORE) ∨
        (neighborLiquid env m p0 i = LIQUID_FLOWING ∧
          neighborFamily env m p0 i = (scanNeighbor env m p0 lt sc i).liquid_kind) := by
  unfold neighborLiquid neighborFamily neighborNode
  unfold scanNeighbor
  simp only []
  split <;> split_ifs <;> simp_all

/-- C21: for every voxel that reaches the scan, whatever family it starts with: the first
five turns (the neighbour above and the four beside) leave the flowing-down flag false, and
after the sixth the flag is true exactly when the neighbour below is a floodable
non-liquid, or the unresolved sentinel, or a Flowing liquid whose paired flowing id is the
working family; so it is false when the neighbour below is a resolved solid that is not
floodable, a Source, or a Flowing liquid of another family. -/
theorem flowing_down_flag (env : Env) (m : v3s16 → MapNode) (p0 : v3s16)
    (lt : LiquidType) (k : Nat) (q : List v3s16) (hb : builtinEntries env) :
    (neighborType 5 = NEIGHBOR_LOWER ∧ liquid_6dirs 5 = ⟨0, -1, 0⟩ ∧
      ∀ i, i < 5 → neighborType i ≠ NEIGHBOR_LOWER) ∧
    (∀ n, n ≤ 5 → (scanUpTo env m p0 lt k q n).flowing_down = false) ∧
    ((scanNeighbors env m p0 lt k q).flowing_down = true ↔
      (neighborLiquid env m p0 5 = LIQUID_NONE ∧
          (env.nodedef (neighborNode m p0 5).getContent).floodable = true) ∨
        (neighborNode m p0 5).getContent = CONTENT_IGNORE ∨
        (neighborLiquid env m p0 5 = LIQUID_FLOWING ∧
          neighborFamily env m p0 5 = (scanNeighbors env m p0 lt k q).liquid_kind)) ∧
    (neighborLiquid env m p0 5 = LIQUID_NONE →
      (env.nodedef (neighborNode m p0 5).getContent).floodable = false →
      (neighborNode m p0 5).getContent ≠ CONTENT_IGNORE →
      (scanNeighbors env m p0 lt k q).flowing_down = false) ∧
    (neighborLiquid env m p0 5 = LIQUID_SOURCE →
      (scanNeighbors env m p0 lt k q).flowing_down = false) ∧
    (neighborLiquid env m p0 5 = LIQUID_FLOWING →
      neighborFamily env m p0 5 ≠ (scanNeighbors env m p0 lt k q).liquid_kind →
      (scanNeighbors env m p0 lt k q).flowing_down = false) := by
  have hkey := scanNeighbor_flowing_down_lower env m p0 lt (scanUpTo env m p0 lt k q 5) 5 rfl
    (scanUpTo_flowing_down env m p0 lt k q 5 (le_refl _))
  rw [← scanUpTo_succ, scanUpTo_six] at hkey
  have hign : (neighborNode m p0 5).getContent = CONTENT_IGNORE →
      neighborLiquid env m p0 5 = LIQUID_NONE := by
    intro h
    unfold neighborLiquid
    rw [h]
    exact hb.1
  have hiff : (scanNeighbors env m p0 lt k q).flowing_down = true ↔
      (neighborLiquid env m p0 5 = LIQUID_NONE ∧
          (env.nodedef (neighborNode m p0 5).getContent).floodable = true) ∨
        (neighborNode m p0 5).getContent = CONTENT_IGNORE ∨
        (neighborLiquid env m p0 5 = LIQUID_FLOWING ∧
          neighborFamily env m p0 5 = (scanNeighbors env m p0 lt k q).liquid_kind) := by
    rw [hkey]
    constructor
    · rintro (h | h | h)
      · exact Or.inl h
      · exact Or.inr (Or.inl h.2)
      · exact Or.inr (Or.inr h)
    · rintro (h | h | h)
      · exact Or.inl h
      · exact Or.inr (Or.inl ⟨hign h, h⟩)
      · exact Or.inr (Or.inr h)
  refine ⟨⟨rfl, rfl, ?_⟩, fun n hn => scanUpTo_flowing_down env m p0 lt k q n hn, hiff,
    ?_, ?_, ?_⟩
  · intro i hi
    interval_cases i <;> simp [neighborType]
  · intro h1 h2 h3
    rw [← Bool.not_eq_true, hiff]
    rintro (h | h | h)
    · rw [h2] at h
      exact absurd h.2 (by simp)
    · exact h3 h
    · rw [h1] at h
      exact absurd h.1 (by simp)
  · intro h1
    rw [← Bool.not_eq_true, hiff]
    rintro (h | h | h)
    · rw [h1] at h
      exact absurd h.1 (by simp)
    · rw [hign h] at h1
      exact absurd h1 (by simp)
    · rw [h1] at h
      exact absurd h.1 (by simp)
  · intro h1 h2
    rw [← Bool.not_eq_true, hiff]
    rintro (h | h | h)
    · rw [h1] at h
      exact absurd h.1 (by simp)
    · rw [hign h] at h1
      exact absurd h1 (by simp)
    · exact h2 h.2

/-- C21 at the air voxel under the source of `test_liquid.cpp`: the voxel below it is air,
so the flag is set. -/
theorem flowing_down_flag_witness :
    builtinEntries testEnv ∧
      (scanNeighbors testEnv testMap ⟨0, 9, 0⟩ LIQUID_NONE CONTENT_AIR []).flowing_down =
        true :=
  ⟨by decide,
    (flowing_down_flag testEnv testMap ⟨0, 9, 0⟩ LIQUID_NONE CONTENT_AIR []
      (by decide)).2.2.1.mpr (Or.inl (by decide))⟩

/-! ## C22: what a neighbour beside adds to the candidate level -/

/-- A flow neighbour beside with its flowing-down flag set, or at level 0, and a flow
neighbour below, leave the candidate level as it is. -/
theorem inflowStep_none (acc : Int) (f : NodeNeighbor) (ht : f.t ≠ NEIGHBOR_UPPER)
    (h : f.t = NEIGHBOR_SAME_LEVEL →
      f.n.param2 &&& LIQUID_FLOW_DOWN_MASK = LIQUID_FLOW_DOWN_MASK ∨
        f.n.param2 &&& LIQUID_LEVEL_MASK = 0) :
    inflowStep acc f = acc := by
  unfold inflowStep
  simp only []
  split
  · rename_i hu
    exact absurd hu ht
  · rfl
  · rename_i hs
    rcases h hs with h | h
    · rw [if_neg (fun hc => hc.1 h)]
    · rw [if_neg (fun hc => by have := hc.2.1; omega)]

theorem foldl_inflowStep_none (flows : List NodeNeighbor) (acc : Int)
    (hup : ∀ f ∈ flows, f.t ≠ NEIGHBOR_UPPER)
    (hlev : ∀ f ∈ flows, f.t = NEIGHBOR_SAME_LEVEL →
      f.n.param2 &&& LIQUID_FLOW_DOWN_MASK = LIQUID_FLOW_DOWN_MASK ∨
        f.n.param2 &&& LIQUID_LEVEL_MASK = 0) :
    flows.foldl inflowStep acc = acc := by
  induction flows generalizing acc with
  | nil => rfl
  | cons f fs ih =>
    rw [List.foldl_cons, inflowStep_none acc f (hup f (List.mem_cons_self _ _))
      (hlev f (List.mem_cons_self _ _))]
    exact ih acc (fun g hg => hup g (List.mem_cons_of_mem _ hg))
      (fun g hg => hlev g (List.mem_cons_of_mem _ hg))

/-- C22 as stated fails: an air voxel whose only liquid neighbour is flowing water of level
1 beside it, not flowing down, reaches the no-source step with no flow neighbour above and
its one flow neighbour beside at level 1; the candidate level is 0, not -1, and with the
full range the voxel becomes flowing water of level 0 (flagged flowing-down, air being
below it). -/
theorem same_level_inflow_counterexample :
    ¬ step1Applies (waterEnv 1 8 false)
        (collectNode (waterEnv 1 8 false) (mapOf [(⟨1, 10, 0⟩, ⟨11, 0, 1⟩)] ⟨0, 10, 0⟩))
        (scanNeighbors (waterEnv 1 8 false) (mapOf [(⟨1, 10, 0⟩, ⟨11, 0, 1⟩)]) ⟨0, 10, 0⟩
          LIQUID_NONE CONTENT_AIR []) ∧
      ¬ step2Applies
        (scanNeighbors (waterEnv 1 8 false) (mapOf [(⟨1, 10, 0⟩, ⟨11, 0, 1⟩)]) ⟨0, 10, 0⟩
          LIQUID_NONE CONTENT_AIR []) ∧
      ¬ step3Applies
        (collectNode (waterEnv 1 8 false) (mapOf [(⟨1, 10, 0⟩, ⟨11, 0, 1⟩)] ⟨0, 10, 0⟩))
        (scanNeighbors (waterEnv 1 8 false) (mapOf [(⟨1, 10, 0⟩, ⟨11, 0, 1⟩)]) ⟨0, 10, 0⟩
          LIQUID_NONE CONTENT_AIR []) ∧
      (scanNeighbors (waterEnv 1 8 false) (mapOf [(⟨1, 10, 0⟩, ⟨11, 0, 1⟩)]) ⟨0, 10, 0⟩
          LIQUID_NONE CONTENT_AIR []).flows =
        [⟨⟨11, 0, 1⟩, NEIGHBOR_SAME_LEVEL, ⟨1, 10, 0⟩⟩] ∧
      (1 : Nat) &&& LIQUID_LEVEL_MASK = 1 ∧
      (decideNode (waterEnv 1 8 false)
        (collectNode (waterEnv 1 8 false) (mapOf [(⟨1, 10, 0⟩, ⟨11, 0, 1⟩)] ⟨0, 10, 0⟩))
        (scanNeighbors (waterEnv 1 8 false) (mapOf [(⟨1, 10, 0⟩, ⟨11, 0, 1⟩)]) ⟨0, 10, 0⟩
          LIQUID_NONE CONTENT_AIR [])).max_node_level = 0 ∧
      ((systemOf [⟨0, 10, 0⟩] (mapOf [(⟨1, 10, 0⟩, ⟨11, 0, 1⟩)])).run (waterEnv 1 8 false) 0
        []).sys.m_map ⟨0, 10, 0⟩ = ⟨11, 0, 8⟩ ∧
      (8 : Nat) &&& LIQUID_LEVEL_MASK = 0 := by
  decide

/-- C22 as amended: a flow-bucket neighbour beside that is not flagged flowing-down adds
its level less one to the candidate level only if its level is positive (so one of level 1
adds 0), and one that is flagged, or at level 0, adds nothing; so for a voxel that reaches
the no-source step with no flow neighbour above and whose flow neighbours beside are each
flagged flowing-down or at level 0, the candidate level stays -1 and the content decided
is the floodable substitute. -/
theorem same_level_inflow_amended (env : Env) (info : NodeInfo) (sc : Scan)
    (h1 : ¬ step1Applies env info sc) (h2 : ¬ step2Applies sc)
    (h3 : ¬ step3Applies info sc)
    (hup : ∀ f ∈ sc.flows, f.t ≠ NEIGHBOR_UPPER)
    (hlev : ∀ f ∈ sc.flows, f.t = NEIGHBOR_SAME_LEVEL →
      f.n.param2 &&& LIQUID_FLOW_DOWN_MASK = LIQUID_FLOW_DOWN_MASK ∨
        f.n.param2 &&& LIQUID_LEVEL_MASK = 0) :
    (∀ (acc : Int) (f : NodeNeighbor), f.t = NEIGHBOR_SAME_LEVEL →
      (f.n.param2 &&& LIQUID_FLOW_DOWN_MASK ≠ LIQUID_FLOW_DOWN_MASK →
        0 < f.n.param2 &&& LIQUID_LEVEL_MASK →
        inflowStep acc f = max acc (((f.n.param2 &&& LIQUID_LEVEL_MASK : Nat) : Int) - 1)) ∧
      (f.n.param2 &&& LIQUID_FLOW_DOWN_MASK = LIQUID_FLOW_DOWN_MASK ∨
          f.n.param2 &&& LIQUID_LEVEL_MASK = 0 →
        inflowStep acc f = acc)) ∧
    (decideNode env info sc).max_node_level = -1 ∧
    (decideNode env info sc).new_node_content = info.floodable_node := by
  refine ⟨?_, ?_, ?_⟩
  · intro acc f ht
    refine ⟨?_, fun h => inflowStep_none acc f (by rw [ht]; decide) (fun _ => h)⟩
    intro hfd hpos
    unfold inflowStep
    simp only [ht]
    by_cases hc : ((f.n.param2 &&& LIQUID_LEVEL_MASK : Nat) : Int) - 1 > acc
    · rw [if_pos ⟨hfd, hpos, hc⟩, max_eq_right (le_of_lt hc)]
    · rw [if_neg (fun h => hc h.2.2), max_eq_left (not_lt.mp hc)]
  · rw [decideNode_step4 env info sc h1 h2 h3]
    exact foldl_inflowStep_none sc.flows (-1) hup hlev
  · rw [decideNode_step4 env info sc h1 h2 h3]
    simp only []
    have hm : maxInflow sc.flows = -1 := foldl_inflowStep_none sc.flows (-1) hup hlev
    have hr := liquidRange_le env sc.liquid_kind
    rw [hm, if_neg (by simp only [LIQUID_LEVEL_MAX]; omega)]

/-- C22 as amended, at an air voxel whose only liquid neighbour is flowing water of level 0
beside it: no inflow, the voxel is to stay air. -/
theorem same_level_inflow_amended_witness :
    (scanNeighbors (waterEnv 1 8 false) (mapOf [(⟨1, 10, 0⟩, ⟨11, 0, 0⟩)]) ⟨0, 10, 0⟩
        LIQUID_NONE CONTENT_AIR []).flows =
      [⟨⟨11, 0, 0⟩, NEIGHBOR_SAME_LEVEL, ⟨1, 10, 0⟩⟩] ∧
    (decideNode (waterEnv 1 8 false)
      (collectNode (waterEnv 1 8 false) (mapOf [(⟨1, 10, 0⟩, ⟨11, 0, 0⟩)] ⟨0, 10, 0⟩))
      (scanNeighbors (waterEnv 1 8 false) (mapOf [(⟨1, 10, 0⟩, ⟨11, 0, 0⟩)]) ⟨0, 10, 0⟩
        LIQUID_NONE CONTENT_AIR [])).max_node_level = -1 :=
  ⟨by decide,
    (same_level_inflow_amended (waterEnv 1 8 false)
      (collectNode (waterEnv 1 8 false) (mapOf [(⟨1, 10, 0⟩, ⟨11, 0, 0⟩)] ⟨0, 10, 0⟩))
      (scanNeighbors (waterEnv 1 8 false) (mapOf [(⟨1, 10, 0⟩, ⟨11, 0, 0⟩)]) ⟨0, 10, 0⟩
        LIQUID_NONE CONTENT_AIR [])
      (by decide) (by decide) (by decide) (by decide) (by decide)).2.1⟩

/-! ## One turn of the loop, case by case -/

/-- A turn that the change test drops: the scan's pushes stay, and the voxel is on the forced
re-queue list when the decision says so. -/
theorem transformNode_dropped (env : Env) (p0 : v3s16) (s : LoopState)
    (h : droppedByChangeTest env p0 s) :
    transformNode env p0 s =
      { s with
        m_queue := (turnScan env p0 s).m_queue
        must_reflow :=
          if (turnDecision env p0 s).push_reflow = true then s.must_reflow ++ [p0]
          else s.must_reflow } :=
  transformNode_unchanged env p0 s h.1 h.2

/-- A turn whose change is vetoed by the flood hook. -/
theorem transformNode_vetoed (env : Env) (p0 : v3s16) (s : LoopState)
    (h : passesChangeTest env p0 s)
    (h1 : (turnInfo env p0 s).floodable_node ≠ CONTENT_AIR)
    (h2 : env.node_on_flood p0 (s.m_map p0) (turnNode env p0 s) = true) :
    transformNode env p0 s =
      { s with
        m_queue := (turnScan env p0 s).m_queue
        must_reflow :=
          if (turnDecision env p0 s).push_reflow = true then s.must_reflow ++ [p0]
          else s.must_reflow
        check_for_falling :=
          if (turnScan env p0 s).floating_node_above = true ∧
              (turnDecision env p0 s).new_node_content = CONTENT_AIR then
            s.check_for_falling ++ [p0]
          else s.check_for_falling
        flood_calls := s.flood_calls ++ [(p0, s.m_map p0, turnNode env p0 s)] } := by
  rw [transformNode_changed env p0 s h.1 h.2]
  exact applyChange_veto env p0 _ _ _ _ _ h1 h2

/-- A turn whose change is committed. -/
theorem transformNode_committed (env : Env) (p0 : v3s16) (s : LoopState)
    (h : committed env p0 s) :
    transformNode env p0 s =
      commitNode env p0 (s.m_map p0) (turnNode env p0 s) (turnScan env p0 s)
        { s with
          m_queue := (turnScan env p0 s).m_queue
          must_reflow :=
            if (turnDecision env p0 s).push_reflow = true then s.must_reflow ++ [p0]
            else s.must_reflow
          check_for_falling :=
            if (turnScan env p0 s).floating_node_above = true ∧
                (turnDecision env p0 s).new_node_content = CONTENT_AIR then
              s.check_for_falling ++ [p0]
            else s.check_for_falling
          flood_calls :=
            if (turnInfo env p0 s).floodable_node ≠ CONTENT_AIR then
              s.flood_calls ++ [(p0, s.m_map p0, turnNode env p0 s)]
            else s.flood_calls } := by
  rw [transformNode_changed env p0 s h.1.1 h.1.2]
  by_cases h1 : (turnInfo env p0 s).floodable_node = CONTENT_AIR
  · have hif : (if (turnInfo env p0 s).floodable_node ≠ CONTENT_AIR then
          s.flood_calls ++ [(p0, s.m_map p0, turnNode env p0 s)]
        else s.flood_calls) = s.flood_calls := if_neg (fun hc => hc h1)
    rw [hif]
    exact applyChange_air env p0 _ _ _ _ _ h1
  · have hif : (if (turnInfo env p0 s).floodable_node ≠ CONTENT_AIR then
          s.flood_calls ++ [(p0, s.m_map p0, turnNode env p0 s)]
        else s.flood_calls) = s.flood_calls ++ [(p0, s.m_map p0, turnNode env p0 s)] :=
      if_pos h1
    rw [hif]
    rcases h.2 with h2 | h2
    · exact absurd h2 h1
    · exact applyChange_pass env p0 _ _ _ _ _ h1 h2

/-- The four ways a turn can go. -/
theorem turn_cases (env : Env) (p0 : v3s16) (s : LoopState) :
    (turnInfo env p0 s).proceed = false ∨ droppedByChangeTest env p0 s ∨
      (passesChangeTest env p0 s ∧ (turnInfo env p0 s).floodable_node ≠ CONTENT_AIR ∧
        env.node_on_flood p0 (s.m_map p0) (turnNode env p0 s) = true) ∨
      committed env p0 s := by
  unfold droppedByChangeTest committed passesChangeTest
  cases hp : (turnInfo env p0 s).proceed
  · exact Or.inl rfl
  · cases hu : unchanged env (s.m_map p0) (turnScan env p0 s) (turnDecision env p0 s)
    · by_cases h1 : (turnInfo env p0 s).floodable_node = CONTENT_AIR
      · exact Or.inr (Or.inr (Or.inr ⟨⟨rfl, rfl⟩, Or.inl h1⟩))
      · cases h2 : env.node_on_flood p0 (s.m_map p0) (turnNode env p0 s)
        · exact Or.inr (Or.inr (Or.inr ⟨⟨rfl, rfl⟩, Or.inr rfl⟩))
        · exact Or.inr (Or.inr (Or.inl ⟨⟨rfl, rfl⟩, h1, rfl⟩))
    · exact Or.inr (Or.inl ⟨rfl, rfl⟩)

/-- The floodable substitute of a voxel that reaches the decision is other than air exactly
when the voxel is a floodable non-liquid other than air. -/
theorem floodable_node_substitute (env : Env) (p0 : v3s16) (s : LoopState)
    (hp : (turnInfo env p0 s).proceed = true) :
    (turnInfo env p0 s).floodable_node ≠ CONTENT_AIR ↔ isSubstitute env p0 s := by
  unfold isSubstitute
  unfold turnInfo at hp ⊢
  cases ht : (env.nodedef (s.m_map p0).getContent).liquid_type with
  | LIQUID_NONE =>
    cases hf : (env.nodedef (s.m_map p0).getContent).floodable with
    | false =>
      rw [collectNode_solid env _ ht hf] at hp
      exact absurd hp (by simp)
    | true =>
      rw [collectNode_none env _ ht hf]
      simp
  | LIQUID_FLOWING =>
    rw [collectNode_flowing env _ ht]
    simp
  | LIQUID_SOURCE =>
    rw [collectNode_source env _ ht]
    simp

theorem collectNode_type (env : Env) (n0 : MapNode)
    (h : (collectNode env n0).proceed = true) :
    (collectNode env n0).liquid_type = (env.nodedef n0.getContent).liquid_type := by
  cases ht : (env.nodedef n0.getContent).liquid_type with
  | LIQUID_SOURCE => rw [collectNode_source env _ ht]
  | LIQUID_FLOWING => rw [collectNode_flowing env _ ht]
  | LIQUID_NONE =>
    cases hf : (env.nodedef n0.getContent).floodable with
    | false =>
      rw [collectNode_solid env _ ht hf] at h
      exact absurd h (by simp)
    | true => rw [collectNode_none env _ ht hf]

/-- The test of lines 323-327 in words. -/
theorem unchanged_iff (env : Env) (n0 : MapNode) (sc : Scan) (d : Decision) :
    unchanged env n0 sc d = true ↔
      d.new_node_content = n0.getContent ∧
        ((env.nodedef n0.getContent).liquid_type = LIQUID_FLOWING →
          n0.param2 &&& LIQUID_LEVEL_MASK = to_u8 d.new_node_level ∧
            (n0.param2 &&& LIQUID_FLOW_DOWN_MASK = LIQUID_FLOW_DOWN_MASK ↔
              sc.flowing_down = true)) := by
  unfold unchanged
  cases hf : sc.flowing_down <;>
    by_cases ht : (env.nodedef n0.getContent).liquid_type = LIQUID_FLOWING <;>
    simp [ht]

/-- The decision marks the voxel for a forced re-queue exactly when it is taken by the
no-source step and the level decided differs from the candidate level. -/
theorem push_reflow_iff (env : Env) (info : NodeInfo) (sc : Scan) :
    (decideNode env info sc).push_reflow = true ↔
      ¬ step1Applies env info sc ∧ ¬ step2Applies sc ∧ ¬ step3Applies info sc ∧
        (decideNode env info sc).new_node_level ≠ (decideNode env info sc).max_node_level := by
  by_cases h1 : step1Applies env info sc
  · rw [decideNode_step1 env info sc h1]
    simp [h1]
  · by_cases h2 : step2Applies sc
    · rw [decideNode_step2 env info sc h1 h2]
      simp [h2]
    · by_cases h3 : step3Applies info sc
      · rw [decideNode_step3 env info sc h1 h2 h3]
        simp [h3]
      · rw [decideNode_step4 env info sc h1 h2 h3]
        simp only [h1, h2, h3, not_false_eq_true, true_and]
        unfold viscosityLevel
        split_ifs <;> simp

/-! ## The pushes of one turn -/

theorem nonUpperCoords_append (l : List NodeNeighbor) (r : NodeNeighbor) :
    nonUpperCoords (l ++ [r]) =
      nonUpperCoords l ++ (if r.t ≠ NEIGHBOR_UPPER then [r.p] else []) := by
  unfold nonUpperCoords
  rw [List.filter_append, List.map_append]
  by_cases h : r.t ≠ NEIGHBOR_UPPER
  · rw [if_pos h]
    simp [List.filter_cons, h]
  · rw [if_neg h]
    simp [List.filter_cons, h]

/-- One turn of the scan for a voxel that is a liquid keeps the queue equal to the entry
queue with the air-bucket neighbours other than the upper one pushed onto it. -/
theorem scanNeighbor_queue_airs (env : Env) (m : v3s16 → MapNode) (p0 : v3s16)
    (lt : LiquidType) (hlt : lt ≠ LIQUID_NONE) (sc : Scan) (i : Nat) (q0 : List v3s16)
    (h : sc.m_queue = (nonUpperCoords sc.airs).foldl push_back q0) :
    (scanNeighbor env m p0 lt sc i).m_queue =
      (nonUpperCoords (scanNeighbor env m p0 lt sc i).airs).foldl push_back q0 := by
  unfold scanNeighbor
  simp only []
  split
  · split_ifs <;>
      simp only [nonUpperCoords_append, List.foldl_append, ← h] <;>
      simp_all
  · split_ifs <;> exact h
  · split_ifs <;> exact h

theorem scan_foldl_queue_airs (env : Env) (m : v3s16 → MapNode) (p0 : v3s16)
    (lt : LiquidType) (hlt : lt ≠ LIQUID_NONE) (q0 : List v3s16) (l : List Nat) :
    ∀ sc : Scan, sc.m_queue = (nonUpperCoords sc.airs).foldl push_back q0 →
      (l.foldl (scanNeighbor env m p0 lt) sc).m_queue =
        (nonUpperCoords (l.foldl (scanNeighbor env m p0 lt) sc).airs).foldl push_back q0 := by
  induction l with
  | nil => intro sc h; exact h
  | cons a l ih =>
    intro sc h
    rw [List.foldl_cons]
    exact ih _ (scanNeighbor_queue_airs env m p0 lt hlt sc a q0 h)

/-- The queue after the scan of a turn: the queue before with the scan's pushes. -/
theorem turnScan_queue (env : Env) (p0 : v3s16) (s : LoopState) :
    (turnScan env p0 s).m_queue = (scanPushes env p0 s).foldl push_back s.m_queue := by
  unfold scanPushes
  by_cases hlt : (turnInfo env p0 s).liquid_type = LIQUID_NONE
  · rw [if_neg (fun hc => hc hlt)]
    unfold turnScan
    rw [hlt]
    exact scanNeighbors_queue_none env s.m_map p0 _ s.m_queue
  · rw [if_pos hlt]
    unfold turnScan scanNeighbors
    exact scan_foldl_queue_airs env s.m_map p0 _ hlt s.m_queue _ _ rfl

/-- The pushes after a commit, by the liquid type of the content committed. -/
theorem enqueueNeighbors_eq (env : Env) (n0 : MapNode) (sc : Scan) (q : List v3s16) :
    enqueueNeighbors env n0 sc q =
      (match (env.nodedef n0.getContent).liquid_type with
        | LIQUID_NONE => sc.flows.map (fun (f : NodeNeighbor) => f.p)
        | _ => nonUpperCoords sc.flows ++ nonUpperCoords sc.airs).foldl push_back q := by
  unfold enqueueNeighbors nonUpperCoords
  cases (env.nodedef n0.getContent).liquid_type <;> simp only [List.foldl_append]

/-- The queue after a turn: the queue before with the coordinates scheduled in the turn
pushed onto it in order. -/
theorem transformNode_queue (env : Env) (p0 : v3s16) (s : LoopState) :
    (transformNode env p0 s).m_queue = (scheduled env p0 s).foldl push_back s.m_queue := by
  unfold scheduled
  rw [List.foldl_append, ← turnScan_queue]
  rcases turn_cases env p0 s with h | h | h | h
  · have hn : ¬ committed env p0 s := fun hc => by
      have := hc.1.1
      rw [h] at this
      exact absurd this (by simp)
    rw [if_neg hn, transformNode_skip env p0 s h]
    have hq := turnScan_queue env p0 s
    unfold scanPushes at hq
    have hlt : (turnInfo env p0 s).liquid_type = LIQUID_NONE := by
      unfold turnInfo at h ⊢
      cases ht : (env.nodedef (s.m_map p0).getContent).liquid_type with
      | LIQUID_SOURCE =>
        rw [collectNode_source env _ ht] at h
        exact absurd h (by simp)
      | LIQUID_FLOWING =>
        rw [collectNode_flowing env _ ht] at h
        exact absurd h (by simp)
      | LIQUID_NONE =>
        unfold collectNode
        simp only [ht]
        split_ifs <;> rfl
    rw [if_neg (fun hc => hc hlt)] at hq
    rw [hq]
    rfl
  · have hn : ¬ committed env p0 s := fun hc => by
      have := hc.1.2
      rw [h.2] at this
      exact absurd this (by simp)
    rw [if_neg hn, transformNode_dropped env p0 s h]
    rfl
  · have hn : ¬ committed env p0 s := fun hc => by
      rcases hc.2 with h1 | h1
      · exact h.2.1 h1
      · rw [h.2.2] at h1
        exact absurd h1 (by simp)
    rw [if_neg hn, transformNode_vetoed env p0 s h.1 h.2.1 h.2.2]
    rfl
  · rw [if_pos h, transformNode_committed env p0 s h]
    unfold commitNode
    simp only []
    rw [enqueueNeighbors_eq]
    unfold commitPushes
    simp only [clearLight_content]
    unfold turnNode
    rw [updatedNode_content]

/-! ## The six neighbour coordinates and the entries of the buckets -/

/-- The six neighbour coordinates of a voxel are different from each other. -/
theorem neighbor_coord_injective (p0 : v3s16) (i j : Nat) (hi : i < 6) (hj : j < 6)
    (h : p0.add (liquid_6dirs i) = p0.add (liquid_6dirs j)) : i = j := by
  have hx := congrArg v3s16.X h
  have hy := congrArg v3s16.Y h
  have hz := congrArg v3s16.Z h
  interval_cases i <;> interval_cases j <;>
    simp only [v3s16.add, liquid_6dirs, wrap_s16] at hx hy hz <;>
    first
    | rfl
    | omega

/-- No neighbour coordinate of a voxel is the voxel's own. -/
theorem neighbor_coord_ne_self (p0 : v3s16) (i : Nat) (hi : i < 6) :
    p0.add (liquid_6dirs i) ≠ p0 := by
  intro h
  have hx := congrArg v3s16.X h
  have hy := congrArg v3s16.Y h
  have hz := congrArg v3s16.Z h
  interval_cases i <;>
    simp only [v3s16.add, liquid_6dirs, wrap_s16] at hx hy hz <;>
    omega

theorem placedIn_bucketOf (before after : Scan) (r : NodeNeighbor) (c : Bucket)
    (h : placedIn before after r c) (b : Bucket) :
    bucketOf after b = bucketOf before b ++ (if b = c then [r] else []) := by
  cases b <;> cases c <;> simp only [placedIn] at h <;> obtain ⟨h1, h2, h3, h4⟩ := h <;>
    simp [bucketOf, h1, h2, h3, h4]

theorem placedNowhere_bucketOf (before after : Scan) (h : placedNowhere before after)
    (b : Bucket) : bucketOf after b = bucketOf before b := by
  obtain ⟨h1, h2, h3, h4⟩ := h
  cases b <;> simp [bucketOf, h1, h2, h3, h4]

/-- Every entry of a bucket is the record of a neighbour that the scan put there in that
neighbour's turn. -/
theorem bucket_mem (env : Env) (m : v3s16 → MapNode) (p0 : v3s16) (lt : LiquidType)
    (k : Nat) (q : List v3s16) (b : Bucket) (n : Nat) :
    ∀ r ∈ bucketOf (scanUpTo env m p0 lt k q n) b,
      ∃ i, i < n ∧ r = neighborRecord m p0 i ∧
        placedIn (scanUpTo env m p0 lt k q i) (scanUpTo env m p0 lt k q (i + 1)) r b := by
  induction n with
  | zero =>
    intro r hr
    cases b <;> simp [bucketOf, scanUpTo, scanInit] at hr
  | succ j ih =>
    intro r hr
    have hp := scanNeighbor_placed env m p0 lt (scanUpTo env m p0 lt k q j) j
    rw [← scanUpTo_succ] at hp
    by_cases hc : (neighborLiquid env m p0 j = LIQUID_SOURCE ∧
        neighborFamily env m p0 j = (scanUpTo env m p0 lt k q (j + 1)).liquid_kind ∧
        neighborType j = NEIGHBOR_LOWER)
    · rw [placedNowhere_bucketOf _ _ (hp.1 hc)] at hr
      obtain ⟨i, hi, h1, h2⟩ := ih r hr
      exact ⟨i, by omega, h1, h2⟩
    · obtain ⟨c, hpl⟩ := hp.2 hc
      rw [placedIn_bucketOf _ _ _ c hpl b, List.mem_append] at hr
      rcases hr with hr | hr
      · obtain ⟨i, hi, h1, h2⟩ := ih r hr
        exact ⟨i, by omega, h1, h2⟩
      · by_cases hbc : b = c
        · rw [if_pos hbc, List.mem_singleton] at hr
          subst hbc
          subst hr
          exact ⟨j, by omega, rfl, hpl⟩
        · rw [if_neg hbc] at hr
          exact absurd hr (List.not_mem_nil _)

theorem nonUpperCoords_mem (l : List NodeNeighbor) (c : v3s16) (h : c ∈ nonUpperCoords l) :
    ∃ r, r ∈ l ∧ r.t ≠ NEIGHBOR_UPPER ∧ r.p = c := by
  unfold nonUpperCoords at h
  rw [List.mem_map] at h
  obtain ⟨r, hr, hc⟩ := h
  rw [List.mem_filter] at hr
  exact ⟨r, hr.1, by simpa using hr.2, hc⟩

/-- Every coordinate scheduled in a turn is that of an entry of the air or of the flow
bucket, and that of the upper neighbour only after a commit of a non-liquid content. -/
theorem scheduled_mem (env : Env) (p0 : v3s16) (s : LoopState) (c : v3s16)
    (h : c ∈ scheduled env p0 s) :
    ∃ r, (r ∈ (turnScan env p0 s).airs ∨ r ∈ (turnScan env p0 s).flows) ∧ r.p = c ∧
      (r.t = NEIGHBOR_UPPER →
        committed env p0 s ∧
          (env.nodedef (turnDecision env p0 s).new_node_content).liquid_type = LIQUID_NONE ∧
          r ∈ (turnScan env p0 s).flows) := by
  unfold scheduled at h
  rw [List.mem_append] at h
  rcases h with h | h
  · unfold scanPushes at h
    split_ifs at h with hlt
    · obtain ⟨r, hr, ht, hc⟩ := nonUpperCoords_mem _ c h
      exact ⟨r, Or.inl hr, hc, fun hu => absurd hu ht⟩
    · exact absurd h (List.not_mem_nil _)
  · split_ifs at h with hcm
    · unfold commitPushes at h
      cases hty : (env.nodedef (turnDecision env p0 s).new_node_content).liquid_type with
      | LIQUID_NONE =>
        rw [hty] at h
        simp only [] at h
        rw [List.mem_map] at h
        obtain ⟨r, hr, hc⟩ := h
        exact ⟨r, Or.inr hr, hc, fun _ => ⟨hcm, rfl, hr⟩⟩
      | LIQUID_FLOWING =>
        rw [hty] at h
        simp only [] at h
        rw [List.mem_append] at h
        rcases h with h | h
        · obtain ⟨r, hr, ht, hc⟩ := nonUpperCoords_mem _ c h
          exact ⟨r, Or.inr hr, hc, fun hu => absurd hu ht⟩
        · obtain ⟨r, hr, ht, hc⟩ := nonUpperCoords_mem _ c h
          exact ⟨r, Or.inl hr, hc, fun hu => absurd hu ht⟩
      | LIQUID_SOURCE =>
        rw [hty] at h
        simp only [] at h
        rw [List.mem_append] at h
        rcases h with h | h
        · obtain ⟨r, hr, ht, hc⟩ := nonUpperCoords_mem _ c h
          exact ⟨r, Or.inr hr, hc, fun hu => absurd hu ht⟩
        · obtain ⟨r, hr, ht, hc⟩ := nonUpperCoords_mem _ c h
          exact ⟨r, Or.inl hr, hc, fun hu => absurd hu ht⟩
    · exact absurd h (List.not_mem_nil _)

/-- An entry of the air or flow bucket of a turn is the record of one of the six
neighbours, put there in that neighbour's turn of the scan. -/
theorem turnScan_mem (env : Env) (p0 : v3s16) (s : LoopState) (r : NodeNeighbor)
    (h : r ∈ (turnScan env p0 s).airs ∨ r ∈ (turnScan env p0 s).flows) :
    ∃ i b, i < 6 ∧ (b = Bucket.Air ∨ b = Bucket.Flow) ∧ r = neighborRecord s.m_map p0 i ∧
      placedIn
        (scanUpTo env s.m_map p0 (turnInfo env p0 s).liquid_type
          (turnInfo env p0 s).liquid_kind s.m_queue i)
        (scanUpTo env s.m_map p0 (turnInfo env p0 s).liquid_type
          (turnInfo env p0 s).liquid_kind s.m_queue (i + 1)) r b := by
  have hsix : turnScan env p0 s = scanUpTo env s.m_map p0 (turnInfo env p0 s).liquid_type
      (turnInfo env p0 s).liquid_kind s.m_queue 6 := by
    rw [scanUpTo_six]
    rfl
  rw [hsix] at h
  rcases h with h | h
  · obtain ⟨i, hi, h1, h2⟩ := bucket_mem env s.m_map p0 _ _ s.m_queue Bucket.Air 6 r h
    exact ⟨i, Bucket.Air, hi, Or.inl rfl, h1, h2⟩
  · obtain ⟨i, hi, h1, h2⟩ := bucket_mem env s.m_map p0 _ _ s.m_queue Bucket.Flow 6 r h
    exact ⟨i, Bucket.Flow, hi, Or.inr rfl, h1, h2⟩

/-- The voxel of a turn is not among the coordinates scheduled in it. -/
theorem neighbour_coord_self_free (env : Env) (p0 : v3s16) (s : LoopState) :
    p0 ∉ scheduled env p0 s := by
  intro hmem
  obtain ⟨r, hr, hc, _⟩ := scheduled_mem env p0 s _ hmem
  obtain ⟨j, c, hj, hcb, hrj, hplj⟩ := turnScan_mem env p0 s r hr
  apply neighbor_coord_ne_self p0 j hj
  have hp : (neighborRecord s.m_map p0 j).p = p0.add (liquid_6dirs j) := rfl
  rw [← hp, ← hrj, hc]

/-! ## C23: which neighbours a turn schedules -/

/-- C23: for every voxel and every turn of the loop, the queue after the turn is the queue
before it with the scheduled coordinates pushed onto it in order, and these are exactly:
(i) from the scan, when the voxel is a Source or Flowing, the air-bucket neighbours other
than the upper one, whether or not the voxel changes; (ii) after a committed change to a
Source or Flowing content, the flow-bucket and then the air-bucket neighbours other than
the upper one; (iii) after a committed change to a non-liquid content, every flow-bucket
neighbour.  Without a commit only (i) is scheduled.  A neighbour put into the neutral or
the source bucket is never scheduled, the upper neighbour is scheduled only in case (iii),
and the voxel itself is never among the scheduled coordinates. -/
theorem neighbour_scheduling (env : Env) (p0 : v3s16) (s : LoopState) :
    (transformNode env p0 s).m_queue = (scheduled env p0 s).foldl push_back s.m_queue ∧
    ((turnInfo env p0 s).liquid_type ≠ LIQUID_NONE →
      scanPushes env p0 s = nonUpperCoords (turnScan env p0 s).airs) ∧
    ((turnInfo env p0 s).liquid_type = LIQUID_NONE → scanPushes env p0 s = []) ∧
    (¬ committed env p0 s → scheduled env p0 s = scanPushes env p0 s) ∧
    (committed env p0 s →
      (env.nodedef (turnDecision env p0 s).new_node_content).liquid_type ≠ LIQUID_NONE →
      scheduled env p0 s =
        scanPushes env p0 s ++
          (nonUpperCoords (turnScan env p0 s).flows ++
            nonUpperCoords (turnScan env p0 s).airs)) ∧
    (committed env p0 s →
      (env.nodedef (turnDecision env p0 s).new_node_content).liquid_type = LIQUID_NONE →
      scheduled env p0 s =
        scanPushes env p0 s ++ (turnScan env p0 s).flows.map (fun f => f.p)) ∧
    (∀ i b, i < 6 → (b = Bucket.Neutral ∨ b = Bucket.Source) →
      placedIn
        (scanUpTo env s.m_map p0 (turnInfo env p0 s).liquid_type
          (turnInfo env p0 s).liquid_kind s.m_queue i)
        (scanUpTo env s.m_map p0 (turnInfo env p0 s).liquid_type
          (turnInfo env p0 s).liquid_kind s.m_queue (i + 1))
        (neighborRecord s.m_map p0 i) b →
      p0.add (liquid_6dirs i) ∉ scheduled env p0 s) ∧
    (p0.add (liquid_6dirs 0) ∈ scheduled env p0 s →
      committed env p0 s ∧
        (env.nodedef (turnDecision env p0 s).new_node_content).liquid_type = LIQUID_NONE ∧
        neighborRecord s.m_map p0 0 ∈ (turnScan env p0 s).flows) ∧
    p0 ∉ scheduled env p0 s := by
  refine ⟨transformNode_queue env p0 s, ?_, ?_, ?_, ?_, ?_, ?_, ?_, ?_⟩
  · intro h
    unfold scanPushes
    rw [if_pos h]
  · intro h
    unfold scanPushes
    rw [if_neg (fun hc => hc h)]
  · intro h
    unfold scheduled
    rw [if_neg h, List.append_nil]
  · intro h hty
    unfold scheduled commitPushes
    rw [if_pos h]
    cases hc : (env.nodedef (turnDecision env p0 s).new_node_content).liquid_type with
    | LIQUID_NONE => exact absurd hc hty
    | LIQUID_FLOWING => rfl
    | LIQUID_SOURCE => rfl
  · intro h hty
    unfold scheduled commitPushes
    rw [if_pos h, hty]
  · intro i b hi hb hpl hmem
    obtain ⟨r, hr, hc, _⟩ := scheduled_mem env p0 s _ hmem
    obtain ⟨j, c, hj, hcb, hrj, hplj⟩ := turnScan_mem env p0 s r hr
    have hij : j = i := by
      apply neighbor_coord_injective p0 j i hj hi
      rw [← hc, hrj]
      rfl
    subst hij
    rw [hrj] at hplj
    have := placedIn_unique _ _ _ _ _ hpl hplj
    rcases hb with hb | hb <;> rcases hcb with hcb | hcb <;> rw [hb, hcb] at this <;>
      exact absurd this (by decide)
  · intro hmem
    obtain ⟨r, hr, hc, hup⟩ := scheduled_mem env p0 s _ hmem
    obtain ⟨j, c, hj, hcb, hrj, hplj⟩ := turnScan_mem env p0 s r hr
    have hj0 : j = 0 := by
      apply neighbor_coord_injective p0 j 0 hj (by omega)
      rw [← hc, hrj]
      rfl
    subst hj0
    have ht : r.t = NEIGHBOR_UPPER := by rw [hrj]; rfl
    obtain ⟨h1, h2, h3⟩ := hup ht
    exact ⟨h1, h2, by rw [← hrj]; exact h3⟩
  · intro hmem
    obtain ⟨r, hr, hc, _⟩ := scheduled_mem env p0 s _ hmem
    obtain ⟨j, c, hj, hcb, hrj, hplj⟩ := turnScan_mem env p0 s r hr
    apply neighbor_coord_ne_self p0 j hj
    have hp : (neighborRecord s.m_map p0 j).p = p0.add (liquid_6dirs j) := rfl
    rw [← hp, ← hrj, hc]

/-! ## C24: a voxel that the change test drops -/

/-- A Source or Flowing voxel that the change test drops is not marked for a forced
re-queue. -/
theorem dropped_liquid_no_reflow (env : Env) (p0 : v3s16) (s : LoopState)
    (h : droppedByChangeTest env p0 s)
    (hlt : (turnInfo env p0 s).liquid_type ≠ LIQUID_NONE) :
    (turnDecision env p0 s).push_reflow = false := by
  by_contra hpr
  rw [Bool.not_eq_false] at hpr
  unfold turnDecision at hpr
  obtain ⟨h1, h2, h3, hne⟩ := (push_reflow_iff env _ _).mp hpr
  have hty : (turnInfo env p0 s).liquid_type = LIQUID_FLOWING := by
    cases ht : (turnInfo env p0 s).liquid_type with
    | LIQUID_NONE => exact absurd ht hlt
    | LIQUID_SOURCE => exact absurd (Or.inr ht) h1
    | LIQUID_FLOWING => rfl
  have hty0 : (env.nodedef (s.m_map p0).getContent).liquid_type = LIQUID_FLOWING := by
    rw [← collectNode_type env _ h.1]
    exact hty
  have hu := ((unchanged_iff env _ _ _).mp h.2).2 hty0
  unfold turnDecision at hu
  have hlv := collectNode_level env (s.m_map p0)
  have hlvl : (turnInfo env p0 s).liquid_level =
      (((s.m_map p0).param2 &&& LIQUID_LEVEL_MASK : Nat) : Int) := hlv.2.2.2.2 hty
  have hle : (turnInfo env p0 s).liquid_level ≤ 7 := hlv.2.2.1 (by
    intro hc
    have : (turnInfo env p0 s).liquid_type = LIQUID_SOURCE := hc
    rw [hty] at this
    exact absurd this (by decide))
  have hge : -1 ≤ (turnInfo env p0 s).liquid_level := hlv.1
  have hmx := maxInflow_bounds (turnScan env p0 s).flows
  rw [decideNode_step4 env _ _ h1 h2 h3] at hne hu
  simp only [] at hne hu
  by_cases hv : (env.nodedef (turnScan env p0 s).liquid_kind).liquid_viscosity ≤ 1 ∨
      maxInflow (turnScan env p0 s).flows = (turnInfo env p0 s).liquid_level
  · rw [viscosityLevel_direct _ _ _ hv] at hne
    exact hne rfl
  · rw [not_or] at hv
    have hmv := viscosityLevel_move _ (turnInfo env p0 s).liquid_level
      (maxInflow (turnScan env p0 s).flows) (Nat.lt_of_not_le hv.1) ⟨hge, hle⟩ hmx hv.2
    have hlevel := hu.1
    unfold to_u8 at hlevel
    generalize (viscosityLevel (env.nodedef (turnScan env p0 s).liquid_kind).liquid_viscosity
      (turnInfo env p0 s).liquid_level (maxInflow (turnScan env p0 s).flows)).1 = nl
      at hmv hlevel
    generalize (turnInfo env p0 s).liquid_level = lv at *
    generalize maxInflow (turnScan env p0 s).flows = mx at *
    generalize (s.m_map p0).param2 &&& LIQUID_LEVEL_MASK = pl at *
    have hcases : lv < mx ∨ mx < lv := by
      rcases lt_trichotomy lv mx with hlt | heq | hgt
      · exact Or.inl hlt
      · exact absurd heq.symm hv.2
      · exact Or.inr hgt
    rcases hcases with hc | hc
    · have := hmv.1 hc
      omega
    · have := hmv.2.1 hc
      omega

/-- C24 fails on the code.  An air voxel beside flowing water of level 4, of a well-formed
family with viscosity 2 and range 4: the candidate level is 3, the level allowed by the
viscosity is 1, so line 308 puts the voxel on `must_reflow`; only then the cutoff of line
313 finds the candidate out of range, the content decided is air, the voxel's own, and the
`continue` of line 328 drops the voxel with the mark in place.  Nothing is written, but the
invocation pushes the voxel back onto the queue, and so does every later one: the queue of
a region in which nothing changes does not drain. -/
theorem dropped_voxel_requeued :
    droppedByChangeTest (waterEnv 2 4 false) ⟨0, 10, 0⟩
        (stateOf [] (mapOf [(⟨1, 10, 0⟩, ⟨11, 0, 4⟩)])) ∧
      (turnDecision (waterEnv 2 4 false) ⟨0, 10, 0⟩
        (stateOf [] (mapOf [(⟨1, 10, 0⟩, ⟨11, 0, 4⟩)]))) = ⟨CONTENT_AIR, 1, 3, true⟩ ∧
      mapOf [(⟨1, 10, 0⟩, ⟨11, 0, 4⟩)] ⟨0, 10, 0⟩ = ⟨CONTENT_AIR, 0, 0⟩ ∧
      (transformNode (waterEnv 2 4 false) ⟨0, 10, 0⟩
        (stateOf [] (mapOf [(⟨1, 10, 0⟩, ⟨11, 0, 4⟩)]))).must_reflow = [⟨0, 10, 0⟩] ∧
      ((systemOf [⟨0, 10, 0⟩] (mapOf [(⟨1, 10, 0⟩, ⟨11, 0, 4⟩)])).run (waterEnv 2 4 false) 0
        []).changed_nodes = [] ∧
      ((systemOf [⟨0, 10, 0⟩] (mapOf [(⟨1, 10, 0⟩, ⟨11, 0, 4⟩)])).run (waterEnv 2 4 false) 0
        []).sys.m_map ⟨0, 10, 0⟩ = ⟨CONTENT_AIR, 0, 0⟩ ∧
      ((systemOf [⟨0, 10, 0⟩] (mapOf [(⟨1, 10, 0⟩, ⟨11, 0, 4⟩)])).run (waterEnv 2 4 false) 0
        []).sys.m_queue = [⟨0, 10, 0⟩] ∧
      (runMany (waterEnv 2 4 false) [0, 0, 0]
        (systemOf [⟨0, 10, 0⟩] (mapOf [(⟨1, 10, 0⟩, ⟨11, 0, 4⟩)])) []).map
          (fun r => (r.dequeued, r.changed_nodes.length, r.sys.m_queue)) =
        [([⟨0, 10, 0⟩], 0, [⟨0, 10, 0⟩]), ([⟨0, 10, 0⟩], 0, [⟨0, 10, 0⟩]),
          ([⟨0, 10, 0⟩], 0, [⟨0, 10, 0⟩])] := by
  decide

/-- A turn that the change test drops, as the code runs it: the store, the hook calls, the
change records, the falling checks, the rollback actions and the modified blocks are as
before, and the queue only receives what the scan scheduled, the voxel itself not among
it.  The mark on `must_reflow` of line 308 stays when it was made, which is when the
decision was taken by the no-source step and the level decided differs from the candidate
level; that is never so for a voxel that is a Source or Flowing, nor for a family of
viscosity at most 1. -/
theorem dropped_turn_effects (env : Env) (p0 : v3s16) (s : LoopState)
    (h : droppedByChangeTest env p0 s) :
    ((turnDecision env p0 s).new_node_content = (s.m_map p0).getContent ∧
      ((env.nodedef (s.m_map p0).getContent).liquid_type = LIQUID_FLOWING →
        (s.m_map p0).param2 &&& LIQUID_LEVEL_MASK =
            to_u8 (turnDecision env p0 s).new_node_level ∧
          ((s.m_map p0).param2 &&& LIQUID_FLOW_DOWN_MASK = LIQUID_FLOW_DOWN_MASK ↔
            (turnScan env p0 s).flowing_down = true))) ∧
    (transformNode env p0 s).m_map = s.m_map ∧
    (transformNode env p0 s).flood_calls = s.flood_calls ∧
    (transformNode env p0 s).changed_nodes = s.changed_nodes ∧
    (transformNode env p0 s).check_for_falling = s.check_for_falling ∧
    (transformNode env p0 s).rollback_actions = s.rollback_actions ∧
    (transformNode env p0 s).modified_blocks = s.modified_blocks ∧
    (transformNode env p0 s).m_queue = (scanPushes env p0 s).foldl push_back s.m_queue ∧
    p0 ∉ scanPushes env p0 s ∧
    (transformNode env p0 s).must_reflow =
      (if (turnDecision env p0 s).push_reflow = true then s.must_reflow ++ [p0]
        else s.must_reflow) ∧
    ((turnDecision env p0 s).push_reflow = true ↔
      ¬ step1Applies env (turnInfo env p0 s) (turnScan env p0 s) ∧
        ¬ step2Applies (turnScan env p0 s) ∧
        ¬ step3Applies (turnInfo env p0 s) (turnScan env p0 s) ∧
        (turnDecision env p0 s).new_node_level ≠ (turnDecision env p0 s).max_node_level) ∧
    ((turnInfo env p0 s).liquid_type ≠ LIQUID_NONE →
      (transformNode env p0 s).must_reflow = s.must_reflow) ∧
    ((env.nodedef (turnScan env p0 s).liquid_kind).liquid_viscosity ≤ 1 →
      (transformNode env p0 s).must_reflow = s.must_reflow) := by
  have ht := transformNode_dropped env p0 s h
  have hiff := push_reflow_iff env (turnInfo env p0 s) (turnScan env p0 s)
  refine ⟨(unchanged_iff env _ _ _).mp h.2, by rw [ht], by rw [ht], by rw [ht], by rw [ht],
    by rw [ht], by rw [ht], ?_, ?_, by rw [ht], hiff, ?_, ?_⟩
  · rw [ht]
    exact turnScan_queue env p0 s
  · intro hmem
    have hs : p0 ∈ scheduled env p0 s := by
      unfold scheduled
      exact List.mem_append_left _ hmem
    exact (neighbour_coord_self_free env p0 s) hs
  · intro hlt
    rw [ht]
    simp only []
    rw [dropped_liquid_no_reflow env p0 s h hlt]
    simp
  · intro hv
    rw [ht]
    simp only []
    have hpr : (turnDecision env p0 s).push_reflow = false := by
      rw [← Bool.not_eq_true]
      intro hc
      obtain ⟨h1, h2, h3, hne⟩ := hiff.mp hc
      rw [decideNode_step4 env _ _ h1 h2 h3] at hne
      simp only [] at hne
      rw [viscosityLevel_direct _ _ _ (Or.inl hv)] at hne
      exact hne rfl
    rw [hpr]
    simp

/-! ## C25: when the flood hook is asked -/

/-- The calls of the flood hook after a turn that passes the change test. -/
theorem transformNode_flood_calls (env : Env) (p0 : v3s16) (s : LoopState)
    (h : passesChangeTest env p0 s) :
    (transformNode env p0 s).flood_calls =
      if (turnInfo env p0 s).floodable_node ≠ CONTENT_AIR then
        s.flood_calls ++ [(p0, s.m_map p0, turnNode env p0 s)]
      else s.flood_calls := by
  by_cases h1 : (turnInfo env p0 s).floodable_node = CONTENT_AIR
  · rw [transformNode_committed env p0 s ⟨h, Or.inl h1⟩]
    rfl
  · cases h2 : env.node_on_flood p0 (s.m_map p0) (turnNode env p0 s)
    · rw [transformNode_committed env p0 s ⟨h, Or.inr h2⟩]
      rfl
    · rw [transformNode_vetoed env p0 s h h1 h2, if_pos h1]

/-- C25: for every voxel that passes the change test, the flood hook is called, once and
with the coordinate, the node as it was and the node decided, exactly when the voxel's
content was a floodable non-liquid other than air; for a voxel that was air the hook is not
called, so whatever the hook would answer the decided node is committed: the voxel holds the
decided content after its turn (unless that content is the unresolved sentinel, which the
store does not place). -/
theorem flood_hook_on_substitutes (env : Env) (p0 : v3s16) (s : LoopState)
    (h : passesChangeTest env p0 s) :
    (isSubstitute env p0 s →
      (transformNode env p0 s).flood_calls =
        s.flood_calls ++ [(p0, s.m_map p0, turnNode env p0 s)]) ∧
    (¬ isSubstitute env p0 s → (transformNode env p0 s).flood_calls = s.flood_calls) ∧
    ((s.m_map p0).getContent = CONTENT_AIR →
      (transformNode env p0 s).flood_calls = s.flood_calls ∧
        committed env p0 s ∧
        ((turnDecision env p0 s).new_node_content ≠ CONTENT_IGNORE →
          ((transformNode env p0 s).m_map p0).getContent =
              (turnDecision env p0 s).new_node_content ∧
            ((transformNode env p0 s).m_map p0).param2 = (turnNode env p0 s).param2)) := by
  have hsub := floodable_node_substitute env p0 s h.1
  have hcalls := transformNode_flood_calls env p0 s h
  have hnot : ¬ isSubstitute env p0 s → (transformNode env p0 s).flood_calls = s.flood_calls := by
    intro hn
    rw [hcalls, if_neg (fun hc => hn (hsub.mp hc))]
  refine ⟨?_, hnot, ?_⟩
  · intro hs
    rw [hcalls, if_pos (hsub.mpr hs)]
  · intro hair
    have hn : ¬ isSubstitute env p0 s := fun hs => hs.2.2 hair
    have h1 : (turnInfo env p0 s).floodable_node = CONTENT_AIR := by
      by_contra hc
      exact hn (hsub.mp hc)
    have hc : committed env p0 s := ⟨h, Or.inl h1⟩
    refine ⟨hnot hn, hc, ?_⟩
    intro hne
    rw [transformNode_committed env p0 s hc]
    exact commitNode_content env p0 _ (s.m_map p0) (turnScan env p0 s)
      (turnDecision env p0 s) _ hne

/-- C25 at the air voxel under the source of `test_liquid.cpp`, whose flood hook vetoes
every call: the hook is not asked and the voxel becomes flowing water. -/
theorem flood_hook_on_substitutes_witness :
    passesChangeTest testEnv ⟨0, 9, 0⟩ (stateOf [] testMap) ∧
      testEnv.node_on_flood ⟨0, 9, 0⟩ ⟨CONTENT_AIR, 0, 0⟩ ⟨1, 0, 15⟩ = true ∧
      (turnDecision testEnv ⟨0, 9, 0⟩ (stateOf [] testMap)).new_node_content = 1 ∧
      (transformNode testEnv ⟨0, 9, 0⟩ (stateOf [] testMap)).flood_calls = [] ∧
      ((transformNode testEnv ⟨0, 9, 0⟩ (stateOf [] testMap)).m_map ⟨0, 9, 0⟩).getContent =
        (turnDecision testEnv ⟨0, 9, 0⟩ (stateOf [] testMap)).new_node_content :=
  ⟨by decide, by decide, by decide,
    ((flood_hook_on_substitutes testEnv ⟨0, 9, 0⟩ (stateOf [] testMap) (by decide)).2.2
      (by decide)).1,
    (((flood_hook_on_substitutes testEnv ⟨0, 9, 0⟩ (stateOf [] testMap) (by decide)).2.2
      (by decide)).2.2 (by decide)).1⟩

/-! ## The family the scan ends with -/

/-- One turn of the scan keeps the family or takes that of the liquid it looks at, and
keeps the source bucket unless it looks at a liquid of the family it leaves. -/
theorem scanNeighbor_family (env : Env) (m : v3s16 → MapNode) (p0 : v3s16)
    (lt : LiquidType) (sc : Scan) (i : Nat) :
    ((scanNeighbor env m p0 lt sc i).liquid_kind = sc.liquid_kind ∨
        (neighborLiquid env m p0 i ≠ LIQUID_NONE ∧
          neighborFamily env m p0 i = (scanNeighbor env m p0 lt sc i).liquid_kind)) ∧
      ((scanNeighbor env m p0 lt sc i).sources = sc.sources ∨
        (neighborLiquid env m p0 i ≠ LIQUID_NONE ∧
          neighborFamily env m p0 i = (scanNeighbor env m p0 lt sc i).liquid_kind)) := by
  unfold neighborLiquid neighborFamily neighborNode
  unfold scanNeighbor
  simp only []
  split <;> split_ifs <;> simp_all

/-- The family after `n` turns of the scan is the one it started with or a registered
family, and a registered family when the source bucket is not empty. -/
theorem scanUpTo_family (env : Env) (m : v3s16 → MapNode) (p0 : v3s16) (lt : LiquidType)
    (k : Nat) (q : List v3s16) (n : Nat) :
    ((scanUpTo env m p0 lt k q n).liquid_kind = k ∨
        isFamily env (scanUpTo env m p0 lt k q n).liquid_kind) ∧
      ((scanUpTo env m p0 lt k q n).sources ≠ [] →
        isFamily env (scanUpTo env m p0 lt k q n).liquid_kind) := by
  induction n with
  | zero =>
    refine ⟨Or.inl rfl, fun h => absurd rfl h⟩
  | succ j ih =>
    obtain ⟨hk, hs⟩ := scanNeighbor_family env m p0 lt (scanUpTo env m p0 lt k q j) j
    rw [← scanUpTo_succ] at hk hs
    have hfam : (neighborLiquid env m p0 j ≠ LIQUID_NONE ∧
        neighborFamily env m p0 j = (scanUpTo env m p0 lt k q (j + 1)).liquid_kind) →
        isFamily env (scanUpTo env m p0 lt k q (j + 1)).liquid_kind :=
      fun h => ⟨(neighborNode m p0 j).getContent, h.1, h.2⟩
    refine ⟨?_, ?_⟩
    · rcases hk with hk | hk
      · rw [hk]
        exact ih.1
      · exact Or.inr (hfam hk)
    · intro hne
      rcases hs with hs | hs
      · rw [hs] at hne
        rcases hk with hk | hk
        · rw [hk]
          exact ih.2 hne
        · exact hfam hk
      · exact hfam hs

/-! ## The content decided under a complete registry -/

theorem isFamily_complete (env : Env) (hb : builtinEntries env) (hc : registryComplete env)
    (k : Nat) (h : isFamily env k) :
    k ≠ CONTENT_IGNORE ∧
      (env.nodedef (env.nodedef k).liquid_alternative_source_id).liquid_type = LIQUID_SOURCE ∧
      (env.nodedef k).liquid_alternative_source_id ≠ CONTENT_IGNORE := by
  obtain ⟨c, h1, h2⟩ := h
  have := hc c h1
  rw [h2] at this
  refine ⟨this.1, this.2, ?_⟩
  intro hi
  have h3 := this.2
  rw [hi, hb.1] at h3
  exact absurd h3 (by decide)

/-- The family and the substitute of a turn under a complete registry. -/
theorem turn_family (env : Env) (p0 : v3s16) (s : LoopState) (hb : builtinEntries env)
    (hc : registryComplete env) (hp : (turnInfo env p0 s).proceed = true) :
    (turnScan env p0 s).liquid_kind ≠ CONTENT_IGNORE ∧
      ((turnInfo env p0 s).liquid_type = LIQUID_SOURCE ∨ (turnScan env p0 s).sources ≠ [] →
        isFamily env (turnScan env p0 s).liquid_kind) ∧
      ((turnInfo env p0 s).liquid_type = LIQUID_FLOWING →
        (turnScan env p0 s).liquid_kind = (s.m_map p0).getContent ∧
          (turnInfo env p0 s).floodable_node = CONTENT_AIR ∧
          (s.m_map p0).getContent ≠ CONTENT_AIR) ∧
      (turnInfo env p0 s).floodable_node ≠ CONTENT_IGNORE := by
  have hsix : turnScan env p0 s = scanUpTo env s.m_map p0 (turnInfo env p0 s).liquid_type
      (turnInfo env p0 s).liquid_kind s.m_queue 6 := by
    rw [scanUpTo_six]
    rfl
  have hfam := scanUpTo_family env s.m_map p0 (turnInfo env p0 s).liquid_type
    (turnInfo env p0 s).liquid_kind s.m_queue 6
  rw [← hsix] at hfam
  unfold turnInfo at hp
  cases ht : (env.nodedef (s.m_map p0).getContent).liquid_type with
  | LIQUID_SOURCE =>
    have hinfo : turnInfo env p0 s = _ := collectNode_source env _ ht
    rw [hinfo] at hfam ⊢
    simp only [] at hfam ⊢
    have hk : isFamily env (turnScan env p0 s).liquid_kind := by
      rcases hfam.1 with h | h
      · rw [h]
        exact ⟨(s.m_map p0).getContent, by rw [ht]; decide, rfl⟩
      · exact h
    exact ⟨(isFamily_complete env hb hc _ hk).1, fun _ => hk,
      fun h => absurd h (by decide), by decide⟩
  | LIQUID_FLOWING =>
    have hinfo : turnInfo env p0 s = _ := collectNode_flowing env _ ht
    have hair : (s.m_map p0).getContent ≠ CONTENT_AIR := by
      intro h
      rw [h, hb.2.2.1] at ht
      exact absurd ht (by decide)
    have hstable : (turnScan env p0 s).liquid_kind = (s.m_map p0).getContent := by
      unfold turnScan
      rw [hinfo]
      exact scanNeighbors_kind_stable env s.m_map p0 _ _ s.m_queue hair
    rw [hinfo] at hfam ⊢
    simp only [] at hfam ⊢
    refine ⟨?_, ?_, fun _ => ⟨hstable, trivial, hair⟩, by decide⟩
    · rw [hstable]
      intro h
      rw [h, hb.1] at ht
      exact absurd ht (by decide)
    · rintro (h | h)
      · exact absurd h (by decide)
      · exact hfam.2 h
  | LIQUID_NONE =>
    cases hf : (env.nodedef (s.m_map p0).getContent).floodable with
    | false =>
      rw [collectNode_solid env _ ht hf] at hp
      exact absurd hp (by simp)
    | true =>
      have hinfo : turnInfo env p0 s = _ := collectNode_none env _ ht hf
      rw [hinfo] at hfam ⊢
      simp only [] at hfam ⊢
      refine ⟨?_, ?_, fun h => absurd h (by decide), ?_⟩
      · rcases hfam.1 with h | h
        · rw [h]
          decide
        · exact (isFamily_complete env hb hc _ h).1
      · rintro (h | h)
        · exact absurd h (by decide)
        · exact hfam.2 h
      · intro h
        rw [h, hb.2.1] at hf
        exact absurd hf (by decide)

theorem decideNode_content_cases (env : Env) (info : NodeInfo) (sc : Scan)
    (h1 : ¬ step1Applies env info sc) :
    (decideNode env info sc).new_node_content = sc.liquid_kind ∨
      (decideNode env info sc).new_node_content = info.floodable_node := by
  by_cases h2 : step2Applies sc
  · rw [decideNode_step2 env info sc h1 h2]
    simp only []
    split_ifs
    · exact Or.inl rfl
    · exact Or.inr rfl
  · by_cases h3 : step3Applies info sc
    · rw [decideNode_step3 env info sc h1 h2 h3]
      exact Or.inl rfl
    · rw [decideNode_step4 env info sc h1 h2 h3]
      simp only []
      split_ifs
      · exact Or.inl rfl
      · exact Or.inr rfl

/-- Under a complete registry the content decided for a voxel is never the unresolved
sentinel, and when it is the voxel's own Flowing content the level decided is in 0..7. -/
theorem decided_content (env : Env) (p0 : v3s16) (s : LoopState) (hb : builtinEntries env)
    (hc : registryComplete env) (hp : (turnInfo env p0 s).proceed = true) :
    (turnDecision env p0 s).new_node_content ≠ CONTENT_IGNORE ∧
      ((turnDecision env p0 s).new_node_content = (s.m_map p0).getContent →
        (env.nodedef (s.m_map p0).getContent).liquid_type = LIQUID_FLOWING →
        0 ≤ (turnDecision env p0 s).new_node_level ∧
          (turnDecision env p0 s).new_node_level ≤ 7) := by
  obtain ⟨hk, hfam, hflow, hfn⟩ := turn_family env p0 s hb hc hp
  by_cases h1 : step1Applies env (turnInfo env p0 s) (turnScan env p0 s)
  · have hisf : isFamily env (turnScan env p0 s).liquid_kind := by
      apply hfam
      rcases h1 with h | h
      · right
        intro hnil
        rw [hnil] at h
        exact absurd h.1 (by simp)
      · exact Or.inl h
    obtain ⟨_, hsrc, hsi⟩ := isFamily_complete env hb hc _ hisf
    have hd : (turnDecision env p0 s).new_node_content =
        (env.nodedef (turnScan env p0 s).liquid_kind).liquid_alternative_source_id := by
      unfold turnDecision
      rw [decideNode_step1 env _ _ h1]
    rw [hd]
    refine ⟨hsi, ?_⟩
    intro heq hty
    rw [heq, hty] at hsrc
    exact absurd hsrc (by decide)
  · have hcases := decideNode_content_cases env (turnInfo env p0 s) (turnScan env p0 s) h1
    refine ⟨?_, ?_⟩
    · unfold turnDecision
      rcases hcases with h | h
      · rw [h]
        exact hk
      · rw [h]
        exact hfn
    · intro heq hty
      have hlt : (turnInfo env p0 s).liquid_type = LIQUID_FLOWING := by
        unfold turnInfo
        rw [collectNode_type env _ hp]
        exact hty
      obtain ⟨hkind, hfl, hair⟩ := hflow hlt
      apply decideNode_level_bounds env (s.m_map p0) (turnScan env p0 s) h1
      · rw [hkind]
        exact heq
      · rw [hkind]
        intro h
        apply hair
        rw [h]
        exact hfl

theorem updatedNode_param2 (env : Env) (n0 : MapNode) (sc : Scan) (d : Decision)
    (h : (env.nodedef d.new_node_content).liquid_type = LIQUID_FLOWING) :
    (updatedNode env n0 sc d).param2 =
      (if sc.flowing_down then LIQUID_FLOW_DOWN_MASK else 0x00) |||
        (d.new_node_level % 8).toNat := by
  unfold updatedNode
  simp only [h, if_true]
  rfl

theorem flag_bits (k : Nat) (hk : k ≤ 7) (b : Bool) :
    (((if b = true then LIQUID_FLOW_DOWN_MASK else 0x00) ||| k) &&& LIQUID_FLOW_DOWN_MASK =
      LIQUID_FLOW_DOWN_MASK) ↔ b = true := by
  interval_cases k <;> cases b <;> decide

/-- Under a complete registry a committed change leaves a node that differs from the one
that was there in content or auxiliary byte. -/
theorem committed_node_differs (env : Env) (p0 : v3s16) (s : LoopState)
    (hb : builtinEntries env) (hc : registryComplete env) (h : committed env p0 s) :
    ¬ sameButLight ((transformNode env p0 s).m_map p0) (s.m_map p0) := by
  obtain ⟨hd1, hd2⟩ := decided_content env p0 s hb hc h.1.1
  have hcn : ((transformNode env p0 s).m_map p0).getContent =
        (turnDecision env p0 s).new_node_content ∧
      ((transformNode env p0 s).m_map p0).param2 = (turnNode env p0 s).param2 := by
    rw [transformNode_committed env p0 s h]
    exact commitNode_content env p0 _ (s.m_map p0) (turnScan env p0 s)
      (turnDecision env p0 s) _ hd1
  intro heq
  rw [heq.1, heq.2] at hcn
  have hun : ¬ (unchanged env (s.m_map p0) (turnScan env p0 s) (turnDecision env p0 s) =
      true) := by
    rw [h.1.2]
    simp
  apply hun
  rw [unchanged_iff]
  refine ⟨hcn.1.symm, ?_⟩
  intro hty
  obtain ⟨hl0, hl7⟩ := hd2 hcn.1.symm hty
  have hty1 : (env.nodedef (turnDecision env p0 s).new_node_content).liquid_type =
      LIQUID_FLOWING := by
    rw [← hcn.1]
    exact hty
  have hp2 := hcn.2
  unfold turnNode at hp2
  rw [updatedNode_param2 env _ _ _ hty1] at hp2
  have hk : ((turnDecision env p0 s).new_node_level % 8).toNat ≤ 7 := by omega
  have hu8 : to_u8 (turnDecision env p0 s).new_node_level =
      ((turnDecision env p0 s).new_node_level % 8).toNat := by
    unfold to_u8
    omega
  rw [hp2, hu8]
  exact ⟨level_bits _ hk _, flag_bits _ hk _⟩

/-! ## What one turn writes -/

/-- A turn leaves the store alone away from its voxel, leaves it alone altogether unless
the change is committed, and makes a change record only for a committed change: the
voxel's coordinate with the node that was there. -/
theorem transformNode_frame (env : Env) (p0 : v3s16) (s : LoopState) :
    (∀ p, p ≠ p0 → (transformNode env p0 s).m_map p = s.m_map p) ∧
      (¬ committed env p0 s → (transformNode env p0 s).m_map = s.m_map) ∧
      ((transformNode env p0 s).changed_nodes = s.changed_nodes ∨
        (committed env p0 s ∧
          (transformNode env p0 s).changed_nodes =
            s.changed_nodes ++ [(p0, s.m_map p0)])) := by
  rcases turn_cases env p0 s with h | h | h | h
  · rw [transformNode_skip env p0 s h]
    exact ⟨fun _ _ => rfl, fun _ => rfl, Or.inl rfl⟩
  · rw [transformNode_dropped env p0 s h]
    exact ⟨fun _ _ => rfl, fun _ => rfl, Or.inl rfl⟩
  · rw [transformNode_vetoed env p0 s h.1 h.2.1 h.2.2]
    exact ⟨fun _ _ => rfl, fun _ => rfl, Or.inl rfl⟩
  · rw [transformNode_committed env p0 s h]
    refine ⟨?_, fun hn => absurd h hn, ?_⟩
    · intro p hp
      unfold commitNode
      simp only []
      exact setNode_other _ _ _ _ hp
    · unfold commitNode
      simp only []
      cases env.getBlockNoCreateNoEx (getNodeBlockPos p0) with
      | none => exact Or.inl rfl
      | some b => exact Or.inr ⟨h, rfl⟩

/-- A turn for a coordinate not taken before keeps the write frame. -/
theorem transformNode_writeFrame (env : Env) (m0 : v3s16 → MapNode) (s : LoopState)
    (p0 : v3s16) (rest : List v3s16) (hnew : p0 ∉ s.dequeued) (h : writeFrame m0 s) :
    writeFrame m0
      (transformNode env p0 { s with m_queue := rest, dequeued := s.dequeued ++ [p0] }) := by
  obtain ⟨h1, h2⟩ := h
  obtain ⟨t1, _, t3⟩ := transformNode_frame env p0
    { s with m_queue := rest, dequeued := s.dequeued ++ [p0] }
  have hd := transformNode_dequeued env p0
    { s with m_queue := rest, dequeued := s.dequeued ++ [p0] }
  simp only [] at t1 t3 hd
  unfold writeFrame
  rw [hd]
  refine ⟨?_, ?_⟩
  · intro p hp
    rw [List.mem_append, List.mem_singleton, not_or] at hp
    rw [t1 p hp.2]
    exact h1 p hp.1
  · intro e he
    rcases t3 with t | ⟨_, t⟩
    · rw [t] at he
      exact ⟨List.mem_append_left _ (h2 e he).1, (h2 e he).2⟩
    · rw [t, List.mem_append, List.mem_singleton] at he
      rcases he with he | he
      · exact ⟨List.mem_append_left _ (h2 e he).1, (h2 e he).2⟩
      · rw [he]
        exact ⟨List.mem_append_right _ (List.mem_singleton.mpr rfl), h1 p0 hnew⟩

/-- A turn for a coordinate not taken before keeps the records different from the store,
under a complete registry. -/
theorem transformNode_recordsDiffer (env : Env) (hb : builtinEntries env)
    (hc : registryComplete env) (m0 : v3s16 → MapNode) (s : LoopState)
    (p0 : v3s16) (rest : List v3s16) (hnew : p0 ∉ s.dequeued) (hw : writeFrame m0 s)
    (h : recordsDiffer s) :
    recordsDiffer
      (transformNode env p0 { s with m_queue := rest, dequeued := s.dequeued ++ [p0] }) := by
  obtain ⟨t1, _, t3⟩ := transformNode_frame env p0
    { s with m_queue := rest, dequeued := s.dequeued ++ [p0] }
  simp only [] at t1 t3
  have hold : ∀ e ∈ s.changed_nodes,
      ¬ sameButLight ((transformNode env p0
        { s with m_queue := rest, dequeued := s.dequeued ++ [p0] }).m_map e.1) e.2 := by
    intro e he
    have hne : e.1 ≠ p0 := by
      intro heq
      apply hnew
      rw [← heq]
      exact (hw.2 e he).1
    rw [t1 e.1 hne]
    exact h e he
  unfold recordsDiffer
  intro e he
  rcases t3 with t | ⟨hcm, t⟩
  · rw [t] at he
    exact hold e he
  · rw [t, List.mem_append, List.mem_singleton] at he
    rcases he with he | he
    · exact hold e he
    · rw [he]
      exact committed_node_differs env p0 _ hb hc hcm

/-- The relighting pass leaves the content and the auxiliary byte of every node alone. -/
theorem update_lighting_nodes_keeps (env : Env) (m : v3s16 → MapNode)
    (changed : List (v3s16 × MapNode)) (mb : List (v3s16 × Nat)) (p : v3s16) :
    sameButLight ((update_lighting_nodes env m changed mb).1 p) (m p) := by
  unfold update_lighting_nodes sameButLight
  cases changed <;> exact ⟨rfl, rfl⟩

/-- The relighting pass does nothing for an empty batch. -/
theorem update_lighting_nodes_nil (env : Env) (m : v3s16 → MapNode)
    (mb : List (v3s16 × Nat)) : update_lighting_nodes env m [] mb = (m, mb) := rfl

/-! ## C26: the write frame of an invocation -/

/-- The loop keeps the write frame, and under a complete registry the difference between
every record and the store, as long as no coordinate is taken twice. -/
theorem afterLoop_writeFrame (env : Env) (ls : LiquidSystem) (mb : List (v3s16 × Nat))
    (hnodup : ls.m_queue.Nodup) :
    writeFrame ls.m_map (afterLoop env ls mb) ∧
      (builtinEntries env → registryComplete env → recordsDiffer (afterLoop env ls mb)) := by
  have hd : (afterLoop env ls mb).dequeued.Nodup :=
    List.Nodup.sublist (afterLoop_dequeued_sublist env ls mb) hnodup
  have hsplit : ∀ (s : LoopState) (p0 : v3s16), (s.dequeued ++ [p0]).Nodup →
      s.dequeued.Nodup ∧ p0 ∉ s.dequeued := by
    intro s p0 h
    rw [List.nodup_append] at h
    exact ⟨h.1, fun hm => h.2.2 hm (List.mem_singleton.mpr rfl)⟩
  have h1 := runLoop_invariant env ls.m_queue.length (to_u32 env.liquid_loop_max)
    (fun s => s.dequeued.Nodup → writeFrame ls.m_map s)
    (fun s p0 rest hs _ hn => by
      rw [transformNode_dequeued] at hn
      obtain ⟨hn1, hn2⟩ := hsplit s p0 hn
      exact transformNode_writeFrame env ls.m_map s p0 rest hn2 (hs hn1))
    ls.m_queue.length 0 (loopInit ls mb)
    (fun _ => ⟨fun _ _ => rfl, fun e he => absurd he (List.not_mem_nil _)⟩)
  refine ⟨h1 hd, ?_⟩
  intro hb hc
  have h2 := runLoop_invariant env ls.m_queue.length (to_u32 env.liquid_loop_max)
    (fun s => s.dequeued.Nodup → writeFrame ls.m_map s ∧ recordsDiffer s)
    (fun s p0 rest hs _ hn => by
      rw [transformNode_dequeued] at hn
      obtain ⟨hn1, hn2⟩ := hsplit s p0 hn
      exact ⟨transformNode_writeFrame env ls.m_map s p0 rest hn2 (hs hn1).1,
        transformNode_recordsDiffer env hb hc ls.m_map s p0 rest hn2 (hs hn1).1
          (hs hn1).2⟩)
    ls.m_queue.length 0 (loopInit ls mb)
    (fun _ => ⟨⟨fun _ _ => rfl, fun e he => absurd he (List.not_mem_nil _)⟩,
      fun e he => absurd he (List.not_mem_nil _)⟩)
  exact (h2 hd).2

/-- A committed change whose decided content is the unresolved sentinel: the store refuses
the write, and the record is made all the same when the block is resident. -/
theorem committed_refused (env : Env) (p0 : v3s16) (s : LoopState)
    (h : committed env p0 s)
    (hi : (turnDecision env p0 s).new_node_content = CONTENT_IGNORE) :
    (transformNode env p0 s).m_map = s.m_map ∧
      (env.getBlockNoCreateNoEx (getNodeBlockPos p0) ≠ none →
        (transformNode env p0 s).changed_nodes = s.changed_nodes ++ [(p0, s.m_map p0)]) := by
  rw [transformNode_committed env p0 s h]
  unfold commitNode
  simp only []
  refine ⟨?_, ?_⟩
  · unfold setNode
    rw [if_pos]
    rw [clearLight_content, clearLight_content]
    unfold turnNode
    rw [updatedNode_content]
    exact hi
  · intro hb
    cases hblock : env.getBlockNoCreateNoEx (getNodeBlockPos p0) with
    | none => exact absurd hblock hb
    | some b => rfl

/-- The water registry is complete for its liquids. -/
theorem waterEnv_complete (v r : Nat) (b : Bool) : registryComplete (waterEnv v r b) := by
  intro c hc
  have h : c = 10 ∨ c = 11 := by
    by_contra hn
    rw [not_or] at hn
    apply hc
    show (waterDef v r c).liquid_type = LIQUID_NONE
    unfold waterDef
    split <;> first | rfl | simp_all
  rcases h with h | h <;> subst h <;>
    exact ⟨by show (11 : Nat) ≠ CONTENT_IGNORE; decide, rfl⟩

/-- C26 as stated fails: in the first invocation of `test_liquid.cpp` the content decided
for the source is the unresolved sentinel (its family has no Source form registered), the
store does not place it, and the change record is made all the same: the node at the
record's coordinate after the invocation is the prior node of the record. -/
theorem write_frame_counterexample :
    (systemOf [⟨0, 10, 0⟩] testMap).m_queue.Nodup ∧
      (turnDecision testEnv ⟨0, 10, 0⟩ (stateOf [] testMap)).new_node_content =
        CONTENT_IGNORE ∧
      ((systemOf [⟨0, 10, 0⟩] testMap).run testEnv 0 []).changed_nodes =
        [(⟨0, 10, 0⟩, ⟨0, 0, 0⟩)] ∧
      ((systemOf [⟨0, 10, 0⟩] testMap).run testEnv 0 []).sys.m_map ⟨0, 10, 0⟩ = ⟨0, 0, 0⟩ ∧
      ¬ (∀ e ∈ ((systemOf [⟨0, 10, 0⟩] testMap).run testEnv 0 []).changed_nodes,
        ((systemOf [⟨0, 10, 0⟩] testMap).run testEnv 0 []).sys.m_map e.1 ≠ e.2) := by
  decide

/-- C26 as amended: for an invocation entered with a duplicate-free queue, whatever the
relighting pass at its end writes: the store afterwards has, at every coordinate not taken
from the queue in the invocation, the content and the auxiliary byte it had at entry (only
light values can differ there, and not even they when no change record was made); every
change record is for a coordinate taken from the queue and holds the node the store had
there at entry; and under a registry that is complete for its liquids the node at the
record's coordinate afterwards differs from the record's node in content or auxiliary
byte.  Where the content decided is the unresolved sentinel, the store does not place it:
the turn leaves the store as it was, and the record is made all the same when the block is
resident. -/
theorem write_frame_amended (env : Env) (curr_time : Nat) (ls : LiquidSystem)
    (mb : List (v3s16 × Nat)) (hnodup : ls.m_queue.Nodup) :
    (∀ p, p ∉ (ls.run env curr_time mb).dequeued →
      sameButLight ((ls.run env curr_time mb).sys.m_map p) (ls.m_map p)) ∧
    ((ls.run env curr_time mb).changed_nodes = [] →
      ∀ p, p ∉ (ls.run env curr_time mb).dequeued →
        (ls.run env curr_time mb).sys.m_map p = ls.m_map p) ∧
    (∀ e ∈ (ls.run env curr_time mb).changed_nodes,
      e.1 ∈ (ls.run env curr_time mb).dequeued ∧ e.2 = ls.m_map e.1) ∧
    (builtinEntries env → registryComplete env →
      ∀ e ∈ (ls.run env curr_time mb).changed_nodes,
        ¬ sameButLight ((ls.run env curr_time mb).sys.m_map e.1) e.2 ∧
          (ls.run env curr_time mb).sys.m_map e.1 ≠ e.2) ∧
    (∀ (p0 : v3s16) (s : LoopState), committed env p0 s →
      (turnDecision env p0 s).new_node_content = CONTENT_IGNORE →
      (transformNode env p0 s).m_map = s.m_map ∧
        (env.getBlockNoCreateNoEx (getNodeBlockPos p0) ≠ none →
          (transformNode env p0 s).changed_nodes =
            s.changed_nodes ++ [(p0, s.m_map p0)])) := by
  obtain ⟨h1, _, _, _, _, _, _, h8⟩ := run_outputs env curr_time ls mb
  obtain ⟨hw, hr⟩ := afterLoop_writeFrame env ls mb hnodup
  have hkeep := update_lighting_nodes_keeps env (afterLoop env ls mb).m_map
    (afterLoop env ls mb).changed_nodes (afterLoop env ls mb).modified_blocks
  rw [h1, h8, run_dequeued_eq]
  refine ⟨?_, ?_, hw.2, ?_, fun p0 s h hi => committed_refused env p0 s h hi⟩
  · intro p hp
    have := hkeep p
    rw [hw.1 p hp] at this
    exact this
  · intro hnil p hp
    rw [hnil, update_lighting_nodes_nil]
    exact hw.1 p hp
  · intro hb hc e he
    have hd : ¬ sameButLight ((update_lighting_nodes env (afterLoop env ls mb).m_map
        (afterLoop env ls mb).changed_nodes (afterLoop env ls mb).modified_blocks).1 e.1)
        e.2 := by
      intro hs
      apply hr hb hc e he
      exact ⟨(hkeep e.1).1.symm.trans hs.1, (hkeep e.1).2.symm.trans hs.2⟩
    refine ⟨hd, ?_⟩
    intro heq
    apply hd
    rw [heq]
    exact ⟨rfl, rfl⟩

/-- C26 as amended, at the air voxel under a water source of a complete registry: the one
change record holds the air that was there, and the voxel now holds flowing water. -/
theorem write_frame_amended_witness :
    (systemOf [⟨0, 9, 0⟩] (mapOf [(⟨0, 10, 0⟩, ⟨10, 0, 0⟩)])).m_queue.Nodup ∧
      ((systemOf [⟨0, 9, 0⟩] (mapOf [(⟨0, 10, 0⟩, ⟨10, 0, 0⟩)])).run (waterEnv 7 7 true) 0
        []).changed_nodes = [(⟨0, 9, 0⟩, ⟨CONTENT_AIR, 0, 0⟩)] ∧
      ((systemOf [⟨0, 9, 0⟩] (mapOf [(⟨0, 10, 0⟩, ⟨10, 0, 0⟩)])).run (waterEnv 7 7 true) 0
        []).sys.m_map ⟨0, 9, 0⟩ = ⟨11, 0, 15⟩ ∧
      ∀ e ∈ ((systemOf [⟨0, 9, 0⟩] (mapOf [(⟨0, 10, 0⟩, ⟨10, 0, 0⟩)])).run
          (waterEnv 7 7 true) 0 []).changed_nodes,
        ((systemOf [⟨0, 9, 0⟩] (mapOf [(⟨0, 10, 0⟩, ⟨10, 0, 0⟩)])).run (waterEnv 7 7 true) 0
          []).sys.m_map e.1 ≠ e.2 :=
  ⟨by decide, by decide, by decide,
    fun e he => ((write_frame_amended (waterEnv 7 7 true) 0
      (systemOf [⟨0, 9, 0⟩] (mapOf [(⟨0, 10, 0⟩, ⟨10, 0, 0⟩)])) [] (by decide)).2.2.2.1
      (by decide) (waterEnv_complete 7 7 true) e he).2⟩

end Minetest
